import Mathlib

/-!
# MobileESP `uagent_info` (vendor/ahand/mobileesp/Cpp/mdetect.h)

A shallow embedding of the C++ device classifier and a verification of its
specification.

* A `std::string` is a list of bytes (`Str`).
* `std::string::find` returns the index of the first occurrence, or `npos`
  (`size_t(-1)`, LP64).
* `::tolower` is the "C" locale fold: `A`..`Z` to `a`..`z`, every other byte kept.
* A `uagent_info` object is a record of its twelve members. Every method is given
  twice: as a function of that record (`uagent_info.Detect*`), and as a call that
  runs on the object and returns the object it leaves (`Call.Detect*`); the second is
  proved to return the value of the first and the object unchanged.
-/

namespace MobileESP

/-! ## Strings -/

/-- A `std::string`: a sequence of bytes. -/
abbrev Str := List Nat

/-- The bytes of an ASCII string literal. -/
def bytes (s : String) : Str := s.toList.map Char.toNat

/-- The value `std::string::npos` (`static_cast<size_t>(-1)` with a 64 bit `size_t`). -/
def npos : Nat := 18446744073709551615

/-- The C library `tolower` in the "C" locale. -/
def tolower (c : Nat) : Nat := if 65 ≤ c ∧ c ≤ 90 then c + 32 else c

/-- The call `std::transform(s.begin(), s.end(), s.begin(), ::tolower)`. -/
def transform_tolower (s : Str) : Str := s.map tolower

/-- Whether `pat` occurs in `s` at position 0. -/
def startsWith : Str → Str → Bool
  | _, [] => true
  | [], _ :: _ => false
  | c :: s, p :: pat => c == p && startsWith s pat

/-- Search for the first occurrence of `pat` in `s`, where `s` is the part of the
string that starts at index `i`. -/
def findFrom : Str → Str → Nat → Nat
  | [], pat, i => if startsWith [] pat then i else npos
  | c :: s, pat, i => if startsWith (c :: s) pat then i else findFrom s pat (i + 1)

/-- The call `s.find(pat)`: index of the first occurrence of `pat`, or `npos`. -/
def find (s pat : Str) : Nat := findFrom s pat 0

/-- The test `s.find(pat) != std::string::npos`, as a proposition-free abbreviation
used to state properties ("the string contains the token"). -/
def contains (s pat : Str) : Bool := find s pat != npos

/-! ## The signature table -/

def engineWebKit : Str := bytes "webkit"

def deviceIphone : Str := bytes "iphone"
def deviceIpod : Str := bytes "ipod"
def deviceIpad : Str := bytes "ipad"
def deviceMacPpc : Str := bytes "macintosh"

def deviceAndroid : Str := bytes "android"
def deviceGoogleTV : Str := bytes "googletv"
def deviceHtcFlyer : Str := bytes "htc_flyer"

def deviceWinPhone7 : Str := bytes "windows phone os 7"
def deviceWinPhone8 : Str := bytes "windows phone 8"
def deviceWinPhone10 : Str := bytes "windows phone 10"
def deviceWinMob : Str := bytes "windows ce"
def deviceWindows : Str := bytes "windows"
def deviceIeMob : Str := bytes "iemobile"
def devicePpc : Str := bytes "ppc"
def enginePie : Str := bytes "wm5 pie"

def deviceBB : Str := bytes "blackberry"
def deviceBB10 : Str := bytes "bb10"
def vndRIM : Str := bytes "vnd.rim"
def deviceBBStorm : Str := bytes "blackberry95"
def deviceBBBold : Str := bytes "blackberry97"
def deviceBBBoldTouch : Str := bytes "blackberry 99"
def deviceBBTour : Str := bytes "blackberry96"
def deviceBBCurve : Str := bytes "blackberry89"
def deviceBBCurveTouch : Str := bytes "blackberry 938"
def deviceBBTorch : Str := bytes "blackberry 98"
def deviceBBPlaybook : Str := bytes "playbook"

def deviceSymbian : Str := bytes "symbian"
def deviceS60 : Str := bytes "series60"
def deviceS70 : Str := bytes "series70"
def deviceS80 : Str := bytes "series80"
def deviceS90 : Str := bytes "series90"

def devicePalm : Str := bytes "palm"
def deviceWebOS : Str := bytes "webos"
def deviceWebOStv : Str := bytes "web0s"
def deviceWebOShp : Str := bytes "hpwos"

def engineBlazer : Str := bytes "blazer"
def engineXiino : Str := bytes "xiino"

def deviceNuvifone : Str := bytes "nuvifone"
def deviceBada : Str := bytes "bada"
def deviceTizen : Str := bytes "tizen"
def deviceMeego : Str := bytes "meego"
def deviceSailfish : Str := bytes "sailfish"
def deviceUbuntu : Str := bytes "ubuntu"

def deviceKindle : Str := bytes "kindle"
def engineSilk : Str := bytes "silk-accelerated"

def vndwap : Str := bytes "vnd.wap"
def wml : Str := bytes "wml"

def deviceTablet : Str := bytes "tablet"
def deviceBrew : Str := bytes "brew"
def deviceDanger : Str := bytes "danger"
def deviceHiptop : Str := bytes "hiptop"
def devicePlaystation : Str := bytes "playstation"
def devicePlaystationVita : Str := bytes "vita"
def deviceNintendoDs : Str := bytes "nitro"
def deviceNintendo : Str := bytes "nintendo"
def deviceWii : Str := bytes "wii"
def deviceXbox : Str := bytes "xbox"
def deviceArchos : Str := bytes "archos"

def engineFirefox : Str := bytes "firefox"
def engineOpera : Str := bytes "opera"
def engineNetfront : Str := bytes "netfront"
def engineUpBrowser : Str := bytes "up.browser"
def engineOpenWeb : Str := bytes "openweb"
def deviceMidp : Str := bytes "midp"
def uplink : Str := bytes "up.link"
def engineTelecaQ : Str := bytes "teleca q"

def devicePda : Str := bytes "pda"
def mini : Str := bytes "mini"
def mobile : Str := bytes "mobile"
def mobi : Str := bytes "mobi"

def smartTV1 : Str := bytes "smart-tv"
def smartTV2 : Str := bytes "smarttv"

def maemo : Str := bytes "maemo"
def llinux : Str := bytes "linux"
def qtembedded : Str := bytes "qt embedded"
def mylocom2 : Str := bytes "com2"

def manuSonyEricsson : Str := bytes "sonyericsson"
def manuericsson : Str := bytes "ericsson"
def manuSamsung1 : Str := bytes "sec-sgh"
def manuSony : Str := bytes "sony"
def manuHtc : Str := bytes "htc"

def svcDocomo : Str := bytes "docomo"
def svcKddi : Str := bytes "kddi"
def svcVodafone : Str := bytes "vodafone"

def disUpdate : Str := bytes "update"

/-! ## The class `uagent_info` -/

/-- The data members of a `uagent_info` object. -/
structure uagent_info where
  useragent : Str
  httpaccept : Str
  initCompleted : Bool
  isWebkit : Bool
  isMobilePhone : Bool
  isIphone : Bool
  isAndroid : Bool
  isAndroidPhone : Bool
  isTierTablet : Bool
  isTierIphone : Bool
  isTierRichCss : Bool
  isTierGenericMobile : Bool
deriving DecidableEq, Repr

/-- The two lowercased header strings of an object, the only input of the uncached
rules (section "The uncached rules"). -/
structure Headers where
  useragent : Str
  httpaccept : Str
deriving DecidableEq, Repr

namespace uagent_info

/-- The header strings stored in an object. -/
def headers (s : uagent_info) : Headers :=
  { useragent := s.useragent, httpaccept := s.httpaccept }

/-- Accessor `Get_Uagent`. -/
def Get_Uagent (s : uagent_info) : Str := s.useragent

/-- Accessor `Get_HttpAccept`. -/
def Get_HttpAccept (s : uagent_info) : Str := s.httpaccept

def DetectWebkit (s : uagent_info) : Bool :=
  if s.initCompleted == true || s.isWebkit == true then s.isWebkit
  else if find s.useragent engineWebKit != npos then true
  else false

def DetectIpod (s : uagent_info) : Bool :=
  if find s.useragent deviceIpod != npos then true else false

def DetectIpad (s : uagent_info) : Bool :=
  if find s.useragent deviceIpad != npos && s.DetectWebkit == true then true else false

def DetectIphone (s : uagent_info) : Bool :=
  if s.initCompleted == true || s.isIphone == true then s.isIphone
  else if find s.useragent deviceIphone != npos then
    (if s.DetectIpad == true || s.DetectIpod == true then false else true)
  else false

def DetectIphoneOrIpod (s : uagent_info) : Bool :=
  if s.DetectIphone == true || s.DetectIpod == true then true else false

def DetectIos (s : uagent_info) : Bool :=
  if s.DetectIphoneOrIpod == true || s.DetectIpad == true then true else false

def DetectGoogleTV (s : uagent_info) : Bool :=
  if find s.useragent deviceGoogleTV != npos then true else false

def DetectAndroid (s : uagent_info) : Bool :=
  if s.initCompleted == true || s.isAndroid == true then s.isAndroid
  else if find s.useragent deviceAndroid != npos || s.DetectGoogleTV == true then true
  else false

def DetectOperaMobile (s : uagent_info) : Bool :=
  if find s.useragent engineOpera != npos then
    (if find s.useragent mini != npos || find s.useragent mobi != npos then true else false)
  else false

def DetectAndroidPhone (s : uagent_info) : Bool :=
  if s.initCompleted == true || s.isAndroidPhone == true then s.isAndroidPhone
  else if s.DetectAndroid == false then false
  else if find s.useragent mobile != npos then true
  else if s.DetectOperaMobile == true then true
  else false

def DetectAndroidTablet (s : uagent_info) : Bool :=
  if s.DetectAndroid == false then false
  else if s.DetectOperaMobile == true then false
  else if find s.useragent mobile != npos then false
  else true

def DetectAndroidWebKit (s : uagent_info) : Bool :=
  if s.DetectAndroid == true && s.DetectWebkit == true then true else false

def DetectWindowsPhone7 (s : uagent_info) : Bool :=
  if find s.useragent deviceWinPhone7 != npos then true else false

def DetectWindowsPhone8 (s : uagent_info) : Bool :=
  if find s.useragent deviceWinPhone8 != npos then true else false

def DetectWindowsPhone10 (s : uagent_info) : Bool :=
  if find s.useragent deviceWinPhone10 != npos then true else false

def DetectWindowsPhone (s : uagent_info) : Bool :=
  if s.DetectWindowsPhone7 == true || s.DetectWindowsPhone8 == true
      || s.DetectWindowsPhone10 == true then true
  else false

def DetectWapWml (s : uagent_info) : Bool :=
  if find s.httpaccept vndwap != npos || find s.httpaccept wml != npos then true else false

def DetectWindowsMobile (s : uagent_info) : Bool :=
  if s.DetectWindowsPhone == true then false
  else if find s.useragent deviceWinMob != npos || find s.useragent deviceIeMob != npos
      || find s.useragent enginePie != npos then true
  else if find s.useragent devicePpc != npos
      && !(decide (find s.useragent deviceMacPpc > 1)) then true
  else if find s.useragent manuHtc != npos && find s.useragent deviceWindows != npos then true
  else if s.DetectWapWml == true && find s.useragent deviceWindows != npos then true
  else false

def DetectBlackBerry10Phone (s : uagent_info) : Bool :=
  if find s.useragent deviceBB10 != npos && find s.useragent mobile != npos then true
  else false

def DetectBlackBerry (s : uagent_info) : Bool :=
  if find s.useragent deviceBB != npos || find s.httpaccept vndRIM != npos then true
  else if s.DetectBlackBerry10Phone == true then true
  else false

def DetectBlackBerryTablet (s : uagent_info) : Bool :=
  if find s.useragent deviceBBPlaybook != npos then true else false

def DetectBlackBerryWebKit (s : uagent_info) : Bool :=
  if s.DetectBlackBerry == true && s.DetectWebkit == true then true else false

def DetectBlackBerryTouch (s : uagent_info) : Bool :=
  if find s.useragent deviceBBStorm != npos || find s.useragent deviceBBTorch != npos
      || find s.useragent deviceBBBoldTouch != npos
      || find s.useragent deviceBBCurveTouch != npos then true
  else false

def DetectBlackBerryHigh (s : uagent_info) : Bool :=
  if s.DetectBlackBerryWebKit == true then false
  else if s.DetectBlackBerry == true then
    (if s.DetectBlackBerryTouch == true || find s.useragent deviceBBBold != npos
        || find s.useragent deviceBBTour != npos
        || find s.useragent deviceBBCurve != npos then true
     else false)
  else false

def DetectBlackBerryLow (s : uagent_info) : Bool :=
  if s.DetectBlackBerry == true then
    (if s.DetectBlackBerryHigh == true || s.DetectBlackBerryWebKit == true then false
     else true)
  else false

def DetectS60OssBrowser (s : uagent_info) : Bool :=
  if s.DetectWebkit == true then
    (if find s.useragent deviceSymbian != npos || find s.useragent deviceS60 != npos then true
     else false)
  else false

def DetectSymbianOS (s : uagent_info) : Bool :=
  if find s.useragent deviceSymbian != npos || find s.useragent deviceS60 != npos
      || find s.useragent deviceS70 != npos || find s.useragent deviceS80 != npos
      || find s.useragent deviceS90 != npos then true
  else false

def DetectPalmWebOS (s : uagent_info) : Bool :=
  if find s.useragent deviceWebOS != npos then true else false

def DetectPalmOS (s : uagent_info) : Bool :=
  if s.DetectPalmWebOS == true then false
  else if find s.useragent devicePalm != npos || find s.useragent engineBlazer != npos
      || find s.useragent engineXiino != npos then true
  else false

def DetectWebOSTablet (s : uagent_info) : Bool :=
  if find s.useragent deviceWebOShp != npos && find s.useragent deviceTablet != npos then true
  else false

def DetectWebOSTV (s : uagent_info) : Bool :=
  if find s.useragent deviceWebOStv != npos && find s.useragent smartTV2 != npos then true
  else false

def DetectKindle (s : uagent_info) : Bool :=
  if find s.useragent deviceKindle != npos && s.DetectAndroid == false then true else false

def DetectAmazonSilk (s : uagent_info) : Bool :=
  if find s.useragent engineSilk != npos then true else false

def DetectGarminNuvifone (s : uagent_info) : Bool :=
  if find s.useragent deviceNuvifone != npos then true else false

def DetectBada (s : uagent_info) : Bool :=
  if find s.useragent deviceBada != npos then true else false

def DetectTizen (s : uagent_info) : Bool :=
  if find s.useragent deviceTizen != npos && find s.useragent mobile != npos then true
  else false

def DetectTizenTV (s : uagent_info) : Bool :=
  if find s.useragent deviceTizen != npos && find s.useragent smartTV1 != npos then true
  else false

def DetectMeego (s : uagent_info) : Bool :=
  if find s.useragent deviceMeego != npos then true else false

def DetectMeegoPhone (s : uagent_info) : Bool :=
  if find s.useragent deviceMeego != npos && find s.useragent mobi != npos then true
  else false

def DetectSailfish (s : uagent_info) : Bool :=
  if find s.useragent deviceSailfish != npos then true else false

def DetectFirefoxOSPhone (s : uagent_info) : Bool :=
  if s.DetectIos || s.DetectAndroid || s.DetectSailfish then false
  else if find s.useragent engineFirefox != npos && find s.useragent mobile != npos then true
  else false

def DetectFirefoxOSTablet (s : uagent_info) : Bool :=
  if s.DetectIos || s.DetectAndroid || s.DetectSailfish then false
  else if find s.useragent engineFirefox != npos
      && find s.useragent deviceTablet != npos then true
  else false

def DetectFirefoxOS (s : uagent_info) : Bool :=
  if s.DetectFirefoxOSPhone == true || s.DetectFirefoxOSTablet then true else false

def DetectSailfishPhone (s : uagent_info) : Bool :=
  if s.DetectSailfish == true && find s.useragent mobile != npos then true else false

def DetectUbuntuPhone (s : uagent_info) : Bool :=
  if find s.useragent deviceUbuntu != npos && find s.useragent mobile != npos then true
  else false

def DetectUbuntuTablet (s : uagent_info) : Bool :=
  if find s.useragent deviceUbuntu != npos && find s.useragent deviceTablet != npos then true
  else false

def DetectUbuntu (s : uagent_info) : Bool :=
  if s.DetectUbuntuPhone == true || s.DetectUbuntuTablet == true then true else false

def DetectDangerHiptop (s : uagent_info) : Bool :=
  if find s.useragent deviceDanger != npos || find s.useragent deviceHiptop != npos then true
  else false

def DetectSonyMylo (s : uagent_info) : Bool :=
  if find s.useragent manuSony != npos
      && (find s.useragent qtembedded != npos || find s.useragent mylocom2 != npos) then true
  else false

def DetectMaemoTablet (s : uagent_info) : Bool :=
  if find s.useragent maemo != npos then true
  else if find s.useragent llinux != npos && find s.useragent deviceTablet != npos
      && s.DetectWebOSTablet == false && s.DetectAndroid == false then true
  else false

def DetectArchos (s : uagent_info) : Bool :=
  if find s.useragent deviceArchos != npos then true else false

def DetectSonyPlaystation (s : uagent_info) : Bool :=
  if find s.useragent devicePlaystation != npos then true else false

def DetectGamingHandheld (s : uagent_info) : Bool :=
  if find s.useragent devicePlaystation != npos
      && find s.useragent devicePlaystationVita != npos then true
  else false

def DetectNintendo (s : uagent_info) : Bool :=
  if find s.useragent deviceNintendo != npos || find s.useragent deviceWii != npos
      || find s.useragent deviceNintendoDs != npos then true
  else false

def DetectXbox (s : uagent_info) : Bool :=
  if find s.useragent deviceXbox != npos then true else false

def DetectGameConsole (s : uagent_info) : Bool :=
  if s.DetectSonyPlaystation == true || s.DetectNintendo == true || s.DetectXbox == true
  then true
  else false

def DetectBrewDevice (s : uagent_info) : Bool :=
  if find s.useragent deviceBrew != npos then true else false

def DetectMidpCapable (s : uagent_info) : Bool :=
  if find s.useragent deviceMidp != npos || find s.httpaccept deviceMidp != npos then true
  else false

def DetectTierTablet (s : uagent_info) : Bool :=
  if s.initCompleted == true || s.isTierTablet == true then s.isTierTablet
  else if s.DetectIpad == true || s.DetectAndroidTablet == true
      || s.DetectBlackBerryTablet == true || s.DetectFirefoxOSTablet == true
      || s.DetectUbuntuTablet == true || s.DetectWebOSTablet == true then true
  else false

def DetectTierIphone (s : uagent_info) : Bool :=
  if s.initCompleted == true || s.isTierIphone == true then s.isTierIphone
  else if s.DetectIphoneOrIpod == true || s.DetectAndroidPhone == true
      || s.DetectWindowsPhone == true || s.DetectBlackBerry10Phone == true
      || s.DetectPalmWebOS == true || s.DetectBada == true || s.DetectTizen == true
      || s.DetectFirefoxOSPhone == true || s.DetectSailfishPhone == true
      || s.DetectUbuntuPhone == true || s.DetectGamingHandheld == true then true
  else if s.DetectBlackBerryWebKit == true && s.DetectBlackBerryTouch == true then true
  else false

def DetectSmartphone (s : uagent_info) : Bool :=
  if s.DetectTierIphone == true || s.DetectS60OssBrowser == true
      || s.DetectSymbianOS == true || s.DetectWindowsMobile == true
      || s.DetectBlackBerry == true || s.DetectMeegoPhone == true
      || s.DetectPalmWebOS == true then true
  else false

def DetectMobileQuick (s : uagent_info) : Bool :=
  if s.initCompleted == true || s.isMobilePhone == true then s.isMobilePhone
  else if s.isTierTablet == true then false
  else if s.DetectSmartphone == true then true
  else if find s.useragent mobile != npos then true
  else if s.DetectOperaMobile == true then true
  else if s.DetectKindle == true || s.DetectAmazonSilk == true then true
  else if s.DetectWapWml == true || s.DetectMidpCapable == true
      || s.DetectBrewDevice == true then true
  else if find s.useragent engineNetfront != npos
      || find s.useragent engineUpBrowser != npos then true
  else false

def DetectMobileLong (s : uagent_info) : Bool :=
  if s.DetectMobileQuick == true then true
  else if s.DetectGameConsole == true then true
  else if s.DetectDangerHiptop == true || s.DetectMaemoTablet == true
      || s.DetectSonyMylo == true || s.DetectArchos == true then true
  else if find s.useragent devicePda != npos && !(find s.useragent disUpdate != npos) then true
  else if find s.useragent uplink != npos || find s.useragent engineOpenWeb != npos
      || find s.useragent manuSamsung1 != npos || find s.useragent manuSonyEricsson != npos
      || find s.useragent manuericsson != npos || find s.useragent svcDocomo != npos
      || find s.useragent svcKddi != npos || find s.useragent svcVodafone != npos then true
  else false

def DetectTierRichCss (s : uagent_info) : Bool :=
  if s.initCompleted == true || s.isTierRichCss == true then s.isTierRichCss
  else if s.DetectMobileQuick == true then
    (if s.DetectTierIphone == true || s.DetectKindle == true then false
     else if s.DetectWebkit == true then true
     else if s.DetectS60OssBrowser == true then true
     else if s.DetectBlackBerryHigh == true then true
     else if s.DetectWindowsMobile == true then true
     else if find s.useragent engineTelecaQ != npos then true
     else false)
  else false

def DetectTierOtherPhones (s : uagent_info) : Bool :=
  if s.initCompleted == true || s.isTierGenericMobile == true then s.isTierGenericMobile
  else if s.DetectMobileLong == true && s.DetectTierIphone == false
      && s.DetectTierRichCss == false then true
  else false

/-- The `k`-th assignment of `InitDeviceScan` (counted from 0), applied to the
state left by the assignments before it. -/
def scanStep (k : Nat) (s : uagent_info) : uagent_info :=
  match k with
  | 0 => { s with isWebkit := s.DetectWebkit }
  | 1 => { s with isIphone := s.DetectIphone }
  | 2 => { s with isAndroid := s.DetectAndroid }
  | 3 => { s with isAndroidPhone := s.DetectAndroidPhone }
  | 4 => { s with isTierTablet := s.DetectTierTablet }
  | 5 => { s with isTierIphone := s.DetectTierIphone }
  | 6 => { s with isMobilePhone := s.DetectMobileQuick }
  | 7 => { s with isTierRichCss := s.DetectTierRichCss }
  | 8 => { s with isTierGenericMobile := s.DetectTierOtherPhones }
  | _ => s

/-- The state of `InitDeviceScan` after its first `k` assignments. -/
def scanPrefix : Nat → uagent_info → uagent_info
  | 0, s => s
  | k + 1, s => scanStep k (scanPrefix k s)

/-- The private method `InitDeviceScan`: nine assignments in the source order, then
`initCompleted = true`. Each right-hand side is evaluated in the state left by the
assignments before it. -/
def InitDeviceScan (s : uagent_info) : uagent_info :=
  let s := { s with isWebkit := s.DetectWebkit }
  let s := { s with isIphone := s.DetectIphone }
  let s := { s with isAndroid := s.DetectAndroid }
  let s := { s with isAndroidPhone := s.DetectAndroidPhone }
  let s := { s with isTierTablet := s.DetectTierTablet }
  let s := { s with isTierIphone := s.DetectTierIphone }
  let s := { s with isMobilePhone := s.DetectMobileQuick }
  let s := { s with isTierRichCss := s.DetectTierRichCss }
  let s := { s with isTierGenericMobile := s.DetectTierOtherPhones }
  { s with initCompleted := true }

/-- The member initialiser list of the constructor followed by the two
`std::transform` calls: the state in which `InitDeviceScan` starts. -/
def initial (user_agent accept : Str) : uagent_info :=
  { useragent := transform_tolower user_agent
    httpaccept := transform_tolower accept
    initCompleted := false
    isWebkit := false
    isMobilePhone := false
    isIphone := false
    isAndroid := false
    isAndroidPhone := false
    isTierTablet := false
    isTierIphone := false
    isTierRichCss := false
    isTierGenericMobile := false }

set_option linter.dupNamespace false in
/-- The constructor `uagent_info(user_agent, accept)`. -/
def uagent_info (user_agent accept : Str) : uagent_info :=
  InitDeviceScan (initial user_agent accept)

end uagent_info

/-! ## The uncached rules

The rule body of every method with the cache guard removed, every predicate it
calls being recomputed from the two lowercased strings. `DetectMobileQuick` reads
the member `isTierTablet` in the source; here it recomputes `DetectTierTablet`. -/

namespace Rule

def DetectWebkit (h : Headers) : Bool :=
  if find h.useragent engineWebKit != npos then true
  else false

def DetectIpod (h : Headers) : Bool :=
  if find h.useragent deviceIpod != npos then true else false

def DetectIpad (h : Headers) : Bool :=
  if find h.useragent deviceIpad != npos && DetectWebkit h == true then true else false

def DetectIphone (h : Headers) : Bool :=
  if find h.useragent deviceIphone != npos then
    (if DetectIpad h == true || DetectIpod h == true then false else true)
  else false

def DetectIphoneOrIpod (h : Headers) : Bool :=
  if DetectIphone h == true || DetectIpod h == true then true else false

def DetectIos (h : Headers) : Bool :=
  if DetectIphoneOrIpod h == true || DetectIpad h == true then true else false

def DetectGoogleTV (h : Headers) : Bool :=
  if find h.useragent deviceGoogleTV != npos then true else false

def DetectAndroid (h : Headers) : Bool :=
  if find h.useragent deviceAndroid != npos || DetectGoogleTV h == true then true
  else false

def DetectOperaMobile (h : Headers) : Bool :=
  if find h.useragent engineOpera != npos then
    (if find h.useragent mini != npos || find h.useragent mobi != npos then true else false)
  else false

def DetectAndroidPhone (h : Headers) : Bool :=
  if DetectAndroid h == false then false
  else if find h.useragent mobile != npos then true
  else if DetectOperaMobile h == true then true
  else false

def DetectAndroidTablet (h : Headers) : Bool :=
  if DetectAndroid h == false then false
  else if DetectOperaMobile h == true then false
  else if find h.useragent mobile != npos then false
  else true

def DetectAndroidWebKit (h : Headers) : Bool :=
  if DetectAndroid h == true && DetectWebkit h == true then true else false

def DetectWindowsPhone7 (h : Headers) : Bool :=
  if find h.useragent deviceWinPhone7 != npos then true else false

def DetectWindowsPhone8 (h : Headers) : Bool :=
  if find h.useragent deviceWinPhone8 != npos then true else false

def DetectWindowsPhone10 (h : Headers) : Bool :=
  if find h.useragent deviceWinPhone10 != npos then true else false

def DetectWindowsPhone (h : Headers) : Bool :=
  if DetectWindowsPhone7 h == true || DetectWindowsPhone8 h == true
      || DetectWindowsPhone10 h == true then true
  else false

def DetectWapWml (h : Headers) : Bool :=
  if find h.httpaccept vndwap != npos || find h.httpaccept wml != npos then true else false

def DetectWindowsMobile (h : Headers) : Bool :=
  if DetectWindowsPhone h == true then false
  else if find h.useragent deviceWinMob != npos || find h.useragent deviceIeMob != npos
      || find h.useragent enginePie != npos then true
  else if find h.useragent devicePpc != npos
      && !(decide (find h.useragent deviceMacPpc > 1)) then true
  else if find h.useragent manuHtc != npos && find h.useragent deviceWindows != npos then true
  else if DetectWapWml h == true && find h.useragent deviceWindows != npos then true
  else false

def DetectBlackBerry10Phone (h : Headers) : Bool :=
  if find h.useragent deviceBB10 != npos && find h.useragent mobile != npos then true
  else false

def DetectBlackBerry (h : Headers) : Bool :=
  if find h.useragent deviceBB != npos || find h.httpaccept vndRIM != npos then true
  else if DetectBlackBerry10Phone h == true then true
  else false

def DetectBlackBerryTablet (h : Headers) : Bool :=
  if find h.useragent deviceBBPlaybook != npos then true else false

def DetectBlackBerryWebKit (h : Headers) : Bool :=
  if DetectBlackBerry h == true && DetectWebkit h == true then true else false

def DetectBlackBerryTouch (h : Headers) : Bool :=
  if find h.useragent deviceBBStorm != npos || find h.useragent deviceBBTorch != npos
      || find h.useragent deviceBBBoldTouch != npos
      || find h.useragent deviceBBCurveTouch != npos then true
  else false

def DetectBlackBerryHigh (h : Headers) : Bool :=
  if DetectBlackBerryWebKit h == true then false
  else if DetectBlackBerry h == true then
    (if DetectBlackBerryTouch h == true || find h.useragent deviceBBBold != npos
        || find h.useragent deviceBBTour != npos
        || find h.useragent deviceBBCurve != npos then true
     else false)
  else false

def DetectBlackBerryLow (h : Headers) : Bool :=
  if DetectBlackBerry h == true then
    (if DetectBlackBerryHigh h == true || DetectBlackBerryWebKit h == true then false
     else true)
  else false

def DetectS60OssBrowser (h : Headers) : Bool :=
  if DetectWebkit h == true then
    (if find h.useragent deviceSymbian != npos || find h.useragent deviceS60 != npos then true
     else false)
  else false

def DetectSymbianOS (h : Headers) : Bool :=
  if find h.useragent deviceSymbian != npos || find h.useragent deviceS60 != npos
      || find h.useragent deviceS70 != npos || find h.useragent deviceS80 != npos
      || find h.useragent deviceS90 != npos then true
  else false

def DetectPalmWebOS (h : Headers) : Bool :=
  if find h.useragent deviceWebOS != npos then true else false

def DetectPalmOS (h : Headers) : Bool :=
  if DetectPalmWebOS h == true then false
  else if find h.useragent devicePalm != npos || find h.useragent engineBlazer != npos
      || find h.useragent engineXiino != npos then true
  else false

def DetectWebOSTablet (h : Headers) : Bool :=
  if find h.useragent deviceWebOShp != npos && find h.useragent deviceTablet != npos then true
  else false

def DetectWebOSTV (h : Headers) : Bool :=
  if find h.useragent deviceWebOStv != npos && find h.useragent smartTV2 != npos then true
  else false

def DetectKindle (h : Headers) : Bool :=
  if find h.useragent deviceKindle != npos && DetectAndroid h == false then true else false

def DetectAmazonSilk (h : Headers) : Bool :=
  if find h.useragent engineSilk != npos then true else false

def DetectGarminNuvifone (h : Headers) : Bool :=
  if find h.useragent deviceNuvifone != npos then true else false

def DetectBada (h : Headers) : Bool :=
  if find h.useragent deviceBada != npos then true else false

def DetectTizen (h : Headers) : Bool :=
  if find h.useragent deviceTizen != npos && find h.useragent mobile != npos then true
  else false

def DetectTizenTV (h : Headers) : Bool :=
  if find h.useragent deviceTizen != npos && find h.useragent smartTV1 != npos then true
  else false

def DetectMeego (h : Headers) : Bool :=
  if find h.useragent deviceMeego != npos then true else false

def DetectMeegoPhone (h : Headers) : Bool :=
  if find h.useragent deviceMeego != npos && find h.useragent mobi != npos then true
  else false

def DetectSailfish (h : Headers) : Bool :=
  if find h.useragent deviceSailfish != npos then true else false

def DetectFirefoxOSPhone (h : Headers) : Bool :=
  if DetectIos h || DetectAndroid h || DetectSailfish h then false
  else if find h.useragent engineFirefox != npos && find h.useragent mobile != npos then true
  else false

def DetectFirefoxOSTablet (h : Headers) : Bool :=
  if DetectIos h || DetectAndroid h || DetectSailfish h then false
  else if find h.useragent engineFirefox != npos
      && find h.useragent deviceTablet != npos then true
  else false

def DetectFirefoxOS (h : Headers) : Bool :=
  if DetectFirefoxOSPhone h == true || DetectFirefoxOSTablet h then true else false

def DetectSailfishPhone (h : Headers) : Bool :=
  if DetectSailfish h == true && find h.useragent mobile != npos then true else false

def DetectUbuntuPhone (h : Headers) : Bool :=
  if find h.useragent deviceUbuntu != npos && find h.useragent mobile != npos then true
  else false

def DetectUbuntuTablet (h : Headers) : Bool :=
  if find h.useragent deviceUbuntu != npos && find h.useragent deviceTablet != npos then true
  else false

def DetectUbuntu (h : Headers) : Bool :=
  if DetectUbuntuPhone h == true || DetectUbuntuTablet h == true then true else false

def DetectDangerHiptop (h : Headers) : Bool :=
  if find h.useragent deviceDanger != npos || find h.useragent deviceHiptop != npos then true
  else false

def DetectSonyMylo (h : Headers) : Bool :=
  if find h.useragent manuSony != npos
      && (find h.useragent qtembedded != npos || find h.useragent mylocom2 != npos) then true
  else false

def DetectMaemoTablet (h : Headers) : Bool :=
  if find h.useragent maemo != npos then true
  else if find h.useragent llinux != npos && find h.useragent deviceTablet != npos
      && DetectWebOSTablet h == false && DetectAndroid h == false then true
  else false

def DetectArchos (h : Headers) : Bool :=
  if find h.useragent deviceArchos != npos then true else false

def DetectSonyPlaystation (h : Headers) : Bool :=
  if find h.useragent devicePlaystation != npos then true else false

def DetectGamingHandheld (h : Headers) : Bool :=
  if find h.useragent devicePlaystation != npos
      && find h.useragent devicePlaystationVita != npos then true
  else false

def DetectNintendo (h : Headers) : Bool :=
  if find h.useragent deviceNintendo != npos || find h.useragent deviceWii != npos
      || find h.useragent deviceNintendoDs != npos then true
  else false

def DetectXbox (h : Headers) : Bool :=
  if find h.useragent deviceXbox != npos then true else false

def DetectGameConsole (h : Headers) : Bool :=
  if DetectSonyPlaystation h == true || DetectNintendo h == true || DetectXbox h == true
  then true
  else false

def DetectBrewDevice (h : Headers) : Bool :=
  if find h.useragent deviceBrew != npos then true else false

def DetectMidpCapable (h : Headers) : Bool :=
  if find h.useragent deviceMidp != npos || find h.httpaccept deviceMidp != npos then true
  else false

def DetectTierTablet (h : Headers) : Bool :=
  if DetectIpad h == true || DetectAndroidTablet h == true
      || DetectBlackBerryTablet h == true || DetectFirefoxOSTablet h == true
      || DetectUbuntuTablet h == true || DetectWebOSTablet h == true then true
  else false

def DetectTierIphone (h : Headers) : Bool :=
  if DetectIphoneOrIpod h == true || DetectAndroidPhone h == true
      || DetectWindowsPhone h == true || DetectBlackBerry10Phone h == true
      || DetectPalmWebOS h == true || DetectBada h == true || DetectTizen h == true
      || DetectFirefoxOSPhone h == true || DetectSailfishPhone h == true
      || DetectUbuntuPhone h == true || DetectGamingHandheld h == true then true
  else if DetectBlackBerryWebKit h == true && DetectBlackBerryTouch h == true then true
  else false

def DetectSmartphone (h : Headers) : Bool :=
  if DetectTierIphone h == true || DetectS60OssBrowser h == true
      || DetectSymbianOS h == true || DetectWindowsMobile h == true
      || DetectBlackBerry h == true || DetectMeegoPhone h == true
      || DetectPalmWebOS h == true then true
  else false

def DetectMobileQuick (h : Headers) : Bool :=
  if DetectTierTablet h == true then false
  else if DetectSmartphone h == true then true
  else if find h.useragent mobile != npos then true
  else if DetectOperaMobile h == true then true
  else if DetectKindle h == true || DetectAmazonSilk h == true then true
  else if DetectWapWml h == true || DetectMidpCapable h == true
      || DetectBrewDevice h == true then true
  else if find h.useragent engineNetfront != npos
      || find h.useragent engineUpBrowser != npos then true
  else false

def DetectMobileLong (h : Headers) : Bool :=
  if DetectMobileQuick h == true then true
  else if DetectGameConsole h == true then true
  else if DetectDangerHiptop h == true || DetectMaemoTablet h == true
      || DetectSonyMylo h == true || DetectArchos h == true then true
  else if find h.useragent devicePda != npos && !(find h.useragent disUpdate != npos) then true
  else if find h.useragent uplink != npos || find h.useragent engineOpenWeb != npos
      || find h.useragent manuSamsung1 != npos || find h.useragent manuSonyEricsson != npos
      || find h.useragent manuericsson != npos || find h.useragent svcDocomo != npos
      || find h.useragent svcKddi != npos || find h.useragent svcVodafone != npos then true
  else false

def DetectTierRichCss (h : Headers) : Bool :=
  if DetectMobileQuick h == true then
    (if DetectTierIphone h == true || DetectKindle h == true then false
     else if DetectWebkit h == true then true
     else if DetectS60OssBrowser h == true then true
     else if DetectBlackBerryHigh h == true then true
     else if DetectWindowsMobile h == true then true
     else if find h.useragent engineTelecaQ != npos then true
     else false)
  else false

def DetectTierOtherPhones (h : Headers) : Bool :=
  if DetectMobileLong h == true && DetectTierIphone h == false
      && DetectTierRichCss h == false then true
  else false

end Rule

/-! ## The public queries -/

/-- The public `Detect*` methods of the class, in the order of the source. -/
inductive Query where
  | DetectIphone
  | DetectIpod
  | DetectIpad
  | DetectIphoneOrIpod
  | DetectIos
  | DetectAndroid
  | DetectAndroidPhone
  | DetectAndroidTablet
  | DetectAndroidWebKit
  | DetectGoogleTV
  | DetectWebkit
  | DetectWindowsPhone
  | DetectWindowsPhone7
  | DetectWindowsPhone8
  | DetectWindowsPhone10
  | DetectWindowsMobile
  | DetectBlackBerry
  | DetectBlackBerry10Phone
  | DetectBlackBerryTablet
  | DetectBlackBerryWebKit
  | DetectBlackBerryTouch
  | DetectBlackBerryHigh
  | DetectBlackBerryLow
  | DetectS60OssBrowser
  | DetectSymbianOS
  | DetectPalmOS
  | DetectPalmWebOS
  | DetectWebOSTablet
  | DetectWebOSTV
  | DetectOperaMobile
  | DetectKindle
  | DetectAmazonSilk
  | DetectGarminNuvifone
  | DetectBada
  | DetectTizen
  | DetectTizenTV
  | DetectMeego
  | DetectMeegoPhone
  | DetectFirefoxOS
  | DetectFirefoxOSPhone
  | DetectFirefoxOSTablet
  | DetectSailfish
  | DetectSailfishPhone
  | DetectUbuntu
  | DetectUbuntuPhone
  | DetectUbuntuTablet
  | DetectDangerHiptop
  | DetectSonyMylo
  | DetectMaemoTablet
  | DetectArchos
  | DetectGameConsole
  | DetectSonyPlaystation
  | DetectGamingHandheld
  | DetectNintendo
  | DetectXbox
  | DetectBrewDevice
  | DetectWapWml
  | DetectMidpCapable
  | DetectSmartphone
  | DetectMobileQuick
  | DetectMobileLong
  | DetectTierTablet
  | DetectTierIphone
  | DetectTierRichCss
  | DetectTierOtherPhones
deriving DecidableEq, Repr

namespace Query

/-- The value a public query returns on an object. -/
def run : Query → uagent_info → Bool
  | .DetectIphone, s => s.DetectIphone
  | .DetectIpod, s => s.DetectIpod
  | .DetectIpad, s => s.DetectIpad
  | .DetectIphoneOrIpod, s => s.DetectIphoneOrIpod
  | .DetectIos, s => s.DetectIos
  | .DetectAndroid, s => s.DetectAndroid
  | .DetectAndroidPhone, s => s.DetectAndroidPhone
  | .DetectAndroidTablet, s => s.DetectAndroidTablet
  | .DetectAndroidWebKit, s => s.DetectAndroidWebKit
  | .DetectGoogleTV, s => s.DetectGoogleTV
  | .DetectWebkit, s => s.DetectWebkit
  | .DetectWindowsPhone, s => s.DetectWindowsPhone
  | .DetectWindowsPhone7, s => s.DetectWindowsPhone7
  | .DetectWindowsPhone8, s => s.DetectWindowsPhone8
  | .DetectWindowsPhone10, s => s.DetectWindowsPhone10
  | .DetectWindowsMobile, s => s.DetectWindowsMobile
  | .DetectBlackBerry, s => s.DetectBlackBerry
  | .DetectBlackBerry10Phone, s => s.DetectBlackBerry10Phone
  | .DetectBlackBerryTablet, s => s.DetectBlackBerryTablet
  | .DetectBlackBerryWebKit, s => s.DetectBlackBerryWebKit
  | .DetectBlackBerryTouch, s => s.DetectBlackBerryTouch
  | .DetectBlackBerryHigh, s => s.DetectBlackBerryHigh
  | .DetectBlackBerryLow, s => s.DetectBlackBerryLow
  | .DetectS60OssBrowser, s => s.DetectS60OssBrowser
  | .DetectSymbianOS, s => s.DetectSymbianOS
  | .DetectPalmOS, s => s.DetectPalmOS
  | .DetectPalmWebOS, s => s.DetectPalmWebOS
  | .DetectWebOSTablet, s => s.DetectWebOSTablet
  | .DetectWebOSTV, s => s.DetectWebOSTV
  | .DetectOperaMobile, s => s.DetectOperaMobile
  | .DetectKindle, s => s.DetectKindle
  | .DetectAmazonSilk, s => s.DetectAmazonSilk
  | .DetectGarminNuvifone, s => s.DetectGarminNuvifone
  | .DetectBada, s => s.DetectBada
  | .DetectTizen, s => s.DetectTizen
  | .DetectTizenTV, s => s.DetectTizenTV
  | .DetectMeego, s => s.DetectMeego
  | .DetectMeegoPhone, s => s.DetectMeegoPhone
  | .DetectFirefoxOS, s => s.DetectFirefoxOS
  | .DetectFirefoxOSPhone, s => s.DetectFirefoxOSPhone
  | .DetectFirefoxOSTablet, s => s.DetectFirefoxOSTablet
  | .DetectSailfish, s => s.DetectSailfish
  | .DetectSailfishPhone, s => s.DetectSailfishPhone
  | .DetectUbuntu, s => s.DetectUbuntu
  | .DetectUbuntuPhone, s => s.DetectUbuntuPhone
  | .DetectUbuntuTablet, s => s.DetectUbuntuTablet
  | .DetectDangerHiptop, s => s.DetectDangerHiptop
  | .DetectSonyMylo, s => s.DetectSonyMylo
  | .DetectMaemoTablet, s => s.DetectMaemoTablet
  | .DetectArchos, s => s.DetectArchos
  | .DetectGameConsole, s => s.DetectGameConsole
  | .DetectSonyPlaystation, s => s.DetectSonyPlaystation
  | .DetectGamingHandheld, s => s.DetectGamingHandheld
  | .DetectNintendo, s => s.DetectNintendo
  | .DetectXbox, s => s.DetectXbox
  | .DetectBrewDevice, s => s.DetectBrewDevice
  | .DetectWapWml, s => s.DetectWapWml
  | .DetectMidpCapable, s => s.DetectMidpCapable
  | .DetectSmartphone, s => s.DetectSmartphone
  | .DetectMobileQuick, s => s.DetectMobileQuick
  | .DetectMobileLong, s => s.DetectMobileLong
  | .DetectTierTablet, s => s.DetectTierTablet
  | .DetectTierIphone, s => s.DetectTierIphone
  | .DetectTierRichCss, s => s.DetectTierRichCss
  | .DetectTierOtherPhones, s => s.DetectTierOtherPhones

/-- The uncached rule of a public query. -/
def rule : Query → Headers → Bool
  | .DetectIphone, h => Rule.DetectIphone h
  | .DetectIpod, h => Rule.DetectIpod h
  | .DetectIpad, h => Rule.DetectIpad h
  | .DetectIphoneOrIpod, h => Rule.DetectIphoneOrIpod h
  | .DetectIos, h => Rule.DetectIos h
  | .DetectAndroid, h => Rule.DetectAndroid h
  | .DetectAndroidPhone, h => Rule.DetectAndroidPhone h
  | .DetectAndroidTablet, h => Rule.DetectAndroidTablet h
  | .DetectAndroidWebKit, h => Rule.DetectAndroidWebKit h
  | .DetectGoogleTV, h => Rule.DetectGoogleTV h
  | .DetectWebkit, h => Rule.DetectWebkit h
  | .DetectWindowsPhone, h => Rule.DetectWindowsPhone h
  | .DetectWindowsPhone7, h => Rule.DetectWindowsPhone7 h
  | .DetectWindowsPhone8, h => Rule.DetectWindowsPhone8 h
  | .DetectWindowsPhone10, h => Rule.DetectWindowsPhone10 h
  | .DetectWindowsMobile, h => Rule.DetectWindowsMobile h
  | .DetectBlackBerry, h => Rule.DetectBlackBerry h
  | .DetectBlackBerry10Phone, h => Rule.DetectBlackBerry10Phone h
  | .DetectBlackBerryTablet, h => Rule.DetectBlackBerryTablet h
  | .DetectBlackBerryWebKit, h => Rule.DetectBlackBerryWebKit h
  | .DetectBlackBerryTouch, h => Rule.DetectBlackBerryTouch h
  | .DetectBlackBerryHigh, h => Rule.DetectBlackBerryHigh h
  | .DetectBlackBerryLow, h => Rule.DetectBlackBerryLow h
  | .DetectS60OssBrowser, h => Rule.DetectS60OssBrowser h
  | .DetectSymbianOS, h => Rule.DetectSymbianOS h
  | .DetectPalmOS, h => Rule.DetectPalmOS h
  | .DetectPalmWebOS, h => Rule.DetectPalmWebOS h
  | .DetectWebOSTablet, h => Rule.DetectWebOSTablet h
  | .DetectWebOSTV, h => Rule.DetectWebOSTV h
  | .DetectOperaMobile, h => Rule.DetectOperaMobile h
  | .DetectKindle, h => Rule.DetectKindle h
  | .DetectAmazonSilk, h => Rule.DetectAmazonSilk h
  | .DetectGarminNuvifone, h => Rule.DetectGarminNuvifone h
  | .DetectBada, h => Rule.DetectBada h
  | .DetectTizen, h => Rule.DetectTizen h
  | .DetectTizenTV, h => Rule.DetectTizenTV h
  | .DetectMeego, h => Rule.DetectMeego h
  | .DetectMeegoPhone, h => Rule.DetectMeegoPhone h
  | .DetectFirefoxOS, h => Rule.DetectFirefoxOS h
  | .DetectFirefoxOSPhone, h => Rule.DetectFirefoxOSPhone h
  | .DetectFirefoxOSTablet, h => Rule.DetectFirefoxOSTablet h
  | .DetectSailfish, h => Rule.DetectSailfish h
  | .DetectSailfishPhone, h => Rule.DetectSailfishPhone h
  | .DetectUbuntu, h => Rule.DetectUbuntu h
  | .DetectUbuntuPhone, h => Rule.DetectUbuntuPhone h
  | .DetectUbuntuTablet, h => Rule.DetectUbuntuTablet h
  | .DetectDangerHiptop, h => Rule.DetectDangerHiptop h
  | .DetectSonyMylo, h => Rule.DetectSonyMylo h
  | .DetectMaemoTablet, h => Rule.DetectMaemoTablet h
  | .DetectArchos, h => Rule.DetectArchos h
  | .DetectGameConsole, h => Rule.DetectGameConsole h
  | .DetectSonyPlaystation, h => Rule.DetectSonyPlaystation h
  | .DetectGamingHandheld, h => Rule.DetectGamingHandheld h
  | .DetectNintendo, h => Rule.DetectNintendo h
  | .DetectXbox, h => Rule.DetectXbox h
  | .DetectBrewDevice, h => Rule.DetectBrewDevice h
  | .DetectWapWml, h => Rule.DetectWapWml h
  | .DetectMidpCapable, h => Rule.DetectMidpCapable h
  | .DetectSmartphone, h => Rule.DetectSmartphone h
  | .DetectMobileQuick, h => Rule.DetectMobileQuick h
  | .DetectMobileLong, h => Rule.DetectMobileLong h
  | .DetectTierTablet, h => Rule.DetectTierTablet h
  | .DetectTierIphone, h => Rule.DetectTierIphone h
  | .DetectTierRichCss, h => Rule.DetectTierRichCss h
  | .DetectTierOtherPhones, h => Rule.DetectTierOtherPhones h

end Query

/-! ## The methods as calls on an object

The member functions of the class are not `const`: a call runs on the object and may
assign members. Here every method is a computation in the state monad over the
object: it returns a value together with the object it leaves. Members are read from
the current object, calls are sequenced in the order of the source, and `||` and `&&`
between calls short-circuit (`<||>`, `<&&>`). The only assignments of the source are
those of `InitDeviceScan` (`modify`) and of the constructor. -/

namespace Call

/-- The value of an expression over the members of the current object. -/
def read {α : Type} (f : uagent_info → α) : StateM uagent_info α := do
  return f (← get)

/-- The comparison `m() == true` of the result of a call. -/
def eqTrue (m : StateM uagent_info Bool) : StateM uagent_info Bool := do
  return (← m) == true

/-- The comparison `m() == false` of the result of a call. -/
def eqFalse (m : StateM uagent_info Bool) : StateM uagent_info Bool := do
  return (← m) == false

def Get_Uagent : StateM uagent_info Str := do
  return (← read (fun o => o.useragent))

def Get_HttpAccept : StateM uagent_info Str := do
  return (← read (fun o => o.httpaccept))

def DetectWebkit : StateM uagent_info Bool := do
  if (← read (fun o => o.initCompleted == true || o.isWebkit == true)) then
    return (← read (fun o => o.isWebkit))
  if (← read (fun o => find o.useragent engineWebKit != npos)) then return true
  else return false

def DetectIpod : StateM uagent_info Bool := do
  if (← read (fun o => find o.useragent deviceIpod != npos)) then return true
  else return false

def DetectIpad : StateM uagent_info Bool := do
  if (← read (fun o => find o.useragent deviceIpad != npos)
        <&&> eqTrue DetectWebkit) then return true
  else return false

def DetectIphone : StateM uagent_info Bool := do
  if (← read (fun o => o.initCompleted == true || o.isIphone == true)) then
    return (← read (fun o => o.isIphone))
  if (← read (fun o => find o.useragent deviceIphone != npos)) then
    if (← eqTrue DetectIpad <||> eqTrue DetectIpod) then return false
    else return true
  else return false

def DetectIphoneOrIpod : StateM uagent_info Bool := do
  if (← eqTrue DetectIphone <||> eqTrue DetectIpod) then return true
  else return false

def DetectIos : StateM uagent_info Bool := do
  if (← eqTrue DetectIphoneOrIpod <||> eqTrue DetectIpad) then return true
  else return false

def DetectGoogleTV : StateM uagent_info Bool := do
  if (← read (fun o => find o.useragent deviceGoogleTV != npos)) then return true
  else return false

def DetectAndroid : StateM uagent_info Bool := do
  if (← read (fun o => o.initCompleted == true || o.isAndroid == true)) then
    return (← read (fun o => o.isAndroid))
  if (← read (fun o => find o.useragent deviceAndroid != npos)
        <||> eqTrue DetectGoogleTV) then return true
  else return false

def DetectOperaMobile : StateM uagent_info Bool := do
  if (← read (fun o => find o.useragent engineOpera != npos)) then
    if (← read (fun o => find o.useragent mini != npos || find o.useragent mobi != npos)) then
      return true
    else return false
  else return false

def DetectAndroidPhone : StateM uagent_info Bool := do
  if (← read (fun o => o.initCompleted == true || o.isAndroidPhone == true)) then
    return (← read (fun o => o.isAndroidPhone))
  if (← eqFalse DetectAndroid) then return false
  if (← read (fun o => find o.useragent mobile != npos)) then return true
  if (← eqTrue DetectOperaMobile) then return true
  else return false

def DetectAndroidTablet : StateM uagent_info Bool := do
  if (← eqFalse DetectAndroid) then return false
  if (← eqTrue DetectOperaMobile) then return false
  if (← read (fun o => find o.useragent mobile != npos)) then return false
  else return true

def DetectAndroidWebKit : StateM uagent_info Bool := do
  if (← eqTrue DetectAndroid <&&> eqTrue DetectWebkit) then return true
  else return false

def DetectWindowsPhone7 : StateM uagent_info Bool := do
  if (← read (fun o => find o.useragent deviceWinPhone7 != npos)) then return true
  else return false

def DetectWindowsPhone8 : StateM uagent_info Bool := do
  if (← read (fun o => find o.useragent deviceWinPhone8 != npos)) then return true
  else return false

def DetectWindowsPhone10 : StateM uagent_info Bool := do
  if (← read (fun o => find o.useragent deviceWinPhone10 != npos)) then return true
  else return false

def DetectWindowsPhone : StateM uagent_info Bool := do
  if (← eqTrue DetectWindowsPhone7
        <||> eqTrue DetectWindowsPhone8
        <||> eqTrue DetectWindowsPhone10) then return true
  else return false

def DetectWapWml : StateM uagent_info Bool := do
  if (← read (fun o => find o.httpaccept vndwap != npos || find o.httpaccept wml != npos)) then
    return true
  else return false

def DetectWindowsMobile : StateM uagent_info Bool := do
  if (← eqTrue DetectWindowsPhone) then return false
  if (← read (fun o => find o.useragent deviceWinMob != npos
      || find o.useragent deviceIeMob != npos || find o.useragent enginePie != npos)) then
    return true
  if (← read (fun o => find o.useragent devicePpc != npos
      && !(decide (find o.useragent deviceMacPpc > 1)))) then
    return true
  if (← read (fun o => find o.useragent manuHtc != npos
      && find o.useragent deviceWindows != npos)) then
    return true
  if (← eqTrue DetectWapWml
        <&&> read (fun o => find o.useragent deviceWindows != npos)) then return true
  else return false

def DetectBlackBerry10Phone : StateM uagent_info Bool := do
  if (← read (fun o => find o.useragent deviceBB10 != npos
      && find o.useragent mobile != npos)) then
    return true
  else return false

def DetectBlackBerry : StateM uagent_info Bool := do
  if (← read (fun o => find o.useragent deviceBB != npos
      || find o.httpaccept vndRIM != npos)) then
    return true
  if (← eqTrue DetectBlackBerry10Phone) then return true
  else return false

def DetectBlackBerryTablet : StateM uagent_info Bool := do
  if (← read (fun o => find o.useragent deviceBBPlaybook != npos)) then return true
  else return false

def DetectBlackBerryWebKit : StateM uagent_info Bool := do
  if (← eqTrue DetectBlackBerry <&&> eqTrue DetectWebkit) then return true
  else return false

def DetectBlackBerryTouch : StateM uagent_info Bool := do
  if (← read (fun o => find o.useragent deviceBBStorm != npos
      || find o.useragent deviceBBTorch != npos || find o.useragent deviceBBBoldTouch != npos
      || find o.useragent deviceBBCurveTouch != npos)) then
    return true
  else return false

def DetectBlackBerryHigh : StateM uagent_info Bool := do
  if (← eqTrue DetectBlackBerryWebKit) then return false
  if (← eqTrue DetectBlackBerry) then
    if (← eqTrue DetectBlackBerryTouch
          <||> read (fun o => find o.useragent deviceBBBold != npos
              || find o.useragent deviceBBTour != npos
              || find o.useragent deviceBBCurve != npos)) then
      return true
    else return false
  else return false

def DetectBlackBerryLow : StateM uagent_info Bool := do
  if (← eqTrue DetectBlackBerry) then
    if (← eqTrue DetectBlackBerryHigh <||> eqTrue DetectBlackBerryWebKit) then return false
    else return true
  else return false

def DetectS60OssBrowser : StateM uagent_info Bool := do
  if (← eqTrue DetectWebkit) then
    if (← read (fun o => find o.useragent deviceSymbian != npos
        || find o.useragent deviceS60 != npos)) then
      return true
    else return false
  else return false

def DetectSymbianOS : StateM uagent_info Bool := do
  if (← read (fun o => find o.useragent deviceSymbian != npos
      || find o.useragent deviceS60 != npos || find o.useragent deviceS70 != npos
      || find o.useragent deviceS80 != npos || find o.useragent deviceS90 != npos)) then
    return true
  else return false

def DetectPalmWebOS : StateM uagent_info Bool := do
  if (← read (fun o => find o.useragent deviceWebOS != npos)) then return true
  else return false

def DetectPalmOS : StateM uagent_info Bool := do
  if (← eqTrue DetectPalmWebOS) then return false
  if (← read (fun o => find o.useragent devicePalm != npos
      || find o.useragent engineBlazer != npos || find o.useragent engineXiino != npos)) then
    return true
  else return false

def DetectWebOSTablet : StateM uagent_info Bool := do
  if (← read (fun o => find o.useragent deviceWebOShp != npos
      && find o.useragent deviceTablet != npos)) then
    return true
  else return false

def DetectWebOSTV : StateM uagent_info Bool := do
  if (← read (fun o => find o.useragent deviceWebOStv != npos
      && find o.useragent smartTV2 != npos)) then
    return true
  else return false

def DetectKindle : StateM uagent_info Bool := do
  if (← read (fun o => find o.useragent deviceKindle != npos)
        <&&> eqFalse DetectAndroid) then return true
  else return false

def DetectAmazonSilk : StateM uagent_info Bool := do
  if (← read (fun o => find o.useragent engineSilk != npos)) then return true
  else return false

def DetectGarminNuvifone : StateM uagent_info Bool := do
  if (← read (fun o => find o.useragent deviceNuvifone != npos)) then return true
  else return false

def DetectBada : StateM uagent_info Bool := do
  if (← read (fun o => find o.useragent deviceBada != npos)) then return true
  else return false

def DetectTizen : StateM uagent_info Bool := do
  if (← read (fun o => find o.useragent deviceTizen != npos
      && find o.useragent mobile != npos)) then
    return true
  else return false

def DetectTizenTV : StateM uagent_info Bool := do
  if (← read (fun o => find o.useragent deviceTizen != npos
      && find o.useragent smartTV1 != npos)) then
    return true
  else return false

def DetectMeego : StateM uagent_info Bool := do
  if (← read (fun o => find o.useragent deviceMeego != npos)) then return true
  else return false

def DetectMeegoPhone : StateM uagent_info Bool := do
  if (← read (fun o => find o.useragent deviceMeego != npos
      && find o.useragent mobi != npos)) then
    return true
  else return false

def DetectSailfish : StateM uagent_info Bool := do
  if (← read (fun o => find o.useragent deviceSailfish != npos)) then return true
  else return false

def DetectFirefoxOSPhone : StateM uagent_info Bool := do
  if (← DetectIos <||> DetectAndroid <||> DetectSailfish) then return false
  if (← read (fun o => find o.useragent engineFirefox != npos
      && find o.useragent mobile != npos)) then
    return true
  else return false

def DetectFirefoxOSTablet : StateM uagent_info Bool := do
  if (← DetectIos <||> DetectAndroid <||> DetectSailfish) then return false
  if (← read (fun o => find o.useragent engineFirefox != npos
      && find o.useragent deviceTablet != npos)) then
    return true
  else return false

def DetectFirefoxOS : StateM uagent_info Bool := do
  if (← eqTrue DetectFirefoxOSPhone <||> DetectFirefoxOSTablet) then return true
  else return false

def DetectSailfishPhone : StateM uagent_info Bool := do
  if (← eqTrue DetectSailfish
        <&&> read (fun o => find o.useragent mobile != npos)) then return true
  else return false

def DetectUbuntuPhone : StateM uagent_info Bool := do
  if (← read (fun o => find o.useragent deviceUbuntu != npos
      && find o.useragent mobile != npos)) then
    return true
  else return false

def DetectUbuntuTablet : StateM uagent_info Bool := do
  if (← read (fun o => find o.useragent deviceUbuntu != npos
      && find o.useragent deviceTablet != npos)) then
    return true
  else return false

def DetectUbuntu : StateM uagent_info Bool := do
  if (← eqTrue DetectUbuntuPhone <||> eqTrue DetectUbuntuTablet) then return true
  else return false

def DetectDangerHiptop : StateM uagent_info Bool := do
  if (← read (fun o => find o.useragent deviceDanger != npos
      || find o.useragent deviceHiptop != npos)) then
    return true
  else return false

def DetectSonyMylo : StateM uagent_info Bool := do
  if (← read (fun o => find o.useragent manuSony != npos && (find o.useragent qtembedded != npos
      || find o.useragent mylocom2 != npos))) then
    return true
  else return false

def DetectMaemoTablet : StateM uagent_info Bool := do
  if (← read (fun o => find o.useragent maemo != npos)) then return true
  if (← read (fun o => find o.useragent llinux != npos && find o.useragent deviceTablet != npos)
        <&&> eqFalse DetectWebOSTablet
        <&&> eqFalse DetectAndroid) then return true
  else return false

def DetectArchos : StateM uagent_info Bool := do
  if (← read (fun o => find o.useragent deviceArchos != npos)) then return true
  else return false

def DetectSonyPlaystation : StateM uagent_info Bool := do
  if (← read (fun o => find o.useragent devicePlaystation != npos)) then return true
  else return false

def DetectGamingHandheld : StateM uagent_info Bool := do
  if (← read (fun o => find o.useragent devicePlaystation != npos
      && find o.useragent devicePlaystationVita != npos)) then
    return true
  else return false

def DetectNintendo : StateM uagent_info Bool := do
  if (← read (fun o => find o.useragent deviceNintendo != npos
      || find o.useragent deviceWii != npos || find o.useragent deviceNintendoDs != npos)) then
    return true
  else return false

def DetectXbox : StateM uagent_info Bool := do
  if (← read (fun o => find o.useragent deviceXbox != npos)) then return true
  else return false

def DetectGameConsole : StateM uagent_info Bool := do
  if (← eqTrue DetectSonyPlaystation
        <||> eqTrue DetectNintendo
        <||> eqTrue DetectXbox) then return true
  else return false

def DetectBrewDevice : StateM uagent_info Bool := do
  if (← read (fun o => find o.useragent deviceBrew != npos)) then return true
  else return false

def DetectMidpCapable : StateM uagent_info Bool := do
  if (← read (fun o => find o.useragent deviceMidp != npos
      || find o.httpaccept deviceMidp != npos)) then
    return true
  else return false

def DetectTierTablet : StateM uagent_info Bool := do
  if (← read (fun o => o.initCompleted == true || o.isTierTablet == true)) then
    return (← read (fun o => o.isTierTablet))
  if (← eqTrue DetectIpad
        <||> eqTrue DetectAndroidTablet
        <||> eqTrue DetectBlackBerryTablet
        <||> eqTrue DetectFirefoxOSTablet
        <||> eqTrue DetectUbuntuTablet
        <||> eqTrue DetectWebOSTablet) then return true
  else return false

def DetectTierIphone : StateM uagent_info Bool := do
  if (← read (fun o => o.initCompleted == true || o.isTierIphone == true)) then
    return (← read (fun o => o.isTierIphone))
  if (← eqTrue DetectIphoneOrIpod
        <||> eqTrue DetectAndroidPhone
        <||> eqTrue DetectWindowsPhone
        <||> eqTrue DetectBlackBerry10Phone
        <||> eqTrue DetectPalmWebOS
        <||> eqTrue DetectBada
        <||> eqTrue DetectTizen
        <||> eqTrue DetectFirefoxOSPhone
        <||> eqTrue DetectSailfishPhone
        <||> eqTrue DetectUbuntuPhone
        <||> eqTrue DetectGamingHandheld) then return true
  if (← eqTrue DetectBlackBerryWebKit <&&> eqTrue DetectBlackBerryTouch) then return true
  else return false

def DetectSmartphone : StateM uagent_info Bool := do
  if (← eqTrue DetectTierIphone
        <||> eqTrue DetectS60OssBrowser
        <||> eqTrue DetectSymbianOS
        <||> eqTrue DetectWindowsMobile
        <||> eqTrue DetectBlackBerry
        <||> eqTrue DetectMeegoPhone
        <||> eqTrue DetectPalmWebOS) then return true
  else return false

def DetectMobileQuick : StateM uagent_info Bool := do
  if (← read (fun o => o.initCompleted == true || o.isMobilePhone == true)) then
    return (← read (fun o => o.isMobilePhone))
  if (← read (fun o => o.isTierTablet == true)) then return false
  if (← eqTrue DetectSmartphone) then return true
  if (← read (fun o => find o.useragent mobile != npos)) then return true
  if (← eqTrue DetectOperaMobile) then return true
  if (← eqTrue DetectKindle <||> eqTrue DetectAmazonSilk) then return true
  if (← eqTrue DetectWapWml
        <||> eqTrue DetectMidpCapable
        <||> eqTrue DetectBrewDevice) then return true
  if (← read (fun o => find o.useragent engineNetfront != npos
      || find o.useragent engineUpBrowser != npos)) then
    return true
  else return false

def DetectMobileLong : StateM uagent_info Bool := do
  if (← eqTrue DetectMobileQuick) then return true
  if (← eqTrue DetectGameConsole) then return true
  if (← eqTrue DetectDangerHiptop
        <||> eqTrue DetectMaemoTablet
        <||> eqTrue DetectSonyMylo
        <||> eqTrue DetectArchos) then return true
  if (← read (fun o => find o.useragent devicePda != npos
      && !(find o.useragent disUpdate != npos))) then
    return true
  if (← read (fun o => find o.useragent uplink != npos || find o.useragent engineOpenWeb != npos
      || find o.useragent manuSamsung1 != npos || find o.useragent manuSonyEricsson != npos
      || find o.useragent manuericsson != npos || find o.useragent svcDocomo != npos
      || find o.useragent svcKddi != npos || find o.useragent svcVodafone != npos)) then
    return true
  else return false

def DetectTierRichCss : StateM uagent_info Bool := do
  if (← read (fun o => o.initCompleted == true || o.isTierRichCss == true)) then
    return (← read (fun o => o.isTierRichCss))
  if (← eqTrue DetectMobileQuick) then
    if (← eqTrue DetectTierIphone <||> eqTrue DetectKindle) then return false
    if (← eqTrue DetectWebkit) then return true
    if (← eqTrue DetectS60OssBrowser) then return true
    if (← eqTrue DetectBlackBerryHigh) then return true
    if (← eqTrue DetectWindowsMobile) then return true
    if (← read (fun o => find o.useragent engineTelecaQ != npos)) then return true
    else return false
  else return false

def DetectTierOtherPhones : StateM uagent_info Bool := do
  if (← read (fun o => o.initCompleted == true || o.isTierGenericMobile == true)) then
    return (← read (fun o => o.isTierGenericMobile))
  if (← eqTrue DetectMobileLong
        <&&> eqFalse DetectTierIphone
        <&&> eqFalse DetectTierRichCss) then return true
  else return false

/-- The private method `InitDeviceScan`: each call runs on the object and its result
is assigned to a member. -/
def InitDeviceScan : StateM uagent_info Unit := do
  let v ← DetectWebkit
  modify fun o => { o with isWebkit := v }
  let v ← DetectIphone
  modify fun o => { o with isIphone := v }
  let v ← DetectAndroid
  modify fun o => { o with isAndroid := v }
  let v ← DetectAndroidPhone
  modify fun o => { o with isAndroidPhone := v }
  let v ← DetectTierTablet
  modify fun o => { o with isTierTablet := v }
  let v ← DetectTierIphone
  modify fun o => { o with isTierIphone := v }
  let v ← DetectMobileQuick
  modify fun o => { o with isMobilePhone := v }
  let v ← DetectTierRichCss
  modify fun o => { o with isTierRichCss := v }
  let v ← DetectTierOtherPhones
  modify fun o => { o with isTierGenericMobile := v }
  modify fun o => { o with initCompleted := true }

/-- The public `Detect*` method named by a query. -/
def query : Query → StateM uagent_info Bool
  | .DetectIphone => DetectIphone
  | .DetectIpod => DetectIpod
  | .DetectIpad => DetectIpad
  | .DetectIphoneOrIpod => DetectIphoneOrIpod
  | .DetectIos => DetectIos
  | .DetectAndroid => DetectAndroid
  | .DetectAndroidPhone => DetectAndroidPhone
  | .DetectAndroidTablet => DetectAndroidTablet
  | .DetectAndroidWebKit => DetectAndroidWebKit
  | .DetectGoogleTV => DetectGoogleTV
  | .DetectWebkit => DetectWebkit
  | .DetectWindowsPhone => DetectWindowsPhone
  | .DetectWindowsPhone7 => DetectWindowsPhone7
  | .DetectWindowsPhone8 => DetectWindowsPhone8
  | .DetectWindowsPhone10 => DetectWindowsPhone10
  | .DetectWindowsMobile => DetectWindowsMobile
  | .DetectBlackBerry => DetectBlackBerry
  | .DetectBlackBerry10Phone => DetectBlackBerry10Phone
  | .DetectBlackBerryTablet => DetectBlackBerryTablet
  | .DetectBlackBerryWebKit => DetectBlackBerryWebKit
  | .DetectBlackBerryTouch => DetectBlackBerryTouch
  | .DetectBlackBerryHigh => DetectBlackBerryHigh
  | .DetectBlackBerryLow => DetectBlackBerryLow
  | .DetectS60OssBrowser => DetectS60OssBrowser
  | .DetectSymbianOS => DetectSymbianOS
  | .DetectPalmOS => DetectPalmOS
  | .DetectPalmWebOS => DetectPalmWebOS
  | .DetectWebOSTablet => DetectWebOSTablet
  | .DetectWebOSTV => DetectWebOSTV
  | .DetectOperaMobile => DetectOperaMobile
  | .DetectKindle => DetectKindle
  | .DetectAmazonSilk => DetectAmazonSilk
  | .DetectGarminNuvifone => DetectGarminNuvifone
  | .DetectBada => DetectBada
  | .DetectTizen => DetectTizen
  | .DetectTizenTV => DetectTizenTV
  | .DetectMeego => DetectMeego
  | .DetectMeegoPhone => DetectMeegoPhone
  | .DetectFirefoxOS => DetectFirefoxOS
  | .DetectFirefoxOSPhone => DetectFirefoxOSPhone
  | .DetectFirefoxOSTablet => DetectFirefoxOSTablet
  | .DetectSailfish => DetectSailfish
  | .DetectSailfishPhone => DetectSailfishPhone
  | .DetectUbuntu => DetectUbuntu
  | .DetectUbuntuPhone => DetectUbuntuPhone
  | .DetectUbuntuTablet => DetectUbuntuTablet
  | .DetectDangerHiptop => DetectDangerHiptop
  | .DetectSonyMylo => DetectSonyMylo
  | .DetectMaemoTablet => DetectMaemoTablet
  | .DetectArchos => DetectArchos
  | .DetectGameConsole => DetectGameConsole
  | .DetectSonyPlaystation => DetectSonyPlaystation
  | .DetectGamingHandheld => DetectGamingHandheld
  | .DetectNintendo => DetectNintendo
  | .DetectXbox => DetectXbox
  | .DetectBrewDevice => DetectBrewDevice
  | .DetectWapWml => DetectWapWml
  | .DetectMidpCapable => DetectMidpCapable
  | .DetectSmartphone => DetectSmartphone
  | .DetectMobileQuick => DetectMobileQuick
  | .DetectMobileLong => DetectMobileLong
  | .DetectTierTablet => DetectTierTablet
  | .DetectTierIphone => DetectTierIphone
  | .DetectTierRichCss => DetectTierRichCss
  | .DetectTierOtherPhones => DetectTierOtherPhones

/-- Call the queries of a list on the object, one after the other, and collect the
values returned. -/
def all : List Query → StateM uagent_info (List Bool)
  | [] => return []
  | q :: qs => do
    let b ← query q
    let bs ← all qs
    return b :: bs

/-- Call the queries of `before` on the object, then call `q`: the value `q` returns
after that history of calls, and the object left. -/
def after (before : List Query) (q : Query) : StateM uagent_info Bool := do
  let _ ← all before
  query q

/-- The constructor `uagent_info(user_agent, accept)`: the member initialiser list and
the two `std::transform` calls (`uagent_info.initial`), then `InitDeviceScan` run on
the object. -/
def uagent_info (user_agent accept : Str) : uagent_info :=
  (InitDeviceScan.run (uagent_info.initial user_agent accept)).2

end Call

/-! ## The end-to-end scenarios of the specification -/

/-- Scenario 1: an iPhone. -/
def scenario1 : Str :=
  bytes "Mozilla/5.0 (iPhone; CPU iPhone OS 10_3 like Mac OS X) AppleWebKit/603.1.30"

/-- Scenario 2: an iPad. -/
def scenario2 : Str :=
  bytes "Mozilla/5.0 (iPad; CPU OS 10_3 like Mac OS X) AppleWebKit/603.1.30"

/-- Scenario 3: an Android phone. -/
def scenario3 : Str :=
  bytes "Mozilla/5.0 (Linux; Android 7.0; SM-G930F) AppleWebKit/537.36 Mobile"

/-- Scenario 4: an Android tablet. -/
def scenario4 : Str :=
  bytes "Mozilla/5.0 (Linux; Android 7.0; SM-T820) AppleWebKit/537.36"

/-- Scenario 5: a Windows Mobile device. -/
def scenario5 : Str :=
  bytes "Mozilla/4.0 (compatible; MSIE 6.0; Windows CE; IEMobile 7.11)"

/-- The Accept string of scenario 5. -/
def scenario5_accept : Str := bytes "*/*"

/-! ## Cache soundness

`Sound s` says that whenever a cache guard `initCompleted == true || isX == true`
would return the member `isX`, that member holds the value of the uncached rule.
Under `Sound`, every method agrees with its uncached rule; `DetectMobileQuick` and
its callers need in addition that the member `isTierTablet`, which
`DetectMobileQuick` reads without a guard, is valid. -/

/-- Every member returned by a cache guard holds the value of its uncached rule. -/
structure Sound (s : uagent_info) : Prop where
  webkit : (s.initCompleted == true || s.isWebkit == true) = true →
    s.isWebkit = Rule.DetectWebkit s.headers
  iphone : (s.initCompleted == true || s.isIphone == true) = true →
    s.isIphone = Rule.DetectIphone s.headers
  android : (s.initCompleted == true || s.isAndroid == true) = true →
    s.isAndroid = Rule.DetectAndroid s.headers
  androidPhone : (s.initCompleted == true || s.isAndroidPhone == true) = true →
    s.isAndroidPhone = Rule.DetectAndroidPhone s.headers
  tierTablet : (s.initCompleted == true || s.isTierTablet == true) = true →
    s.isTierTablet = Rule.DetectTierTablet s.headers
  tierIphone : (s.initCompleted == true || s.isTierIphone == true) = true →
    s.isTierIphone = Rule.DetectTierIphone s.headers
  mobilePhone : (s.initCompleted == true || s.isMobilePhone == true) = true →
    s.isMobilePhone = Rule.DetectMobileQuick s.headers
  tierRichCss : (s.initCompleted == true || s.isTierRichCss == true) = true →
    s.isTierRichCss = Rule.DetectTierRichCss s.headers
  tierGenericMobile : (s.initCompleted == true || s.isTierGenericMobile == true) = true →
    s.isTierGenericMobile = Rule.DetectTierOtherPhones s.headers

/-- The members assigned by the first `k` assignments of `InitDeviceScan` hold the
value of their uncached rule. -/
structure ValidUpTo (k : Nat) (s : uagent_info) : Prop where
  webkit : 1 ≤ k → s.isWebkit = Rule.DetectWebkit s.headers
  iphone : 2 ≤ k → s.isIphone = Rule.DetectIphone s.headers
  android : 3 ≤ k → s.isAndroid = Rule.DetectAndroid s.headers
  androidPhone : 4 ≤ k → s.isAndroidPhone = Rule.DetectAndroidPhone s.headers
  tierTablet : 5 ≤ k → s.isTierTablet = Rule.DetectTierTablet s.headers
  tierIphone : 6 ≤ k → s.isTierIphone = Rule.DetectTierIphone s.headers
  mobilePhone : 7 ≤ k → s.isMobilePhone = Rule.DetectMobileQuick s.headers
  tierRichCss : 8 ≤ k → s.isTierRichCss = Rule.DetectTierRichCss s.headers
  tierGenericMobile : 9 ≤ k → s.isTierGenericMobile = Rule.DetectTierOtherPhones s.headers

/-- The lowercased header strings of the constructor arguments. -/
def lowered (user_agent accept : Str) : Headers :=
  { useragent := transform_tolower user_agent, httpaccept := transform_tolower accept }

/-! ## `find` and substrings

The test `s.find(pat) != npos` of the source is substring containment for every
string shorter than `npos` bytes, that is for every string a program can hold. -/

theorem startsWith_iff (s pat : Str) : startsWith s pat = true ↔ pat <+: s := by
  induction s generalizing pat with
  | nil =>
    cases pat with
    | nil => simp [startsWith]
    | cons p pat => simp [startsWith]
  | cons c s ih =>
    cases pat with
    | nil => simp [startsWith]
    | cons p pat =>
      simp only [startsWith, Bool.and_eq_true, beq_iff_eq, ih, List.cons_prefix_cons]
      constructor
      · rintro ⟨e, h⟩
        exact ⟨e.symm, h⟩
      · rintro ⟨e, h⟩
        exact ⟨e.symm, h⟩

theorem findFrom_ne_npos (s pat : Str) (i : Nat) (h : findFrom s pat i ≠ npos) :
    pat <:+: s := by
  induction s generalizing i with
  | nil =>
    unfold findFrom at h
    by_cases c : startsWith [] pat = true
    · exact ((startsWith_iff [] pat).1 c).isInfix
    · simp [c] at h
  | cons a s ih =>
    unfold findFrom at h
    by_cases c : startsWith (a :: s) pat = true
    · exact ((startsWith_iff (a :: s) pat).1 c).isInfix
    · rw [if_neg c] at h
      exact List.infix_cons (ih (i + 1) h)

theorem findFrom_le (s pat : Str) (i : Nat) (h : pat <:+: s) :
    findFrom s pat i ≤ i + s.length := by
  induction s generalizing i with
  | nil =>
    have e : pat = [] := List.infix_nil.1 h
    subst e
    simp [findFrom, startsWith]
  | cons a s ih =>
    unfold findFrom
    by_cases c : startsWith (a :: s) pat = true
    · simp [c]
    · rw [if_neg c]
      rcases List.infix_cons_iff.1 h with hp | hi
      · exact absurd ((startsWith_iff (a :: s) pat).2 hp) c
      · have := ih (i + 1) hi
        simp only [List.length_cons]
        omega

/-- For a string shorter than `npos`, the containment test of the source holds
exactly when the token is a substring. -/
theorem contains_iff_substring (s pat : Str) (hlen : s.length < npos) :
    contains s pat = true ↔ pat <:+: s := by
  unfold contains find
  constructor
  · intro h
    exact findFrom_ne_npos s pat 0 (by simpa using h)
  · intro h
    have := findFrom_le s pat 0 h
    simp only [bne_iff_ne, ne_eq]
    omega

/-! ## Every method agrees with its uncached rule under a sound cache -/

theorem DetectWebkit_rule {s : uagent_info} (h : Sound s) :
    s.DetectWebkit = Rule.DetectWebkit s.headers := by
  unfold uagent_info.DetectWebkit
  split
  · next g => exact h.webkit g
  · rfl

theorem DetectIpod_rule (s : uagent_info) :
    s.DetectIpod = Rule.DetectIpod s.headers := rfl

theorem DetectIpad_rule {s : uagent_info} (h : Sound s) :
    s.DetectIpad = Rule.DetectIpad s.headers := by
  unfold uagent_info.DetectIpad
  simp only [DetectWebkit_rule h]
  rfl

theorem DetectIphone_rule {s : uagent_info} (h : Sound s) :
    s.DetectIphone = Rule.DetectIphone s.headers := by
  unfold uagent_info.DetectIphone
  simp only [DetectIpad_rule h]
  split
  · next g => exact h.iphone g
  · rfl

theorem DetectIphoneOrIpod_rule {s : uagent_info} (h : Sound s) :
    s.DetectIphoneOrIpod = Rule.DetectIphoneOrIpod s.headers := by
  unfold uagent_info.DetectIphoneOrIpod
  simp only [DetectIphone_rule h]
  rfl

theorem DetectIos_rule {s : uagent_info} (h : Sound s) :
    s.DetectIos = Rule.DetectIos s.headers := by
  unfold uagent_info.DetectIos
  simp only [DetectIphoneOrIpod_rule h, DetectIpad_rule h]
  rfl

theorem DetectGoogleTV_rule (s : uagent_info) :
    s.DetectGoogleTV = Rule.DetectGoogleTV s.headers := rfl

theorem DetectAndroid_rule {s : uagent_info} (h : Sound s) :
    s.DetectAndroid = Rule.DetectAndroid s.headers := by
  unfold uagent_info.DetectAndroid
  split
  · next g => exact h.android g
  · rfl

theorem DetectOperaMobile_rule (s : uagent_info) :
    s.DetectOperaMobile = Rule.DetectOperaMobile s.headers := rfl

theorem DetectAndroidPhone_rule {s : uagent_info} (h : Sound s) :
    s.DetectAndroidPhone = Rule.DetectAndroidPhone s.headers := by
  unfold uagent_info.DetectAndroidPhone
  simp only [DetectAndroid_rule h]
  split
  · next g => exact h.androidPhone g
  · rfl

theorem DetectAndroidTablet_rule {s : uagent_info} (h : Sound s) :
    s.DetectAndroidTablet = Rule.DetectAndroidTablet s.headers := by
  unfold uagent_info.DetectAndroidTablet
  simp only [DetectAndroid_rule h]
  rfl

theorem DetectAndroidWebKit_rule {s : uagent_info} (h : Sound s) :
    s.DetectAndroidWebKit = Rule.DetectAndroidWebKit s.headers := by
  unfold uagent_info.DetectAndroidWebKit
  simp only [DetectAndroid_rule h, DetectWebkit_rule h]
  rfl

theorem DetectWindowsPhone7_rule (s : uagent_info) :
    s.DetectWindowsPhone7 = Rule.DetectWindowsPhone7 s.headers := rfl

theorem DetectWindowsPhone8_rule (s : uagent_info) :
    s.DetectWindowsPhone8 = Rule.DetectWindowsPhone8 s.headers := rfl

theorem DetectWindowsPhone10_rule (s : uagent_info) :
    s.DetectWindowsPhone10 = Rule.DetectWindowsPhone10 s.headers := rfl

theorem DetectWindowsPhone_rule (s : uagent_info) :
    s.DetectWindowsPhone = Rule.DetectWindowsPhone s.headers := rfl

theorem DetectWapWml_rule (s : uagent_info) :
    s.DetectWapWml = Rule.DetectWapWml s.headers := rfl

theorem DetectWindowsMobile_rule (s : uagent_info) :
    s.DetectWindowsMobile = Rule.DetectWindowsMobile s.headers := rfl

theorem DetectBlackBerry10Phone_rule (s : uagent_info) :
    s.DetectBlackBerry10Phone = Rule.DetectBlackBerry10Phone s.headers := rfl

theorem DetectBlackBerry_rule (s : uagent_info) :
    s.DetectBlackBerry = Rule.DetectBlackBerry s.headers := rfl

theorem DetectBlackBerryTablet_rule (s : uagent_info) :
    s.DetectBlackBerryTablet = Rule.DetectBlackBerryTablet s.headers := rfl

theorem DetectBlackBerryWebKit_rule {s : uagent_info} (h : Sound s) :
    s.DetectBlackBerryWebKit = Rule.DetectBlackBerryWebKit s.headers := by
  unfold uagent_info.DetectBlackBerryWebKit
  simp only [DetectWebkit_rule h]
  rfl

theorem DetectBlackBerryTouch_rule (s : uagent_info) :
    s.DetectBlackBerryTouch = Rule.DetectBlackBerryTouch s.headers := rfl

theorem DetectBlackBerryHigh_rule {s : uagent_info} (h : Sound s) :
    s.DetectBlackBerryHigh = Rule.DetectBlackBerryHigh s.headers := by
  unfold uagent_info.DetectBlackBerryHigh
  simp only [DetectBlackBerryWebKit_rule h]
  rfl

theorem DetectBlackBerryLow_rule {s : uagent_info} (h : Sound s) :
    s.DetectBlackBerryLow = Rule.DetectBlackBerryLow s.headers := by
  unfold uagent_info.DetectBlackBerryLow
  simp only [DetectBlackBerryHigh_rule h, DetectBlackBerryWebKit_rule h]
  rfl

theorem DetectS60OssBrowser_rule {s : uagent_info} (h : Sound s) :
    s.DetectS60OssBrowser = Rule.DetectS60OssBrowser s.headers := by
  unfold uagent_info.DetectS60OssBrowser
  simp only [DetectWebkit_rule h]
  rfl

theorem DetectSymbianOS_rule (s : uagent_info) :
    s.DetectSymbianOS = Rule.DetectSymbianOS s.headers := rfl

theorem DetectPalmWebOS_rule (s : uagent_info) :
    s.DetectPalmWebOS = Rule.DetectPalmWebOS s.headers := rfl

theorem DetectPalmOS_rule (s : uagent_info) :
    s.DetectPalmOS = Rule.DetectPalmOS s.headers := rfl

theorem DetectWebOSTablet_rule (s : uagent_info) :
    s.DetectWebOSTablet = Rule.DetectWebOSTablet s.headers := rfl

theorem DetectWebOSTV_rule (s : uagent_info) :
    s.DetectWebOSTV = Rule.DetectWebOSTV s.headers := rfl

theorem DetectKindle_rule {s : uagent_info} (h : Sound s) :
    s.DetectKindle = Rule.DetectKindle s.headers := by
  unfold uagent_info.DetectKindle
  simp only [DetectAndroid_rule h]
  rfl

theorem DetectAmazonSilk_rule (s : uagent_info) :
    s.DetectAmazonSilk = Rule.DetectAmazonSilk s.headers := rfl

theorem DetectGarminNuvifone_rule (s : uagent_info) :
    s.DetectGarminNuvifone = Rule.DetectGarminNuvifone s.headers := rfl

theorem DetectBada_rule (s : uagent_info) :
    s.DetectBada = Rule.DetectBada s.headers := rfl

theorem DetectTizen_rule (s : uagent_info) :
    s.DetectTizen = Rule.DetectTizen s.headers := rfl

theorem DetectTizenTV_rule (s : uagent_info) :
    s.DetectTizenTV = Rule.DetectTizenTV s.headers := rfl

theorem DetectMeego_rule (s : uagent_info) :
    s.DetectMeego = Rule.DetectMeego s.headers := rfl

theorem DetectMeegoPhone_rule (s : uagent_info) :
    s.DetectMeegoPhone = Rule.DetectMeegoPhone s.headers := rfl

theorem DetectSailfish_rule (s : uagent_info) :
    s.DetectSailfish = Rule.DetectSailfish s.headers := rfl

theorem DetectFirefoxOSPhone_rule {s : uagent_info} (h : Sound s) :
    s.DetectFirefoxOSPhone = Rule.DetectFirefoxOSPhone s.headers := by
  unfold uagent_info.DetectFirefoxOSPhone
  simp only [DetectIos_rule h, DetectAndroid_rule h]
  rfl

theorem DetectFirefoxOSTablet_rule {s : uagent_info} (h : Sound s) :
    s.DetectFirefoxOSTablet = Rule.DetectFirefoxOSTablet s.headers := by
  unfold uagent_info.DetectFirefoxOSTablet
  simp only [DetectIos_rule h, DetectAndroid_rule h]
  rfl

theorem DetectFirefoxOS_rule {s : uagent_info} (h : Sound s) :
    s.DetectFirefoxOS = Rule.DetectFirefoxOS s.headers := by
  unfold uagent_info.DetectFirefoxOS
  simp only [DetectFirefoxOSPhone_rule h, DetectFirefoxOSTablet_rule h]
  rfl

theorem DetectSailfishPhone_rule (s : uagent_info) :
    s.DetectSailfishPhone = Rule.DetectSailfishPhone s.headers := rfl

theorem DetectUbuntuPhone_rule (s : uagent_info) :
    s.DetectUbuntuPhone = Rule.DetectUbuntuPhone s.headers := rfl

theorem DetectUbuntuTablet_rule (s : uagent_info) :
    s.DetectUbuntuTablet = Rule.DetectUbuntuTablet s.headers := rfl

theorem DetectUbuntu_rule (s : uagent_info) :
    s.DetectUbuntu = Rule.DetectUbuntu s.headers := rfl

theorem DetectDangerHiptop_rule (s : uagent_info) :
    s.DetectDangerHiptop = Rule.DetectDangerHiptop s.headers := rfl

theorem DetectSonyMylo_rule (s : uagent_info) :
    s.DetectSonyMylo = Rule.DetectSonyMylo s.headers := rfl

theorem DetectMaemoTablet_rule {s : uagent_info} (h : Sound s) :
    s.DetectMaemoTablet = Rule.DetectMaemoTablet s.headers := by
  unfold uagent_info.DetectMaemoTablet
  simp only [DetectAndroid_rule h]
  rfl

theorem DetectArchos_rule (s : uagent_info) :
    s.DetectArchos = Rule.DetectArchos s.headers := rfl

theorem DetectSonyPlaystation_rule (s : uagent_info) :
    s.DetectSonyPlaystation = Rule.DetectSonyPlaystation s.headers := rfl

theorem DetectGamingHandheld_rule (s : uagent_info) :
    s.DetectGamingHandheld = Rule.DetectGamingHandheld s.headers := rfl

theorem DetectNintendo_rule (s : uagent_info) :
    s.DetectNintendo = Rule.DetectNintendo s.headers := rfl

theorem DetectXbox_rule (s : uagent_info) :
    s.DetectXbox = Rule.DetectXbox s.headers := rfl

theorem DetectGameConsole_rule (s : uagent_info) :
    s.DetectGameConsole = Rule.DetectGameConsole s.headers := rfl

theorem DetectBrewDevice_rule (s : uagent_info) :
    s.DetectBrewDevice = Rule.DetectBrewDevice s.headers := rfl

theorem DetectMidpCapable_rule (s : uagent_info) :
    s.DetectMidpCapable = Rule.DetectMidpCapable s.headers := rfl

theorem DetectTierTablet_rule {s : uagent_info} (h : Sound s) :
    s.DetectTierTablet = Rule.DetectTierTablet s.headers := by
  unfold uagent_info.DetectTierTablet
  simp only [DetectIpad_rule h, DetectAndroidTablet_rule h, DetectFirefoxOSTablet_rule h]
  split
  · next g => exact h.tierTablet g
  · rfl

theorem DetectTierIphone_rule {s : uagent_info} (h : Sound s) :
    s.DetectTierIphone = Rule.DetectTierIphone s.headers := by
  unfold uagent_info.DetectTierIphone
  simp only [DetectIphoneOrIpod_rule h, DetectAndroidPhone_rule h, DetectFirefoxOSPhone_rule h,
    DetectBlackBerryWebKit_rule h]
  split
  · next g => exact h.tierIphone g
  · rfl

theorem DetectSmartphone_rule {s : uagent_info} (h : Sound s) :
    s.DetectSmartphone = Rule.DetectSmartphone s.headers := by
  unfold uagent_info.DetectSmartphone
  simp only [DetectTierIphone_rule h, DetectS60OssBrowser_rule h]
  rfl

theorem DetectMobileQuick_rule {s : uagent_info} (h : Sound s)
    (ht :
    s.isTierTablet = Rule.DetectTierTablet s.headers) :
    s.DetectMobileQuick = Rule.DetectMobileQuick s.headers := by
  unfold uagent_info.DetectMobileQuick
  simp only [DetectSmartphone_rule h, DetectKindle_rule h]
  rw [ht]
  split
  · next g => exact h.mobilePhone g
  · rfl

theorem DetectMobileLong_rule {s : uagent_info} (h : Sound s)
    (ht :
    s.isTierTablet = Rule.DetectTierTablet s.headers) :
    s.DetectMobileLong = Rule.DetectMobileLong s.headers := by
  unfold uagent_info.DetectMobileLong
  simp only [DetectMobileQuick_rule h ht, DetectMaemoTablet_rule h]
  rfl

theorem DetectTierRichCss_rule {s : uagent_info} (h : Sound s)
    (ht :
    s.isTierTablet = Rule.DetectTierTablet s.headers) :
    s.DetectTierRichCss = Rule.DetectTierRichCss s.headers := by
  unfold uagent_info.DetectTierRichCss
  simp only [DetectMobileQuick_rule h ht, DetectTierIphone_rule h, DetectKindle_rule h,
    DetectWebkit_rule h, DetectS60OssBrowser_rule h, DetectBlackBerryHigh_rule h]
  split
  · next g => exact h.tierRichCss g
  · rfl

theorem DetectTierOtherPhones_rule {s : uagent_info} (h : Sound s)
    (ht :
    s.isTierTablet = Rule.DetectTierTablet s.headers) :
    s.DetectTierOtherPhones = Rule.DetectTierOtherPhones s.headers := by
  unfold uagent_info.DetectTierOtherPhones
  simp only [DetectMobileLong_rule h ht, DetectTierIphone_rule h, DetectTierRichCss_rule h ht]
  split
  · next g => exact h.tierGenericMobile g
  · rfl

/-! ## Construction -/

theorem Sound_initial (user_agent accept : Str) :
    Sound (uagent_info.initial user_agent accept) := by
  constructor <;> intro g <;> simp [uagent_info.initial] at g

theorem ValidUpTo_zero (s : uagent_info) : ValidUpTo 0 s := by
  constructor <;> intro g <;> omega

theorem scanStep_headers (k : Nat) (s : uagent_info) :
    (uagent_info.scanStep k s).headers = s.headers := by
  unfold uagent_info.scanStep
  split <;> rfl

theorem scanStep_initCompleted (k : Nat) (s : uagent_info) :
    (uagent_info.scanStep k s).initCompleted = s.initCompleted := by
  unfold uagent_info.scanStep
  split <;> rfl

theorem scanPrefix_headers (k : Nat) (s : uagent_info) :
    (uagent_info.scanPrefix k s).headers = s.headers := by
  induction k with
  | zero => rfl
  | succ k ih => rw [uagent_info.scanPrefix, scanStep_headers, ih]

theorem scanPrefix_initCompleted (k : Nat) (s : uagent_info) :
    (uagent_info.scanPrefix k s).initCompleted = s.initCompleted := by
  induction k with
  | zero => rfl
  | succ k ih => rw [uagent_info.scanPrefix, scanStep_initCompleted, ih]

/-- One assignment of `InitDeviceScan` keeps the cache sound and makes one more
member valid. -/
theorem scanStep_sound (k : Nat) {s : uagent_info} (h : Sound s) (v : ValidUpTo k s) :
    Sound (uagent_info.scanStep k s) ∧ ValidUpTo (k + 1) (uagent_info.scanStep k s) := by
  have ht : 5 ≤ k → s.isTierTablet = Rule.DetectTierTablet s.headers := v.tierTablet
  match k with
  | 0 =>
    exact ⟨⟨fun _ => DetectWebkit_rule h, h.iphone, h.android, h.androidPhone, h.tierTablet,
      h.tierIphone, h.mobilePhone, h.tierRichCss, h.tierGenericMobile⟩,
      ⟨fun _ => DetectWebkit_rule h, fun g => absurd g (by omega), fun g => absurd g (by omega),
        fun g => absurd g (by omega), fun g => absurd g (by omega), fun g => absurd g (by omega),
        fun g => absurd g (by omega), fun g => absurd g (by omega), fun g => absurd g (by omega)⟩⟩
  | 1 =>
    exact ⟨⟨h.webkit, fun _ => DetectIphone_rule h, h.android, h.androidPhone, h.tierTablet,
      h.tierIphone, h.mobilePhone, h.tierRichCss, h.tierGenericMobile⟩,
      ⟨fun _ => v.webkit (by omega), fun _ => DetectIphone_rule h, fun g => absurd g (by omega),
        fun g => absurd g (by omega), fun g => absurd g (by omega), fun g => absurd g (by omega),
        fun g => absurd g (by omega), fun g => absurd g (by omega), fun g => absurd g (by omega)⟩⟩
  | 2 =>
    exact ⟨⟨h.webkit, h.iphone, fun _ => DetectAndroid_rule h, h.androidPhone, h.tierTablet,
      h.tierIphone, h.mobilePhone, h.tierRichCss, h.tierGenericMobile⟩,
      ⟨fun _ => v.webkit (by omega), fun _ => v.iphone (by omega), fun _ => DetectAndroid_rule h,
        fun g => absurd g (by omega), fun g => absurd g (by omega), fun g => absurd g (by omega),
        fun g => absurd g (by omega), fun g => absurd g (by omega), fun g => absurd g (by omega)⟩⟩
  | 3 =>
    exact ⟨⟨h.webkit, h.iphone, h.android, fun _ => DetectAndroidPhone_rule h, h.tierTablet,
      h.tierIphone, h.mobilePhone, h.tierRichCss, h.tierGenericMobile⟩,
      ⟨fun _ => v.webkit (by omega), fun _ => v.iphone (by omega), fun _ => v.android (by omega),
        fun _ => DetectAndroidPhone_rule h, fun g => absurd g (by omega),
        fun g => absurd g (by omega), fun g => absurd g (by omega), fun g => absurd g (by omega),
        fun g => absurd g (by omega)⟩⟩
  | 4 =>
    exact ⟨⟨h.webkit, h.iphone, h.android, h.androidPhone, fun _ => DetectTierTablet_rule h,
      h.tierIphone, h.mobilePhone, h.tierRichCss, h.tierGenericMobile⟩,
      ⟨fun _ => v.webkit (by omega), fun _ => v.iphone (by omega), fun _ => v.android (by omega),
        fun _ => v.androidPhone (by omega), fun _ => DetectTierTablet_rule h,
        fun g => absurd g (by omega), fun g => absurd g (by omega), fun g => absurd g (by omega),
        fun g => absurd g (by omega)⟩⟩
  | 5 =>
    exact ⟨⟨h.webkit, h.iphone, h.android, h.androidPhone, h.tierTablet,
      fun _ => DetectTierIphone_rule h, h.mobilePhone, h.tierRichCss, h.tierGenericMobile⟩,
      ⟨fun _ => v.webkit (by omega), fun _ => v.iphone (by omega), fun _ => v.android (by omega),
        fun _ => v.androidPhone (by omega), fun _ => v.tierTablet (by omega),
        fun _ => DetectTierIphone_rule h, fun g => absurd g (by omega),
        fun g => absurd g (by omega), fun g => absurd g (by omega)⟩⟩
  | 6 =>
    exact ⟨⟨h.webkit, h.iphone, h.android, h.androidPhone, h.tierTablet, h.tierIphone,
      fun _ => DetectMobileQuick_rule h (ht (by omega)), h.tierRichCss, h.tierGenericMobile⟩,
      ⟨fun _ => v.webkit (by omega), fun _ => v.iphone (by omega), fun _ => v.android (by omega),
        fun _ => v.androidPhone (by omega), fun _ => v.tierTablet (by omega),
        fun _ => v.tierIphone (by omega), fun _ => DetectMobileQuick_rule h (ht (by omega)),
        fun g => absurd g (by omega), fun g => absurd g (by omega)⟩⟩
  | 7 =>
    exact ⟨⟨h.webkit, h.iphone, h.android, h.androidPhone, h.tierTablet, h.tierIphone,
      h.mobilePhone, fun _ => DetectTierRichCss_rule h (ht (by omega)), h.tierGenericMobile⟩,
      ⟨fun _ => v.webkit (by omega), fun _ => v.iphone (by omega), fun _ => v.android (by omega),
        fun _ => v.androidPhone (by omega), fun _ => v.tierTablet (by omega),
        fun _ => v.tierIphone (by omega), fun _ => v.mobilePhone (by omega),
        fun _ => DetectTierRichCss_rule h (ht (by omega)), fun g => absurd g (by omega)⟩⟩
  | 8 =>
    exact ⟨⟨h.webkit, h.iphone, h.android, h.androidPhone, h.tierTablet, h.tierIphone,
      h.mobilePhone, h.tierRichCss, fun _ => DetectTierOtherPhones_rule h (ht (by omega))⟩,
      ⟨fun _ => v.webkit (by omega), fun _ => v.iphone (by omega), fun _ => v.android (by omega),
        fun _ => v.androidPhone (by omega), fun _ => v.tierTablet (by omega),
        fun _ => v.tierIphone (by omega), fun _ => v.mobilePhone (by omega),
        fun _ => v.tierRichCss (by omega), fun _ => DetectTierOtherPhones_rule h (ht (by omega))⟩⟩
  | k + 9 =>
    exact ⟨h, ⟨fun _ => v.webkit (by omega), fun _ => v.iphone (by omega),
      fun _ => v.android (by omega), fun _ => v.androidPhone (by omega),
      fun _ => v.tierTablet (by omega), fun _ => v.tierIphone (by omega),
      fun _ => v.mobilePhone (by omega), fun _ => v.tierRichCss (by omega),
      fun _ => v.tierGenericMobile (by omega)⟩⟩

/-- Every intermediate state of `InitDeviceScan` is sound, and the members assigned
so far are valid. -/
theorem scanPrefix_sound (k : Nat) {s : uagent_info} (h : Sound s) :
    Sound (uagent_info.scanPrefix k s) ∧ ValidUpTo k (uagent_info.scanPrefix k s) := by
  induction k with
  | zero => exact ⟨h, ValidUpTo_zero s⟩
  | succ k ih => exact scanStep_sound k ih.1 ih.2

theorem InitDeviceScan_eq (s : uagent_info) :
    uagent_info.InitDeviceScan s = { uagent_info.scanPrefix 9 s with initCompleted := true } :=
  rfl

theorem InitDeviceScan_headers (s : uagent_info) :
    (uagent_info.InitDeviceScan s).headers = s.headers := by
  rw [InitDeviceScan_eq]
  exact scanPrefix_headers 9 s

theorem InitDeviceScan_sound {s : uagent_info} (h : Sound s) :
    Sound (uagent_info.InitDeviceScan s) := by
  rw [InitDeviceScan_eq]
  have v := (scanPrefix_sound 9 h).2
  exact ⟨fun _ => v.webkit (by omega), fun _ => v.iphone (by omega),
    fun _ => v.android (by omega), fun _ => v.androidPhone (by omega),
    fun _ => v.tierTablet (by omega), fun _ => v.tierIphone (by omega),
    fun _ => v.mobilePhone (by omega), fun _ => v.tierRichCss (by omega),
    fun _ => v.tierGenericMobile (by omega)⟩

theorem ctor_headers (user_agent accept : Str) :
    (uagent_info.uagent_info user_agent accept).headers = lowered user_agent accept :=
  InitDeviceScan_headers _

theorem ctor_initCompleted (user_agent accept : Str) :
    (uagent_info.uagent_info user_agent accept).initCompleted = true := rfl

theorem ctor_sound (user_agent accept : Str) :
    Sound (uagent_info.uagent_info user_agent accept) :=
  InitDeviceScan_sound (Sound_initial user_agent accept)

theorem ctor_tablet (user_agent accept : Str) :
    (uagent_info.uagent_info user_agent accept).isTierTablet
      = Rule.DetectTierTablet (uagent_info.uagent_info user_agent accept).headers :=
  (ctor_sound user_agent accept).tierTablet (by rw [ctor_initCompleted]; rfl)

/-- Under a sound cache with a valid `isTierTablet`, every public query returns the
value of its uncached rule. -/
theorem Query.run_rule (q : Query) {s : uagent_info} (h : Sound s)
    (ht : s.isTierTablet = Rule.DetectTierTablet s.headers) :
    q.run s = q.rule s.headers := by
  match q with
  | .DetectIphone => exact DetectIphone_rule h
  | .DetectIpod => exact DetectIpod_rule s
  | .DetectIpad => exact DetectIpad_rule h
  | .DetectIphoneOrIpod => exact DetectIphoneOrIpod_rule h
  | .DetectIos => exact DetectIos_rule h
  | .DetectAndroid => exact DetectAndroid_rule h
  | .DetectAndroidPhone => exact DetectAndroidPhone_rule h
  | .DetectAndroidTablet => exact DetectAndroidTablet_rule h
  | .DetectAndroidWebKit => exact DetectAndroidWebKit_rule h
  | .DetectGoogleTV => exact DetectGoogleTV_rule s
  | .DetectWebkit => exact DetectWebkit_rule h
  | .DetectWindowsPhone => exact DetectWindowsPhone_rule s
  | .DetectWindowsPhone7 => exact DetectWindowsPhone7_rule s
  | .DetectWindowsPhone8 => exact DetectWindowsPhone8_rule s
  | .DetectWindowsPhone10 => exact DetectWindowsPhone10_rule s
  | .DetectWindowsMobile => exact DetectWindowsMobile_rule s
  | .DetectBlackBerry => exact DetectBlackBerry_rule s
  | .DetectBlackBerry10Phone => exact DetectBlackBerry10Phone_rule s
  | .DetectBlackBerryTablet => exact DetectBlackBerryTablet_rule s
  | .DetectBlackBerryWebKit => exact DetectBlackBerryWebKit_rule h
  | .DetectBlackBerryTouch => exact DetectBlackBerryTouch_rule s
  | .DetectBlackBerryHigh => exact DetectBlackBerryHigh_rule h
  | .DetectBlackBerryLow => exact DetectBlackBerryLow_rule h
  | .DetectS60OssBrowser => exact DetectS60OssBrowser_rule h
  | .DetectSymbianOS => exact DetectSymbianOS_rule s
  | .DetectPalmOS => exact DetectPalmOS_rule s
  | .DetectPalmWebOS => exact DetectPalmWebOS_rule s
  | .DetectWebOSTablet => exact DetectWebOSTablet_rule s
  | .DetectWebOSTV => exact DetectWebOSTV_rule s
  | .DetectOperaMobile => exact DetectOperaMobile_rule s
  | .DetectKindle => exact DetectKindle_rule h
  | .DetectAmazonSilk => exact DetectAmazonSilk_rule s
  | .DetectGarminNuvifone => exact DetectGarminNuvifone_rule s
  | .DetectBada => exact DetectBada_rule s
  | .DetectTizen => exact DetectTizen_rule s
  | .DetectTizenTV => exact DetectTizenTV_rule s
  | .DetectMeego => exact DetectMeego_rule s
  | .DetectMeegoPhone => exact DetectMeegoPhone_rule s
  | .DetectFirefoxOS => exact DetectFirefoxOS_rule h
  | .DetectFirefoxOSPhone => exact DetectFirefoxOSPhone_rule h
  | .DetectFirefoxOSTablet => exact DetectFirefoxOSTablet_rule h
  | .DetectSailfish => exact DetectSailfish_rule s
  | .DetectSailfishPhone => exact DetectSailfishPhone_rule s
  | .DetectUbuntu => exact DetectUbuntu_rule s
  | .DetectUbuntuPhone => exact DetectUbuntuPhone_rule s
  | .DetectUbuntuTablet => exact DetectUbuntuTablet_rule s
  | .DetectDangerHiptop => exact DetectDangerHiptop_rule s
  | .DetectSonyMylo => exact DetectSonyMylo_rule s
  | .DetectMaemoTablet => exact DetectMaemoTablet_rule h
  | .DetectArchos => exact DetectArchos_rule s
  | .DetectGameConsole => exact DetectGameConsole_rule s
  | .DetectSonyPlaystation => exact DetectSonyPlaystation_rule s
  | .DetectGamingHandheld => exact DetectGamingHandheld_rule s
  | .DetectNintendo => exact DetectNintendo_rule s
  | .DetectXbox => exact DetectXbox_rule s
  | .DetectBrewDevice => exact DetectBrewDevice_rule s
  | .DetectWapWml => exact DetectWapWml_rule s
  | .DetectMidpCapable => exact DetectMidpCapable_rule s
  | .DetectSmartphone => exact DetectSmartphone_rule h
  | .DetectMobileQuick => exact DetectMobileQuick_rule h ht
  | .DetectMobileLong => exact DetectMobileLong_rule h ht
  | .DetectTierTablet => exact DetectTierTablet_rule h
  | .DetectTierIphone => exact DetectTierIphone_rule h
  | .DetectTierRichCss => exact DetectTierRichCss_rule h ht
  | .DetectTierOtherPhones => exact DetectTierOtherPhones_rule h ht

/-- On a constructed object every public query returns the value of its uncached
rule on the lowercased constructor arguments. -/
theorem Query.run_ctor (q : Query) (user_agent accept : Str) :
    q.run (uagent_info.uagent_info user_agent accept) = q.rule (lowered user_agent accept) := by
  rw [Query.run_rule q (ctor_sound user_agent accept) (ctor_tablet user_agent accept),
    ctor_headers]

/-! ### Every public query of a constructed object, as its uncached rule -/

@[simp] theorem ctor_DetectIphone (user_agent accept : Str) :
    (uagent_info.uagent_info user_agent accept).DetectIphone
      = Rule.DetectIphone (lowered user_agent accept) :=
  Query.run_ctor .DetectIphone user_agent accept

@[simp] theorem ctor_DetectIpod (user_agent accept : Str) :
    (uagent_info.uagent_info user_agent accept).DetectIpod
      = Rule.DetectIpod (lowered user_agent accept) :=
  Query.run_ctor .DetectIpod user_agent accept

@[simp] theorem ctor_DetectIpad (user_agent accept : Str) :
    (uagent_info.uagent_info user_agent accept).DetectIpad
      = Rule.DetectIpad (lowered user_agent accept) :=
  Query.run_ctor .DetectIpad user_agent accept

@[simp] theorem ctor_DetectIphoneOrIpod (user_agent accept : Str) :
    (uagent_info.uagent_info user_agent accept).DetectIphoneOrIpod
      = Rule.DetectIphoneOrIpod (lowered user_agent accept) :=
  Query.run_ctor .DetectIphoneOrIpod user_agent accept

@[simp] theorem ctor_DetectIos (user_agent accept : Str) :
    (uagent_info.uagent_info user_agent accept).DetectIos
      = Rule.DetectIos (lowered user_agent accept) :=
  Query.run_ctor .DetectIos user_agent accept

@[simp] theorem ctor_DetectAndroid (user_agent accept : Str) :
    (uagent_info.uagent_info user_agent accept).DetectAndroid
      = Rule.DetectAndroid (lowered user_agent accept) :=
  Query.run_ctor .DetectAndroid user_agent accept

@[simp] theorem ctor_DetectAndroidPhone (user_agent accept : Str) :
    (uagent_info.uagent_info user_agent accept).DetectAndroidPhone
      = Rule.DetectAndroidPhone (lowered user_agent accept) :=
  Query.run_ctor .DetectAndroidPhone user_agent accept

@[simp] theorem ctor_DetectAndroidTablet (user_agent accept : Str) :
    (uagent_info.uagent_info user_agent accept).DetectAndroidTablet
      = Rule.DetectAndroidTablet (lowered user_agent accept) :=
  Query.run_ctor .DetectAndroidTablet user_agent accept

@[simp] theorem ctor_DetectAndroidWebKit (user_agent accept : Str) :
    (uagent_info.uagent_info user_agent accept).DetectAndroidWebKit
      = Rule.DetectAndroidWebKit (lowered user_agent accept) :=
  Query.run_ctor .DetectAndroidWebKit user_agent accept

@[simp] theorem ctor_DetectGoogleTV (user_agent accept : Str) :
    (uagent_info.uagent_info user_agent accept).DetectGoogleTV
      = Rule.DetectGoogleTV (lowered user_agent accept) :=
  Query.run_ctor .DetectGoogleTV user_agent accept

@[simp] theorem ctor_DetectWebkit (user_agent accept : Str) :
    (uagent_info.uagent_info user_agent accept).DetectWebkit
      = Rule.DetectWebkit (lowered user_agent accept) :=
  Query.run_ctor .DetectWebkit user_agent accept

@[simp] theorem ctor_DetectWindowsPhone (user_agent accept : Str) :
    (uagent_info.uagent_info user_agent accept).DetectWindowsPhone
      = Rule.DetectWindowsPhone (lowered user_agent accept) :=
  Query.run_ctor .DetectWindowsPhone user_agent accept

@[simp] theorem ctor_DetectWindowsPhone7 (user_agent accept : Str) :
    (uagent_info.uagent_info user_agent accept).DetectWindowsPhone7
      = Rule.DetectWindowsPhone7 (lowered user_agent accept) :=
  Query.run_ctor .DetectWindowsPhone7 user_agent accept

@[simp] theorem ctor_DetectWindowsPhone8 (user_agent accept : Str) :
    (uagent_info.uagent_info user_agent accept).DetectWindowsPhone8
      = Rule.DetectWindowsPhone8 (lowered user_agent accept) :=
  Query.run_ctor .DetectWindowsPhone8 user_agent accept

@[simp] theorem ctor_DetectWindowsPhone10 (user_agent accept : Str) :
    (uagent_info.uagent_info user_agent accept).DetectWindowsPhone10
      = Rule.DetectWindowsPhone10 (lowered user_agent accept) :=
  Query.run_ctor .DetectWindowsPhone10 user_agent accept

@[simp] theorem ctor_DetectWindowsMobile (user_agent accept : Str) :
    (uagent_info.uagent_info user_agent accept).DetectWindowsMobile
      = Rule.DetectWindowsMobile (lowered user_agent accept) :=
  Query.run_ctor .DetectWindowsMobile user_agent accept

@[simp] theorem ctor_DetectBlackBerry (user_agent accept : Str) :
    (uagent_info.uagent_info user_agent accept).DetectBlackBerry
      = Rule.DetectBlackBerry (lowered user_agent accept) :=
  Query.run_ctor .DetectBlackBerry user_agent accept

@[simp] theorem ctor_DetectBlackBerry10Phone (user_agent accept : Str) :
    (uagent_info.uagent_info user_agent accept).DetectBlackBerry10Phone
      = Rule.DetectBlackBerry10Phone (lowered user_agent accept) :=
  Query.run_ctor .DetectBlackBerry10Phone user_agent accept

@[simp] theorem ctor_DetectBlackBerryTablet (user_agent accept : Str) :
    (uagent_info.uagent_info user_agent accept).DetectBlackBerryTablet
      = Rule.DetectBlackBerryTablet (lowered user_agent accept) :=
  Query.run_ctor .DetectBlackBerryTablet user_agent accept

@[simp] theorem ctor_DetectBlackBerryWebKit (user_agent accept : Str) :
    (uagent_info.uagent_info user_agent accept).DetectBlackBerryWebKit
      = Rule.DetectBlackBerryWebKit (lowered user_agent accept) :=
  Query.run_ctor .DetectBlackBerryWebKit user_agent accept

@[simp] theorem ctor_DetectBlackBerryTouch (user_agent accept : Str) :
    (uagent_info.uagent_info user_agent accept).DetectBlackBerryTouch
      = Rule.DetectBlackBerryTouch (lowered user_agent accept) :=
  Query.run_ctor .DetectBlackBerryTouch user_agent accept

@[simp] theorem ctor_DetectBlackBerryHigh (user_agent accept : Str) :
    (uagent_info.uagent_info user_agent accept).DetectBlackBerryHigh
      = Rule.DetectBlackBerryHigh (lowered user_agent accept) :=
  Query.run_ctor .DetectBlackBerryHigh user_agent accept

@[simp] theorem ctor_DetectBlackBerryLow (user_agent accept : Str) :
    (uagent_info.uagent_info user_agent accept).DetectBlackBerryLow
      = Rule.DetectBlackBerryLow (lowered user_agent accept) :=
  Query.run_ctor .DetectBlackBerryLow user_agent accept

@[simp] theorem ctor_DetectS60OssBrowser (user_agent accept : Str) :
    (uagent_info.uagent_info user_agent accept).DetectS60OssBrowser
      = Rule.DetectS60OssBrowser (lowered user_agent accept) :=
  Query.run_ctor .DetectS60OssBrowser user_agent accept

@[simp] theorem ctor_DetectSymbianOS (user_agent accept : Str) :
    (uagent_info.uagent_info user_agent accept).DetectSymbianOS
      = Rule.DetectSymbianOS (lowered user_agent accept) :=
  Query.run_ctor .DetectSymbianOS user_agent accept

@[simp] theorem ctor_DetectPalmOS (user_agent accept : Str) :
    (uagent_info.uagent_info user_agent accept).DetectPalmOS
      = Rule.DetectPalmOS (lowered user_agent accept) :=
  Query.run_ctor .DetectPalmOS user_agent accept

@[simp] theorem ctor_DetectPalmWebOS (user_agent accept : Str) :
    (uagent_info.uagent_info user_agent accept).DetectPalmWebOS
      = Rule.DetectPalmWebOS (lowered user_agent accept) :=
  Query.run_ctor .DetectPalmWebOS user_agent accept

@[simp] theorem ctor_DetectWebOSTablet (user_agent accept : Str) :
    (uagent_info.uagent_info user_agent accept).DetectWebOSTablet
      = Rule.DetectWebOSTablet (lowered user_agent accept) :=
  Query.run_ctor .DetectWebOSTablet user_agent accept

@[simp] theorem ctor_DetectWebOSTV (user_agent accept : Str) :
    (uagent_info.uagent_info user_agent accept).DetectWebOSTV
      = Rule.DetectWebOSTV (lowered user_agent accept) :=
  Query.run_ctor .DetectWebOSTV user_agent accept

@[simp] theorem ctor_DetectOperaMobile (user_agent accept : Str) :
    (uagent_info.uagent_info user_agent accept).DetectOperaMobile
      = Rule.DetectOperaMobile (lowered user_agent accept) :=
  Query.run_ctor .DetectOperaMobile user_agent accept

@[simp] theorem ctor_DetectKindle (user_agent accept : Str) :
    (uagent_info.uagent_info user_agent accept).DetectKindle
      = Rule.DetectKindle (lowered user_agent accept) :=
  Query.run_ctor .DetectKindle user_agent accept

@[simp] theorem ctor_DetectAmazonSilk (user_agent accept : Str) :
    (uagent_info.uagent_info user_agent accept).DetectAmazonSilk
      = Rule.DetectAmazonSilk (lowered user_agent accept) :=
  Query.run_ctor .DetectAmazonSilk user_agent accept

@[simp] theorem ctor_DetectGarminNuvifone (user_agent accept : Str) :
    (uagent_info.uagent_info user_agent accept).DetectGarminNuvifone
      = Rule.DetectGarminNuvifone (lowered user_agent accept) :=
  Query.run_ctor .DetectGarminNuvifone user_agent accept

@[simp] theorem ctor_DetectBada (user_agent accept : Str) :
    (uagent_info.uagent_info user_agent accept).DetectBada
      = Rule.DetectBada (lowered user_agent accept) :=
  Query.run_ctor .DetectBada user_agent accept

@[simp] theorem ctor_DetectTizen (user_agent accept : Str) :
    (uagent_info.uagent_info user_agent accept).DetectTizen
      = Rule.DetectTizen (lowered user_agent accept) :=
  Query.run_ctor .DetectTizen user_agent accept

@[simp] theorem ctor_DetectTizenTV (user_agent accept : Str) :
    (uagent_info.uagent_info user_agent accept).DetectTizenTV
      = Rule.DetectTizenTV (lowered user_agent accept) :=
  Query.run_ctor .DetectTizenTV user_agent accept

@[simp] theorem ctor_DetectMeego (user_agent accept : Str) :
    (uagent_info.uagent_info user_agent accept).DetectMeego
      = Rule.DetectMeego (lowered user_agent accept) :=
  Query.run_ctor .DetectMeego user_agent accept

@[simp] theorem ctor_DetectMeegoPhone (user_agent accept : Str) :
    (uagent_info.uagent_info user_agent accept).DetectMeegoPhone
      = Rule.DetectMeegoPhone (lowered user_agent accept) :=
  Query.run_ctor .DetectMeegoPhone user_agent accept

@[simp] theorem ctor_DetectFirefoxOS (user_agent accept : Str) :
    (uagent_info.uagent_info user_agent accept).DetectFirefoxOS
      = Rule.DetectFirefoxOS (lowered user_agent accept) :=
  Query.run_ctor .DetectFirefoxOS user_agent accept

@[simp] theorem ctor_DetectFirefoxOSPhone (user_agent accept : Str) :
    (uagent_info.uagent_info user_agent accept).DetectFirefoxOSPhone
      = Rule.DetectFirefoxOSPhone (lowered user_agent accept) :=
  Query.run_ctor .DetectFirefoxOSPhone user_agent accept

@[simp] theorem ctor_DetectFirefoxOSTablet (user_agent accept : Str) :
    (uagent_info.uagent_info user_agent accept).DetectFirefoxOSTablet
      = Rule.DetectFirefoxOSTablet (lowered user_agent accept) :=
  Query.run_ctor .DetectFirefoxOSTablet user_agent accept

@[simp] theorem ctor_DetectSailfish (user_agent accept : Str) :
    (uagent_info.uagent_info user_agent accept).DetectSailfish
      = Rule.DetectSailfish (lowered user_agent accept) :=
  Query.run_ctor .DetectSailfish user_agent accept

@[simp] theorem ctor_DetectSailfishPhone (user_agent accept : Str) :
    (uagent_info.uagent_info user_agent accept).DetectSailfishPhone
      = Rule.DetectSailfishPhone (lowered user_agent accept) :=
  Query.run_ctor .DetectSailfishPhone user_agent accept

@[simp] theorem ctor_DetectUbuntu (user_agent accept : Str) :
    (uagent_info.uagent_info user_agent accept).DetectUbuntu
      = Rule.DetectUbuntu (lowered user_agent accept) :=
  Query.run_ctor .DetectUbuntu user_agent accept

@[simp] theorem ctor_DetectUbuntuPhone (user_agent accept : Str) :
    (uagent_info.uagent_info user_agent accept).DetectUbuntuPhone
      = Rule.DetectUbuntuPhone (lowered user_agent accept) :=
  Query.run_ctor .DetectUbuntuPhone user_agent accept

@[simp] theorem ctor_DetectUbuntuTablet (user_agent accept : Str) :
    (uagent_info.uagent_info user_agent accept).DetectUbuntuTablet
      = Rule.DetectUbuntuTablet (lowered user_agent accept) :=
  Query.run_ctor .DetectUbuntuTablet user_agent accept

@[simp] theorem ctor_DetectDangerHiptop (user_agent accept : Str) :
    (uagent_info.uagent_info user_agent accept).DetectDangerHiptop
      = Rule.DetectDangerHiptop (lowered user_agent accept) :=
  Query.run_ctor .DetectDangerHiptop user_agent accept

@[simp] theorem ctor_DetectSonyMylo (user_agent accept : Str) :
    (uagent_info.uagent_info user_agent accept).DetectSonyMylo
      = Rule.DetectSonyMylo (lowered user_agent accept) :=
  Query.run_ctor .DetectSonyMylo user_agent accept

@[simp] theorem ctor_DetectMaemoTablet (user_agent accept : Str) :
    (uagent_info.uagent_info user_agent accept).DetectMaemoTablet
      = Rule.DetectMaemoTablet (lowered user_agent accept) :=
  Query.run_ctor .DetectMaemoTablet user_agent accept

@[simp] theorem ctor_DetectArchos (user_agent accept : Str) :
    (uagent_info.uagent_info user_agent accept).DetectArchos
      = Rule.DetectArchos (lowered user_agent accept) :=
  Query.run_ctor .DetectArchos user_agent accept

@[simp] theorem ctor_DetectGameConsole (user_agent accept : Str) :
    (uagent_info.uagent_info user_agent accept).DetectGameConsole
      = Rule.DetectGameConsole (lowered user_agent accept) :=
  Query.run_ctor .DetectGameConsole user_agent accept

@[simp] theorem ctor_DetectSonyPlaystation (user_agent accept : Str) :
    (uagent_info.uagent_info user_agent accept).DetectSonyPlaystation
      = Rule.DetectSonyPlaystation (lowered user_agent accept) :=
  Query.run_ctor .DetectSonyPlaystation user_agent accept

@[simp] theorem ctor_DetectGamingHandheld (user_agent accept : Str) :
    (uagent_info.uagent_info user_agent accept).DetectGamingHandheld
      = Rule.DetectGamingHandheld (lowered user_agent accept) :=
  Query.run_ctor .DetectGamingHandheld user_agent accept

@[simp] theorem ctor_DetectNintendo (user_agent accept : Str) :
    (uagent_info.uagent_info user_agent accept).DetectNintendo
      = Rule.DetectNintendo (lowered user_agent accept) :=
  Query.run_ctor .DetectNintendo user_agent accept

@[simp] theorem ctor_DetectXbox (user_agent accept : Str) :
    (uagent_info.uagent_info user_agent accept).DetectXbox
      = Rule.DetectXbox (lowered user_agent accept) :=
  Query.run_ctor .DetectXbox user_agent accept

@[simp] theorem ctor_DetectBrewDevice (user_agent accept : Str) :
    (uagent_info.uagent_info user_agent accept).DetectBrewDevice
      = Rule.DetectBrewDevice (lowered user_agent accept) :=
  Query.run_ctor .DetectBrewDevice user_agent accept

@[simp] theorem ctor_DetectWapWml (user_agent accept : Str) :
    (uagent_info.uagent_info user_agent accept).DetectWapWml
      = Rule.DetectWapWml (lowered user_agent accept) :=
  Query.run_ctor .DetectWapWml user_agent accept

@[simp] theorem ctor_DetectMidpCapable (user_agent accept : Str) :
    (uagent_info.uagent_info user_agent accept).DetectMidpCapable
      = Rule.DetectMidpCapable (lowered user_agent accept) :=
  Query.run_ctor .DetectMidpCapable user_agent accept

@[simp] theorem ctor_DetectSmartphone (user_agent accept : Str) :
    (uagent_info.uagent_info user_agent accept).DetectSmartphone
      = Rule.DetectSmartphone (lowered user_agent accept) :=
  Query.run_ctor .DetectSmartphone user_agent accept

@[simp] theorem ctor_DetectMobileQuick (user_agent accept : Str) :
    (uagent_info.uagent_info user_agent accept).DetectMobileQuick
      = Rule.DetectMobileQuick (lowered user_agent accept) :=
  Query.run_ctor .DetectMobileQuick user_agent accept

@[simp] theorem ctor_DetectMobileLong (user_agent accept : Str) :
    (uagent_info.uagent_info user_agent accept).DetectMobileLong
      = Rule.DetectMobileLong (lowered user_agent accept) :=
  Query.run_ctor .DetectMobileLong user_agent accept

@[simp] theorem ctor_DetectTierTablet (user_agent accept : Str) :
    (uagent_info.uagent_info user_agent accept).DetectTierTablet
      = Rule.DetectTierTablet (lowered user_agent accept) :=
  Query.run_ctor .DetectTierTablet user_agent accept

@[simp] theorem ctor_DetectTierIphone (user_agent accept : Str) :
    (uagent_info.uagent_info user_agent accept).DetectTierIphone
      = Rule.DetectTierIphone (lowered user_agent accept) :=
  Query.run_ctor .DetectTierIphone user_agent accept

@[simp] theorem ctor_DetectTierRichCss (user_agent accept : Str) :
    (uagent_info.uagent_info user_agent accept).DetectTierRichCss
      = Rule.DetectTierRichCss (lowered user_agent accept) :=
  Query.run_ctor .DetectTierRichCss user_agent accept

@[simp] theorem ctor_DetectTierOtherPhones (user_agent accept : Str) :
    (uagent_info.uagent_info user_agent accept).DetectTierOtherPhones
      = Rule.DetectTierOtherPhones (lowered user_agent accept) :=
  Query.run_ctor .DetectTierOtherPhones user_agent accept

/-! ## Every call returns the value of the method and leaves the object unchanged

Each state-passing method is shown to be the plain read of the corresponding function
of the object: it returns that value and the object it was called on. -/

theorem run_read {α : Type} (f : uagent_info → α) (s : uagent_info) :
    (Call.read f).run s = (f s, s) := rfl

theorem eqTrue_read (f : uagent_info → Bool) :
    Call.eqTrue (Call.read f) = Call.read (fun o => f o == true) := rfl

theorem eqFalse_read (f : uagent_info → Bool) :
    Call.eqFalse (Call.read f) = Call.read (fun o => f o == false) := rfl

theorem orM_read (f g : uagent_info → Bool) :
    (Call.read f <||> Call.read g) = Call.read (fun o => f o || g o) := by
  apply StateT.ext
  intro s
  simp only [orM, StateT.run_bind, run_read, Id.bind_eq, toBool]
  cases h : f s <;> simp [h, run_read]

theorem andM_read (f g : uagent_info → Bool) :
    (Call.read f <&&> Call.read g) = Call.read (fun o => f o && g o) := by
  apply StateT.ext
  intro s
  simp only [andM, StateT.run_bind, run_read, Id.bind_eq, toBool]
  cases h : f s <;> simp [h, run_read]

theorem read_bind_ite_pure_pure {α : Type} (c : uagent_info → Bool) (x y : α) :
    (Call.read c >>= fun b => if b = true then (pure x : StateM uagent_info α) else pure y)
      = Call.read (fun o => if c o = true then x else y) := by
  apply StateT.ext
  intro s
  simp only [StateT.run_bind, run_read, Id.bind_eq]
  split <;> rfl

theorem read_bind_ite_pure_read {α : Type} (c : uagent_info → Bool) (x : α)
    (g : uagent_info → α) :
    (Call.read c >>= fun b => if b = true then (pure x : StateM uagent_info α) else Call.read g)
      = Call.read (fun o => if c o = true then x else g o) := by
  apply StateT.ext
  intro s
  simp only [StateT.run_bind, run_read, Id.bind_eq]
  split <;> rfl

theorem read_bind_ite_read_pure {α : Type} (c : uagent_info → Bool) (f : uagent_info → α)
    (y : α) :
    (Call.read c >>= fun b => if b = true then Call.read f else (pure y : StateM uagent_info α))
      = Call.read (fun o => if c o = true then f o else y) := by
  apply StateT.ext
  intro s
  simp only [StateT.run_bind, run_read, Id.bind_eq]
  split <;> rfl

theorem read_bind_ite_read_read {α : Type} (c : uagent_info → Bool)
    (f g : uagent_info → α) :
    (Call.read c >>= fun b => if b = true then Call.read f else Call.read g)
      = Call.read (fun o => if c o = true then f o else g o) := by
  apply StateT.ext
  intro s
  simp only [StateT.run_bind, run_read, Id.bind_eq]
  split <;> rfl

theorem call_DetectWebkit : Call.DetectWebkit = Call.read uagent_info.DetectWebkit := by
  simp only [Call.DetectWebkit, eqTrue_read, eqFalse_read, orM_read, andM_read, pure_bind,
    bind_pure,
    read_bind_ite_pure_pure, read_bind_ite_pure_read, read_bind_ite_read_pure,
    read_bind_ite_read_read]
  refine congrArg Call.read (funext fun o => ?_)
  simp only [uagent_info.DetectWebkit, Bool.or_assoc, Bool.and_assoc]

theorem call_DetectIpod : Call.DetectIpod = Call.read uagent_info.DetectIpod := by
  simp only [Call.DetectIpod, eqTrue_read, eqFalse_read, orM_read, andM_read, pure_bind,
    bind_pure,
    read_bind_ite_pure_pure, read_bind_ite_pure_read, read_bind_ite_read_pure,
    read_bind_ite_read_read]
  refine congrArg Call.read (funext fun o => ?_)
  simp only [uagent_info.DetectIpod, Bool.or_assoc, Bool.and_assoc]

theorem call_DetectIpad : Call.DetectIpad = Call.read uagent_info.DetectIpad := by
  simp only [Call.DetectIpad, eqTrue_read, eqFalse_read, orM_read, andM_read, pure_bind,
    bind_pure,
    read_bind_ite_pure_pure, read_bind_ite_pure_read, read_bind_ite_read_pure,
    read_bind_ite_read_read,
    call_DetectWebkit]
  refine congrArg Call.read (funext fun o => ?_)
  simp only [uagent_info.DetectIpad, Bool.or_assoc, Bool.and_assoc]

theorem call_DetectIphone : Call.DetectIphone = Call.read uagent_info.DetectIphone := by
  simp only [Call.DetectIphone, eqTrue_read, eqFalse_read, orM_read, andM_read, pure_bind,
    bind_pure,
    read_bind_ite_pure_pure, read_bind_ite_pure_read, read_bind_ite_read_pure,
    read_bind_ite_read_read,
    call_DetectIpad, call_DetectIpod]
  refine congrArg Call.read (funext fun o => ?_)
  simp only [uagent_info.DetectIphone, Bool.or_assoc, Bool.and_assoc]

theorem call_DetectIphoneOrIpod :
    Call.DetectIphoneOrIpod = Call.read uagent_info.DetectIphoneOrIpod := by
  simp only [Call.DetectIphoneOrIpod, eqTrue_read, eqFalse_read, orM_read, andM_read, pure_bind,
    bind_pure,
    read_bind_ite_pure_pure, read_bind_ite_pure_read, read_bind_ite_read_pure,
    read_bind_ite_read_read,
    call_DetectIphone, call_DetectIpod]
  refine congrArg Call.read (funext fun o => ?_)
  simp only [uagent_info.DetectIphoneOrIpod, Bool.or_assoc, Bool.and_assoc]

theorem call_DetectIos : Call.DetectIos = Call.read uagent_info.DetectIos := by
  simp only [Call.DetectIos, eqTrue_read, eqFalse_read, orM_read, andM_read, pure_bind, bind_pure,
    read_bind_ite_pure_pure, read_bind_ite_pure_read, read_bind_ite_read_pure,
    read_bind_ite_read_read,
    call_DetectIphoneOrIpod, call_DetectIpad]
  refine congrArg Call.read (funext fun o => ?_)
  simp only [uagent_info.DetectIos, Bool.or_assoc, Bool.and_assoc]

theorem call_DetectGoogleTV : Call.DetectGoogleTV = Call.read uagent_info.DetectGoogleTV := by
  simp only [Call.DetectGoogleTV, eqTrue_read, eqFalse_read, orM_read, andM_read, pure_bind,
    bind_pure,
    read_bind_ite_pure_pure, read_bind_ite_pure_read, read_bind_ite_read_pure,
    read_bind_ite_read_read]
  refine congrArg Call.read (funext fun o => ?_)
  simp only [uagent_info.DetectGoogleTV, Bool.or_assoc, Bool.and_assoc]

theorem call_DetectAndroid : Call.DetectAndroid = Call.read uagent_info.DetectAndroid := by
  simp only [Call.DetectAndroid, eqTrue_read, eqFalse_read, orM_read, andM_read, pure_bind,
    bind_pure,
    read_bind_ite_pure_pure, read_bind_ite_pure_read, read_bind_ite_read_pure,
    read_bind_ite_read_read,
    call_DetectGoogleTV]
  refine congrArg Call.read (funext fun o => ?_)
  simp only [uagent_info.DetectAndroid, Bool.or_assoc, Bool.and_assoc]

theorem call_DetectOperaMobile :
    Call.DetectOperaMobile = Call.read uagent_info.DetectOperaMobile := by
  simp only [Call.DetectOperaMobile, eqTrue_read, eqFalse_read, orM_read, andM_read, pure_bind,
    bind_pure,
    read_bind_ite_pure_pure, read_bind_ite_pure_read, read_bind_ite_read_pure,
    read_bind_ite_read_read]
  refine congrArg Call.read (funext fun o => ?_)
  simp only [uagent_info.DetectOperaMobile, Bool.or_assoc, Bool.and_assoc]

theorem call_DetectAndroidPhone :
    Call.DetectAndroidPhone = Call.read uagent_info.DetectAndroidPhone := by
  simp only [Call.DetectAndroidPhone, eqTrue_read, eqFalse_read, orM_read, andM_read, pure_bind,
    bind_pure,
    read_bind_ite_pure_pure, read_bind_ite_pure_read, read_bind_ite_read_pure,
    read_bind_ite_read_read,
    call_DetectAndroid, call_DetectOperaMobile]
  refine congrArg Call.read (funext fun o => ?_)
  simp only [uagent_info.DetectAndroidPhone, Bool.or_assoc, Bool.and_assoc]

theorem call_DetectAndroidTablet :
    Call.DetectAndroidTablet = Call.read uagent_info.DetectAndroidTablet := by
  simp only [Call.DetectAndroidTablet, eqTrue_read, eqFalse_read, orM_read, andM_read, pure_bind,
    bind_pure,
    read_bind_ite_pure_pure, read_bind_ite_pure_read, read_bind_ite_read_pure,
    read_bind_ite_read_read,
    call_DetectAndroid, call_DetectOperaMobile]
  refine congrArg Call.read (funext fun o => ?_)
  simp only [uagent_info.DetectAndroidTablet, Bool.or_assoc, Bool.and_assoc]

theorem call_DetectAndroidWebKit :
    Call.DetectAndroidWebKit = Call.read uagent_info.DetectAndroidWebKit := by
  simp only [Call.DetectAndroidWebKit, eqTrue_read, eqFalse_read, orM_read, andM_read, pure_bind,
    bind_pure,
    read_bind_ite_pure_pure, read_bind_ite_pure_read, read_bind_ite_read_pure,
    read_bind_ite_read_read,
    call_DetectAndroid, call_DetectWebkit]
  refine congrArg Call.read (funext fun o => ?_)
  simp only [uagent_info.DetectAndroidWebKit, Bool.or_assoc, Bool.and_assoc]

theorem call_DetectWindowsPhone7 :
    Call.DetectWindowsPhone7 = Call.read uagent_info.DetectWindowsPhone7 := by
  simp only [Call.DetectWindowsPhone7, eqTrue_read, eqFalse_read, orM_read, andM_read, pure_bind,
    bind_pure,
    read_bind_ite_pure_pure, read_bind_ite_pure_read, read_bind_ite_read_pure,
    read_bind_ite_read_read]
  refine congrArg Call.read (funext fun o => ?_)
  simp only [uagent_info.DetectWindowsPhone7, Bool.or_assoc, Bool.and_assoc]

theorem call_DetectWindowsPhone8 :
    Call.DetectWindowsPhone8 = Call.read uagent_info.DetectWindowsPhone8 := by
  simp only [Call.DetectWindowsPhone8, eqTrue_read, eqFalse_read, orM_read, andM_read, pure_bind,
    bind_pure,
    read_bind_ite_pure_pure, read_bind_ite_pure_read, read_bind_ite_read_pure,
    read_bind_ite_read_read]
  refine congrArg Call.read (funext fun o => ?_)
  simp only [uagent_info.DetectWindowsPhone8, Bool.or_assoc, Bool.and_assoc]

theorem call_DetectWindowsPhone10 :
    Call.DetectWindowsPhone10 = Call.read uagent_info.DetectWindowsPhone10 := by
  simp only [Call.DetectWindowsPhone10, eqTrue_read, eqFalse_read, orM_read, andM_read,
    pure_bind, bind_pure,
    read_bind_ite_pure_pure, read_bind_ite_pure_read, read_bind_ite_read_pure,
    read_bind_ite_read_read]
  refine congrArg Call.read (funext fun o => ?_)
  simp only [uagent_info.DetectWindowsPhone10, Bool.or_assoc, Bool.and_assoc]

theorem call_DetectWindowsPhone :
    Call.DetectWindowsPhone = Call.read uagent_info.DetectWindowsPhone := by
  simp only [Call.DetectWindowsPhone, eqTrue_read, eqFalse_read, orM_read, andM_read, pure_bind,
    bind_pure,
    read_bind_ite_pure_pure, read_bind_ite_pure_read, read_bind_ite_read_pure,
    read_bind_ite_read_read,
    call_DetectWindowsPhone7, call_DetectWindowsPhone8, call_DetectWindowsPhone10]
  refine congrArg Call.read (funext fun o => ?_)
  simp only [uagent_info.DetectWindowsPhone, Bool.or_assoc, Bool.and_assoc]

theorem call_DetectWapWml : Call.DetectWapWml = Call.read uagent_info.DetectWapWml := by
  simp only [Call.DetectWapWml, eqTrue_read, eqFalse_read, orM_read, andM_read, pure_bind,
    bind_pure,
    read_bind_ite_pure_pure, read_bind_ite_pure_read, read_bind_ite_read_pure,
    read_bind_ite_read_read]
  refine congrArg Call.read (funext fun o => ?_)
  simp only [uagent_info.DetectWapWml, Bool.or_assoc, Bool.and_assoc]

theorem call_DetectWindowsMobile :
    Call.DetectWindowsMobile = Call.read uagent_info.DetectWindowsMobile := by
  simp only [Call.DetectWindowsMobile, eqTrue_read, eqFalse_read, orM_read, andM_read, pure_bind,
    bind_pure,
    read_bind_ite_pure_pure, read_bind_ite_pure_read, read_bind_ite_read_pure,
    read_bind_ite_read_read,
    call_DetectWindowsPhone, call_DetectWapWml]
  refine congrArg Call.read (funext fun o => ?_)
  simp only [uagent_info.DetectWindowsMobile, Bool.or_assoc, Bool.and_assoc]

theorem call_DetectBlackBerry10Phone :
    Call.DetectBlackBerry10Phone = Call.read uagent_info.DetectBlackBerry10Phone := by
  simp only [Call.DetectBlackBerry10Phone, eqTrue_read, eqFalse_read, orM_read, andM_read,
    pure_bind, bind_pure,
    read_bind_ite_pure_pure, read_bind_ite_pure_read, read_bind_ite_read_pure,
    read_bind_ite_read_read]
  refine congrArg Call.read (funext fun o => ?_)
  simp only [uagent_info.DetectBlackBerry10Phone, Bool.or_assoc, Bool.and_assoc]

theorem call_DetectBlackBerry :
    Call.DetectBlackBerry = Call.read uagent_info.DetectBlackBerry := by
  simp only [Call.DetectBlackBerry, eqTrue_read, eqFalse_read, orM_read, andM_read, pure_bind,
    bind_pure,
    read_bind_ite_pure_pure, read_bind_ite_pure_read, read_bind_ite_read_pure,
    read_bind_ite_read_read,
    call_DetectBlackBerry10Phone]
  refine congrArg Call.read (funext fun o => ?_)
  simp only [uagent_info.DetectBlackBerry, Bool.or_assoc, Bool.and_assoc]

theorem call_DetectBlackBerryTablet :
    Call.DetectBlackBerryTablet = Call.read uagent_info.DetectBlackBerryTablet := by
  simp only [Call.DetectBlackBerryTablet, eqTrue_read, eqFalse_read, orM_read, andM_read,
    pure_bind, bind_pure,
    read_bind_ite_pure_pure, read_bind_ite_pure_read, read_bind_ite_read_pure,
    read_bind_ite_read_read]
  refine congrArg Call.read (funext fun o => ?_)
  simp only [uagent_info.DetectBlackBerryTablet, Bool.or_assoc, Bool.and_assoc]

theorem call_DetectBlackBerryWebKit :
    Call.DetectBlackBerryWebKit = Call.read uagent_info.DetectBlackBerryWebKit := by
  simp only [Call.DetectBlackBerryWebKit, eqTrue_read, eqFalse_read, orM_read, andM_read,
    pure_bind, bind_pure,
    read_bind_ite_pure_pure, read_bind_ite_pure_read, read_bind_ite_read_pure,
    read_bind_ite_read_read,
    call_DetectBlackBerry, call_DetectWebkit]
  refine congrArg Call.read (funext fun o => ?_)
  simp only [uagent_info.DetectBlackBerryWebKit, Bool.or_assoc, Bool.and_assoc]

theorem call_DetectBlackBerryTouch :
    Call.DetectBlackBerryTouch = Call.read uagent_info.DetectBlackBerryTouch := by
  simp only [Call.DetectBlackBerryTouch, eqTrue_read, eqFalse_read, orM_read, andM_read,
    pure_bind, bind_pure,
    read_bind_ite_pure_pure, read_bind_ite_pure_read, read_bind_ite_read_pure,
    read_bind_ite_read_read]
  refine congrArg Call.read (funext fun o => ?_)
  simp only [uagent_info.DetectBlackBerryTouch, Bool.or_assoc, Bool.and_assoc]

theorem call_DetectBlackBerryHigh :
    Call.DetectBlackBerryHigh = Call.read uagent_info.DetectBlackBerryHigh := by
  simp only [Call.DetectBlackBerryHigh, eqTrue_read, eqFalse_read, orM_read, andM_read,
    pure_bind, bind_pure,
    read_bind_ite_pure_pure, read_bind_ite_pure_read, read_bind_ite_read_pure,
    read_bind_ite_read_read,
    call_DetectBlackBerryWebKit, call_DetectBlackBerry, call_DetectBlackBerryTouch]
  refine congrArg Call.read (funext fun o => ?_)
  simp only [uagent_info.DetectBlackBerryHigh, Bool.or_assoc, Bool.and_assoc]

theorem call_DetectBlackBerryLow :
    Call.DetectBlackBerryLow = Call.read uagent_info.DetectBlackBerryLow := by
  simp only [Call.DetectBlackBerryLow, eqTrue_read, eqFalse_read, orM_read, andM_read, pure_bind,
    bind_pure,
    read_bind_ite_pure_pure, read_bind_ite_pure_read, read_bind_ite_read_pure,
    read_bind_ite_read_read,
    call_DetectBlackBerry, call_DetectBlackBerryHigh, call_DetectBlackBerryWebKit]
  refine congrArg Call.read (funext fun o => ?_)
  simp only [uagent_info.DetectBlackBerryLow, Bool.or_assoc, Bool.and_assoc]

theorem call_DetectS60OssBrowser :
    Call.DetectS60OssBrowser = Call.read uagent_info.DetectS60OssBrowser := by
  simp only [Call.DetectS60OssBrowser, eqTrue_read, eqFalse_read, orM_read, andM_read, pure_bind,
    bind_pure,
    read_bind_ite_pure_pure, read_bind_ite_pure_read, read_bind_ite_read_pure,
    read_bind_ite_read_read,
    call_DetectWebkit]
  refine congrArg Call.read (funext fun o => ?_)
  simp only [uagent_info.DetectS60OssBrowser, Bool.or_assoc, Bool.and_assoc]

theorem call_DetectSymbianOS : Call.DetectSymbianOS = Call.read uagent_info.DetectSymbianOS := by
  simp only [Call.DetectSymbianOS, eqTrue_read, eqFalse_read, orM_read, andM_read, pure_bind,
    bind_pure,
    read_bind_ite_pure_pure, read_bind_ite_pure_read, read_bind_ite_read_pure,
    read_bind_ite_read_read]
  refine congrArg Call.read (funext fun o => ?_)
  simp only [uagent_info.DetectSymbianOS, Bool.or_assoc, Bool.and_assoc]

theorem call_DetectPalmWebOS : Call.DetectPalmWebOS = Call.read uagent_info.DetectPalmWebOS := by
  simp only [Call.DetectPalmWebOS, eqTrue_read, eqFalse_read, orM_read, andM_read, pure_bind,
    bind_pure,
    read_bind_ite_pure_pure, read_bind_ite_pure_read, read_bind_ite_read_pure,
    read_bind_ite_read_read]
  refine congrArg Call.read (funext fun o => ?_)
  simp only [uagent_info.DetectPalmWebOS, Bool.or_assoc, Bool.and_assoc]

theorem call_DetectPalmOS : Call.DetectPalmOS = Call.read uagent_info.DetectPalmOS := by
  simp only [Call.DetectPalmOS, eqTrue_read, eqFalse_read, orM_read, andM_read, pure_bind,
    bind_pure,
    read_bind_ite_pure_pure, read_bind_ite_pure_read, read_bind_ite_read_pure,
    read_bind_ite_read_read,
    call_DetectPalmWebOS]
  refine congrArg Call.read (funext fun o => ?_)
  simp only [uagent_info.DetectPalmOS, Bool.or_assoc, Bool.and_assoc]

theorem call_DetectWebOSTablet :
    Call.DetectWebOSTablet = Call.read uagent_info.DetectWebOSTablet := by
  simp only [Call.DetectWebOSTablet, eqTrue_read, eqFalse_read, orM_read, andM_read, pure_bind,
    bind_pure,
    read_bind_ite_pure_pure, read_bind_ite_pure_read, read_bind_ite_read_pure,
    read_bind_ite_read_read]
  refine congrArg Call.read (funext fun o => ?_)
  simp only [uagent_info.DetectWebOSTablet, Bool.or_assoc, Bool.and_assoc]

theorem call_DetectWebOSTV : Call.DetectWebOSTV = Call.read uagent_info.DetectWebOSTV := by
  simp only [Call.DetectWebOSTV, eqTrue_read, eqFalse_read, orM_read, andM_read, pure_bind,
    bind_pure,
    read_bind_ite_pure_pure, read_bind_ite_pure_read, read_bind_ite_read_pure,
    read_bind_ite_read_read]
  refine congrArg Call.read (funext fun o => ?_)
  simp only [uagent_info.DetectWebOSTV, Bool.or_assoc, Bool.and_assoc]

theorem call_DetectKindle : Call.DetectKindle = Call.read uagent_info.DetectKindle := by
  simp only [Call.DetectKindle, eqTrue_read, eqFalse_read, orM_read, andM_read, pure_bind,
    bind_pure,
    read_bind_ite_pure_pure, read_bind_ite_pure_read, read_bind_ite_read_pure,
    read_bind_ite_read_read,
    call_DetectAndroid]
  refine congrArg Call.read (funext fun o => ?_)
  simp only [uagent_info.DetectKindle, Bool.or_assoc, Bool.and_assoc]

theorem call_DetectAmazonSilk :
    Call.DetectAmazonSilk = Call.read uagent_info.DetectAmazonSilk := by
  simp only [Call.DetectAmazonSilk, eqTrue_read, eqFalse_read, orM_read, andM_read, pure_bind,
    bind_pure,
    read_bind_ite_pure_pure, read_bind_ite_pure_read, read_bind_ite_read_pure,
    read_bind_ite_read_read]
  refine congrArg Call.read (funext fun o => ?_)
  simp only [uagent_info.DetectAmazonSilk, Bool.or_assoc, Bool.and_assoc]

theorem call_DetectGarminNuvifone :
    Call.DetectGarminNuvifone = Call.read uagent_info.DetectGarminNuvifone := by
  simp only [Call.DetectGarminNuvifone, eqTrue_read, eqFalse_read, orM_read, andM_read,
    pure_bind, bind_pure,
    read_bind_ite_pure_pure, read_bind_ite_pure_read, read_bind_ite_read_pure,
    read_bind_ite_read_read]
  refine congrArg Call.read (funext fun o => ?_)
  simp only [uagent_info.DetectGarminNuvifone, Bool.or_assoc, Bool.and_assoc]

theorem call_DetectBada : Call.DetectBada = Call.read uagent_info.DetectBada := by
  simp only [Call.DetectBada, eqTrue_read, eqFalse_read, orM_read, andM_read, pure_bind,
    bind_pure,
    read_bind_ite_pure_pure, read_bind_ite_pure_read, read_bind_ite_read_pure,
    read_bind_ite_read_read]
  refine congrArg Call.read (funext fun o => ?_)
  simp only [uagent_info.DetectBada, Bool.or_assoc, Bool.and_assoc]

theorem call_DetectTizen : Call.DetectTizen = Call.read uagent_info.DetectTizen := by
  simp only [Call.DetectTizen, eqTrue_read, eqFalse_read, orM_read, andM_read, pure_bind,
    bind_pure,
    read_bind_ite_pure_pure, read_bind_ite_pure_read, read_bind_ite_read_pure,
    read_bind_ite_read_read]
  refine congrArg Call.read (funext fun o => ?_)
  simp only [uagent_info.DetectTizen, Bool.or_assoc, Bool.and_assoc]

theorem call_DetectTizenTV : Call.DetectTizenTV = Call.read uagent_info.DetectTizenTV := by
  simp only [Call.DetectTizenTV, eqTrue_read, eqFalse_read, orM_read, andM_read, pure_bind,
    bind_pure,
    read_bind_ite_pure_pure, read_bind_ite_pure_read, read_bind_ite_read_pure,
    read_bind_ite_read_read]
  refine congrArg Call.read (funext fun o => ?_)
  simp only [uagent_info.DetectTizenTV, Bool.or_assoc, Bool.and_assoc]

theorem call_DetectMeego : Call.DetectMeego = Call.read uagent_info.DetectMeego := by
  simp only [Call.DetectMeego, eqTrue_read, eqFalse_read, orM_read, andM_read, pure_bind,
    bind_pure,
    read_bind_ite_pure_pure, read_bind_ite_pure_read, read_bind_ite_read_pure,
    read_bind_ite_read_read]
  refine congrArg Call.read (funext fun o => ?_)
  simp only [uagent_info.DetectMeego, Bool.or_assoc, Bool.and_assoc]

theorem call_DetectMeegoPhone :
    Call.DetectMeegoPhone = Call.read uagent_info.DetectMeegoPhone := by
  simp only [Call.DetectMeegoPhone, eqTrue_read, eqFalse_read, orM_read, andM_read, pure_bind,
    bind_pure,
    read_bind_ite_pure_pure, read_bind_ite_pure_read, read_bind_ite_read_pure,
    read_bind_ite_read_read]
  refine congrArg Call.read (funext fun o => ?_)
  simp only [uagent_info.DetectMeegoPhone, Bool.or_assoc, Bool.and_assoc]

theorem call_DetectSailfish : Call.DetectSailfish = Call.read uagent_info.DetectSailfish := by
  simp only [Call.DetectSailfish, eqTrue_read, eqFalse_read, orM_read, andM_read, pure_bind,
    bind_pure,
    read_bind_ite_pure_pure, read_bind_ite_pure_read, read_bind_ite_read_pure,
    read_bind_ite_read_read]
  refine congrArg Call.read (funext fun o => ?_)
  simp only [uagent_info.DetectSailfish, Bool.or_assoc, Bool.and_assoc]

theorem call_DetectFirefoxOSPhone :
    Call.DetectFirefoxOSPhone = Call.read uagent_info.DetectFirefoxOSPhone := by
  simp only [Call.DetectFirefoxOSPhone, eqTrue_read, eqFalse_read, orM_read, andM_read,
    pure_bind, bind_pure,
    read_bind_ite_pure_pure, read_bind_ite_pure_read, read_bind_ite_read_pure,
    read_bind_ite_read_read,
    call_DetectIos, call_DetectAndroid, call_DetectSailfish]
  refine congrArg Call.read (funext fun o => ?_)
  simp only [uagent_info.DetectFirefoxOSPhone, Bool.or_assoc, Bool.and_assoc]

theorem call_DetectFirefoxOSTablet :
    Call.DetectFirefoxOSTablet = Call.read uagent_info.DetectFirefoxOSTablet := by
  simp only [Call.DetectFirefoxOSTablet, eqTrue_read, eqFalse_read, orM_read, andM_read,
    pure_bind, bind_pure,
    read_bind_ite_pure_pure, read_bind_ite_pure_read, read_bind_ite_read_pure,
    read_bind_ite_read_read,
    call_DetectIos, call_DetectAndroid, call_DetectSailfish]
  refine congrArg Call.read (funext fun o => ?_)
  simp only [uagent_info.DetectFirefoxOSTablet, Bool.or_assoc, Bool.and_assoc]

theorem call_DetectFirefoxOS : Call.DetectFirefoxOS = Call.read uagent_info.DetectFirefoxOS := by
  simp only [Call.DetectFirefoxOS, eqTrue_read, eqFalse_read, orM_read, andM_read, pure_bind,
    bind_pure,
    read_bind_ite_pure_pure, read_bind_ite_pure_read, read_bind_ite_read_pure,
    read_bind_ite_read_read,
    call_DetectFirefoxOSPhone, call_DetectFirefoxOSTablet]
  refine congrArg Call.read (funext fun o => ?_)
  simp only [uagent_info.DetectFirefoxOS, Bool.or_assoc, Bool.and_assoc]

theorem call_DetectSailfishPhone :
    Call.DetectSailfishPhone = Call.read uagent_info.DetectSailfishPhone := by
  simp only [Call.DetectSailfishPhone, eqTrue_read, eqFalse_read, orM_read, andM_read, pure_bind,
    bind_pure,
    read_bind_ite_pure_pure, read_bind_ite_pure_read, read_bind_ite_read_pure,
    read_bind_ite_read_read,
    call_DetectSailfish]
  refine congrArg Call.read (funext fun o => ?_)
  simp only [uagent_info.DetectSailfishPhone, Bool.or_assoc, Bool.and_assoc]

theorem call_DetectUbuntuPhone :
    Call.DetectUbuntuPhone = Call.read uagent_info.DetectUbuntuPhone := by
  simp only [Call.DetectUbuntuPhone, eqTrue_read, eqFalse_read, orM_read, andM_read, pure_bind,
    bind_pure,
    read_bind_ite_pure_pure, read_bind_ite_pure_read, read_bind_ite_read_pure,
    read_bind_ite_read_read]
  refine congrArg Call.read (funext fun o => ?_)
  simp only [uagent_info.DetectUbuntuPhone, Bool.or_assoc, Bool.and_assoc]

theorem call_DetectUbuntuTablet :
    Call.DetectUbuntuTablet = Call.read uagent_info.DetectUbuntuTablet := by
  simp only [Call.DetectUbuntuTablet, eqTrue_read, eqFalse_read, orM_read, andM_read, pure_bind,
    bind_pure,
    read_bind_ite_pure_pure, read_bind_ite_pure_read, read_bind_ite_read_pure,
    read_bind_ite_read_read]
  refine congrArg Call.read (funext fun o => ?_)
  simp only [uagent_info.DetectUbuntuTablet, Bool.or_assoc, Bool.and_assoc]

theorem call_DetectUbuntu : Call.DetectUbuntu = Call.read uagent_info.DetectUbuntu := by
  simp only [Call.DetectUbuntu, eqTrue_read, eqFalse_read, orM_read, andM_read, pure_bind,
    bind_pure,
    read_bind_ite_pure_pure, read_bind_ite_pure_read, read_bind_ite_read_pure,
    read_bind_ite_read_read,
    call_DetectUbuntuPhone, call_DetectUbuntuTablet]
  refine congrArg Call.read (funext fun o => ?_)
  simp only [uagent_info.DetectUbuntu, Bool.or_assoc, Bool.and_assoc]

theorem call_DetectDangerHiptop :
    Call.DetectDangerHiptop = Call.read uagent_info.DetectDangerHiptop := by
  simp only [Call.DetectDangerHiptop, eqTrue_read, eqFalse_read, orM_read, andM_read, pure_bind,
    bind_pure,
    read_bind_ite_pure_pure, read_bind_ite_pure_read, read_bind_ite_read_pure,
    read_bind_ite_read_read]
  refine congrArg Call.read (funext fun o => ?_)
  simp only [uagent_info.DetectDangerHiptop, Bool.or_assoc, Bool.and_assoc]

theorem call_DetectSonyMylo : Call.DetectSonyMylo = Call.read uagent_info.DetectSonyMylo := by
  simp only [Call.DetectSonyMylo, eqTrue_read, eqFalse_read, orM_read, andM_read, pure_bind,
    bind_pure,
    read_bind_ite_pure_pure, read_bind_ite_pure_read, read_bind_ite_read_pure,
    read_bind_ite_read_read]
  refine congrArg Call.read (funext fun o => ?_)
  simp only [uagent_info.DetectSonyMylo, Bool.or_assoc, Bool.and_assoc]

theorem call_DetectMaemoTablet :
    Call.DetectMaemoTablet = Call.read uagent_info.DetectMaemoTablet := by
  simp only [Call.DetectMaemoTablet, eqTrue_read, eqFalse_read, orM_read, andM_read, pure_bind,
    bind_pure,
    read_bind_ite_pure_pure, read_bind_ite_pure_read, read_bind_ite_read_pure,
    read_bind_ite_read_read,
    call_DetectWebOSTablet, call_DetectAndroid]
  refine congrArg Call.read (funext fun o => ?_)
  simp only [uagent_info.DetectMaemoTablet, Bool.or_assoc, Bool.and_assoc]

theorem call_DetectArchos : Call.DetectArchos = Call.read uagent_info.DetectArchos := by
  simp only [Call.DetectArchos, eqTrue_read, eqFalse_read, orM_read, andM_read, pure_bind,
    bind_pure,
    read_bind_ite_pure_pure, read_bind_ite_pure_read, read_bind_ite_read_pure,
    read_bind_ite_read_read]
  refine congrArg Call.read (funext fun o => ?_)
  simp only [uagent_info.DetectArchos, Bool.or_assoc, Bool.and_assoc]

theorem call_DetectSonyPlaystation :
    Call.DetectSonyPlaystation = Call.read uagent_info.DetectSonyPlaystation := by
  simp only [Call.DetectSonyPlaystation, eqTrue_read, eqFalse_read, orM_read, andM_read,
    pure_bind, bind_pure,
    read_bind_ite_pure_pure, read_bind_ite_pure_read, read_bind_ite_read_pure,
    read_bind_ite_read_read]
  refine congrArg Call.read (funext fun o => ?_)
  simp only [uagent_info.DetectSonyPlaystation, Bool.or_assoc, Bool.and_assoc]

theorem call_DetectGamingHandheld :
    Call.DetectGamingHandheld = Call.read uagent_info.DetectGamingHandheld := by
  simp only [Call.DetectGamingHandheld, eqTrue_read, eqFalse_read, orM_read, andM_read,
    pure_bind, bind_pure,
    read_bind_ite_pure_pure, read_bind_ite_pure_read, read_bind_ite_read_pure,
    read_bind_ite_read_read]
  refine congrArg Call.read (funext fun o => ?_)
  simp only [uagent_info.DetectGamingHandheld, Bool.or_assoc, Bool.and_assoc]

theorem call_DetectNintendo : Call.DetectNintendo = Call.read uagent_info.DetectNintendo := by
  simp only [Call.DetectNintendo, eqTrue_read, eqFalse_read, orM_read, andM_read, pure_bind,
    bind_pure,
    read_bind_ite_pure_pure, read_bind_ite_pure_read, read_bind_ite_read_pure,
    read_bind_ite_read_read]
  refine congrArg Call.read (funext fun o => ?_)
  simp only [uagent_info.DetectNintendo, Bool.or_assoc, Bool.and_assoc]

theorem call_DetectXbox : Call.DetectXbox = Call.read uagent_info.DetectXbox := by
  simp only [Call.DetectXbox, eqTrue_read, eqFalse_read, orM_read, andM_read, pure_bind,
    bind_pure,
    read_bind_ite_pure_pure, read_bind_ite_pure_read, read_bind_ite_read_pure,
    read_bind_ite_read_read]
  refine congrArg Call.read (funext fun o => ?_)
  simp only [uagent_info.DetectXbox, Bool.or_assoc, Bool.and_assoc]

theorem call_DetectGameConsole :
    Call.DetectGameConsole = Call.read uagent_info.DetectGameConsole := by
  simp only [Call.DetectGameConsole, eqTrue_read, eqFalse_read, orM_read, andM_read, pure_bind,
    bind_pure,
    read_bind_ite_pure_pure, read_bind_ite_pure_read, read_bind_ite_read_pure,
    read_bind_ite_read_read,
    call_DetectSonyPlaystation, call_DetectNintendo, call_DetectXbox]
  refine congrArg Call.read (funext fun o => ?_)
  simp only [uagent_info.DetectGameConsole, Bool.or_assoc, Bool.and_assoc]

theorem call_DetectBrewDevice :
    Call.DetectBrewDevice = Call.read uagent_info.DetectBrewDevice := by
  simp only [Call.DetectBrewDevice, eqTrue_read, eqFalse_read, orM_read, andM_read, pure_bind,
    bind_pure,
    read_bind_ite_pure_pure, read_bind_ite_pure_read, read_bind_ite_read_pure,
    read_bind_ite_read_read]
  refine congrArg Call.read (funext fun o => ?_)
  simp only [uagent_info.DetectBrewDevice, Bool.or_assoc, Bool.and_assoc]

theorem call_DetectMidpCapable :
    Call.DetectMidpCapable = Call.read uagent_info.DetectMidpCapable := by
  simp only [Call.DetectMidpCapable, eqTrue_read, eqFalse_read, orM_read, andM_read, pure_bind,
    bind_pure,
    read_bind_ite_pure_pure, read_bind_ite_pure_read, read_bind_ite_read_pure,
    read_bind_ite_read_read]
  refine congrArg Call.read (funext fun o => ?_)
  simp only [uagent_info.DetectMidpCapable, Bool.or_assoc, Bool.and_assoc]

theorem call_DetectTierTablet :
    Call.DetectTierTablet = Call.read uagent_info.DetectTierTablet := by
  simp only [Call.DetectTierTablet, eqTrue_read, eqFalse_read, orM_read, andM_read, pure_bind,
    bind_pure,
    read_bind_ite_pure_pure, read_bind_ite_pure_read, read_bind_ite_read_pure,
    read_bind_ite_read_read,
    call_DetectIpad, call_DetectAndroidTablet, call_DetectBlackBerryTablet,
    call_DetectFirefoxOSTablet, call_DetectUbuntuTablet, call_DetectWebOSTablet]
  refine congrArg Call.read (funext fun o => ?_)
  simp only [uagent_info.DetectTierTablet, Bool.or_assoc, Bool.and_assoc]

theorem call_DetectTierIphone :
    Call.DetectTierIphone = Call.read uagent_info.DetectTierIphone := by
  simp only [Call.DetectTierIphone, eqTrue_read, eqFalse_read, orM_read, andM_read, pure_bind,
    bind_pure,
    read_bind_ite_pure_pure, read_bind_ite_pure_read, read_bind_ite_read_pure,
    read_bind_ite_read_read,
    call_DetectIphoneOrIpod, call_DetectAndroidPhone, call_DetectWindowsPhone,
    call_DetectBlackBerry10Phone, call_DetectPalmWebOS, call_DetectBada, call_DetectTizen,
    call_DetectFirefoxOSPhone, call_DetectSailfishPhone, call_DetectUbuntuPhone,
    call_DetectGamingHandheld, call_DetectBlackBerryWebKit, call_DetectBlackBerryTouch]
  refine congrArg Call.read (funext fun o => ?_)
  simp only [uagent_info.DetectTierIphone, Bool.or_assoc, Bool.and_assoc]

theorem call_DetectSmartphone :
    Call.DetectSmartphone = Call.read uagent_info.DetectSmartphone := by
  simp only [Call.DetectSmartphone, eqTrue_read, eqFalse_read, orM_read, andM_read, pure_bind,
    bind_pure,
    read_bind_ite_pure_pure, read_bind_ite_pure_read, read_bind_ite_read_pure,
    read_bind_ite_read_read,
    call_DetectTierIphone, call_DetectS60OssBrowser, call_DetectSymbianOS,
    call_DetectWindowsMobile, call_DetectBlackBerry, call_DetectMeegoPhone,
    call_DetectPalmWebOS]
  refine congrArg Call.read (funext fun o => ?_)
  simp only [uagent_info.DetectSmartphone, Bool.or_assoc, Bool.and_assoc]

theorem call_DetectMobileQuick :
    Call.DetectMobileQuick = Call.read uagent_info.DetectMobileQuick := by
  simp only [Call.DetectMobileQuick, eqTrue_read, eqFalse_read, orM_read, andM_read, pure_bind,
    bind_pure,
    read_bind_ite_pure_pure, read_bind_ite_pure_read, read_bind_ite_read_pure,
    read_bind_ite_read_read,
    call_DetectSmartphone, call_DetectOperaMobile, call_DetectKindle, call_DetectAmazonSilk,
    call_DetectWapWml, call_DetectMidpCapable, call_DetectBrewDevice]
  refine congrArg Call.read (funext fun o => ?_)
  simp only [uagent_info.DetectMobileQuick, Bool.or_assoc, Bool.and_assoc]

theorem call_DetectMobileLong :
    Call.DetectMobileLong = Call.read uagent_info.DetectMobileLong := by
  simp only [Call.DetectMobileLong, eqTrue_read, eqFalse_read, orM_read, andM_read, pure_bind,
    bind_pure,
    read_bind_ite_pure_pure, read_bind_ite_pure_read, read_bind_ite_read_pure,
    read_bind_ite_read_read,
    call_DetectMobileQuick, call_DetectGameConsole, call_DetectDangerHiptop,
    call_DetectMaemoTablet, call_DetectSonyMylo, call_DetectArchos]
  refine congrArg Call.read (funext fun o => ?_)
  simp only [uagent_info.DetectMobileLong, Bool.or_assoc, Bool.and_assoc]

theorem call_DetectTierRichCss :
    Call.DetectTierRichCss = Call.read uagent_info.DetectTierRichCss := by
  simp only [Call.DetectTierRichCss, eqTrue_read, eqFalse_read, orM_read, andM_read, pure_bind,
    bind_pure,
    read_bind_ite_pure_pure, read_bind_ite_pure_read, read_bind_ite_read_pure,
    read_bind_ite_read_read,
    call_DetectMobileQuick, call_DetectTierIphone, call_DetectKindle, call_DetectWebkit,
    call_DetectS60OssBrowser, call_DetectBlackBerryHigh, call_DetectWindowsMobile]
  refine congrArg Call.read (funext fun o => ?_)
  simp only [uagent_info.DetectTierRichCss, Bool.or_assoc, Bool.and_assoc]

theorem call_DetectTierOtherPhones :
    Call.DetectTierOtherPhones = Call.read uagent_info.DetectTierOtherPhones := by
  simp only [Call.DetectTierOtherPhones, eqTrue_read, eqFalse_read, orM_read, andM_read,
    pure_bind, bind_pure,
    read_bind_ite_pure_pure, read_bind_ite_pure_read, read_bind_ite_read_pure,
    read_bind_ite_read_read,
    call_DetectMobileLong, call_DetectTierIphone, call_DetectTierRichCss]
  refine congrArg Call.read (funext fun o => ?_)
  simp only [uagent_info.DetectTierOtherPhones, Bool.or_assoc, Bool.and_assoc]

/-- Every public query, called on an object, returns the value of the method and
leaves the object as it was. -/
theorem call_query (q : Query) : Call.query q = Call.read q.run := by
  match q with
  | .DetectIphone => exact call_DetectIphone
  | .DetectIpod => exact call_DetectIpod
  | .DetectIpad => exact call_DetectIpad
  | .DetectIphoneOrIpod => exact call_DetectIphoneOrIpod
  | .DetectIos => exact call_DetectIos
  | .DetectAndroid => exact call_DetectAndroid
  | .DetectAndroidPhone => exact call_DetectAndroidPhone
  | .DetectAndroidTablet => exact call_DetectAndroidTablet
  | .DetectAndroidWebKit => exact call_DetectAndroidWebKit
  | .DetectGoogleTV => exact call_DetectGoogleTV
  | .DetectWebkit => exact call_DetectWebkit
  | .DetectWindowsPhone => exact call_DetectWindowsPhone
  | .DetectWindowsPhone7 => exact call_DetectWindowsPhone7
  | .DetectWindowsPhone8 => exact call_DetectWindowsPhone8
  | .DetectWindowsPhone10 => exact call_DetectWindowsPhone10
  | .DetectWindowsMobile => exact call_DetectWindowsMobile
  | .DetectBlackBerry => exact call_DetectBlackBerry
  | .DetectBlackBerry10Phone => exact call_DetectBlackBerry10Phone
  | .DetectBlackBerryTablet => exact call_DetectBlackBerryTablet
  | .DetectBlackBerryWebKit => exact call_DetectBlackBerryWebKit
  | .DetectBlackBerryTouch => exact call_DetectBlackBerryTouch
  | .DetectBlackBerryHigh => exact call_DetectBlackBerryHigh
  | .DetectBlackBerryLow => exact call_DetectBlackBerryLow
  | .DetectS60OssBrowser => exact call_DetectS60OssBrowser
  | .DetectSymbianOS => exact call_DetectSymbianOS
  | .DetectPalmOS => exact call_DetectPalmOS
  | .DetectPalmWebOS => exact call_DetectPalmWebOS
  | .DetectWebOSTablet => exact call_DetectWebOSTablet
  | .DetectWebOSTV => exact call_DetectWebOSTV
  | .DetectOperaMobile => exact call_DetectOperaMobile
  | .DetectKindle => exact call_DetectKindle
  | .DetectAmazonSilk => exact call_DetectAmazonSilk
  | .DetectGarminNuvifone => exact call_DetectGarminNuvifone
  | .DetectBada => exact call_DetectBada
  | .DetectTizen => exact call_DetectTizen
  | .DetectTizenTV => exact call_DetectTizenTV
  | .DetectMeego => exact call_DetectMeego
  | .DetectMeegoPhone => exact call_DetectMeegoPhone
  | .DetectFirefoxOS => exact call_DetectFirefoxOS
  | .DetectFirefoxOSPhone => exact call_DetectFirefoxOSPhone
  | .DetectFirefoxOSTablet => exact call_DetectFirefoxOSTablet
  | .DetectSailfish => exact call_DetectSailfish
  | .DetectSailfishPhone => exact call_DetectSailfishPhone
  | .DetectUbuntu => exact call_DetectUbuntu
  | .DetectUbuntuPhone => exact call_DetectUbuntuPhone
  | .DetectUbuntuTablet => exact call_DetectUbuntuTablet
  | .DetectDangerHiptop => exact call_DetectDangerHiptop
  | .DetectSonyMylo => exact call_DetectSonyMylo
  | .DetectMaemoTablet => exact call_DetectMaemoTablet
  | .DetectArchos => exact call_DetectArchos
  | .DetectGameConsole => exact call_DetectGameConsole
  | .DetectSonyPlaystation => exact call_DetectSonyPlaystation
  | .DetectGamingHandheld => exact call_DetectGamingHandheld
  | .DetectNintendo => exact call_DetectNintendo
  | .DetectXbox => exact call_DetectXbox
  | .DetectBrewDevice => exact call_DetectBrewDevice
  | .DetectWapWml => exact call_DetectWapWml
  | .DetectMidpCapable => exact call_DetectMidpCapable
  | .DetectSmartphone => exact call_DetectSmartphone
  | .DetectMobileQuick => exact call_DetectMobileQuick
  | .DetectMobileLong => exact call_DetectMobileLong
  | .DetectTierTablet => exact call_DetectTierTablet
  | .DetectTierIphone => exact call_DetectTierIphone
  | .DetectTierRichCss => exact call_DetectTierRichCss
  | .DetectTierOtherPhones => exact call_DetectTierOtherPhones

theorem run_query (q : Query) (s : uagent_info) : (Call.query q).run s = (q.run s, s) := by
  rw [call_query, run_read]

theorem run_all (qs : List Query) (s : uagent_info) :
    (Call.all qs).run s = (qs.map (fun q => q.run s), s) := by
  induction qs with
  | nil => rfl
  | cons q qs ih =>
    simp only [Call.all, StateT.run_bind, run_query, ih, Id.bind_eq, StateT.run_pure,
      Id.pure_eq, List.map_cons]

theorem run_after (before : List Query) (q : Query) (s : uagent_info) :
    (Call.after before q).run s = (q.run s, s) := by
  simp only [Call.after, StateT.run_bind, run_all, Id.bind_eq, run_query]

theorem run_Get_Uagent (s : uagent_info) : Call.Get_Uagent.run s = (s.Get_Uagent, s) := rfl

theorem run_Get_HttpAccept (s : uagent_info) :
    Call.Get_HttpAccept.run s = (s.Get_HttpAccept, s) := rfl

theorem run_modify (f : uagent_info → uagent_info) (s : uagent_info) :
    (modify f : StateM uagent_info PUnit).run s = (PUnit.unit, f s) := rfl

/-- The private method `InitDeviceScan`, run on an object, leaves the object that the
nine assignments and `initCompleted = true` produce. -/
theorem run_InitDeviceScan (s : uagent_info) :
    (Call.InitDeviceScan.run s).2 = uagent_info.InitDeviceScan s := by
  simp only [Call.InitDeviceScan, call_DetectWebkit, call_DetectIphone, call_DetectAndroid,
    call_DetectAndroidPhone, call_DetectTierTablet, call_DetectTierIphone,
    call_DetectMobileQuick, call_DetectTierRichCss, call_DetectTierOtherPhones,
    StateT.run_bind, run_read, run_modify, Id.bind_eq]
  rfl

/-- Running `InitDeviceScan` does change the object: the methods of this section can
express an assignment. -/
theorem run_InitDeviceScan_assigns :
    (Call.InitDeviceScan.run (uagent_info.initial (bytes "iPhone") (bytes ""))).2
      ≠ uagent_info.initial (bytes "iPhone") (bytes "") := by
  decide

theorem Call_uagent_info_eq (user_agent accept : Str) :
    Call.uagent_info user_agent accept = uagent_info.uagent_info user_agent accept :=
  run_InitDeviceScan _

/-! ## Exclusions between the tablet rules and the iPhone tier rules -/

theorem Rule.ipad_excludes (h : Headers) (hi : Rule.DetectIpad h = true) :
    Rule.DetectIphone h = false ∧ Rule.DetectFirefoxOSPhone h = false := by
  constructor
  · unfold Rule.DetectIphone
    rw [hi]
    simp
  · simp [Rule.DetectFirefoxOSPhone, Rule.DetectIos, hi]

theorem Rule.androidTablet_excludes (h : Headers) (ht : Rule.DetectAndroidTablet h = true) :
    Rule.DetectAndroidPhone h = false ∧ Rule.DetectBlackBerry10Phone h = false
    ∧ Rule.DetectTizen h = false ∧ Rule.DetectFirefoxOSPhone h = false
    ∧ Rule.DetectSailfishPhone h = false ∧ Rule.DetectUbuntuPhone h = false := by
  have ha : Rule.DetectAndroid h = true := by
    cases e : Rule.DetectAndroid h
    · simp [Rule.DetectAndroidTablet, e] at ht
    · rfl
  have ho : Rule.DetectOperaMobile h = false := by
    cases e : Rule.DetectOperaMobile h
    · rfl
    · simp [Rule.DetectAndroidTablet, ha, e] at ht
  have hm : find h.useragent mobile = npos := by
    by_cases e : find h.useragent mobile = npos
    · exact e
    · simp [Rule.DetectAndroidTablet, ha, ho, e] at ht
  refine ⟨?_, ?_, ?_, ?_, ?_, ?_⟩
  · simp [Rule.DetectAndroidPhone, ha, ho, hm]
  · simp [Rule.DetectBlackBerry10Phone, hm]
  · simp [Rule.DetectTizen, hm]
  · simp [Rule.DetectFirefoxOSPhone, ha]
  · simp [Rule.DetectSailfishPhone, hm]
  · simp [Rule.DetectUbuntuPhone, hm]

theorem Rule.firefoxOSTablet_excludes (h : Headers)
    (ht : Rule.DetectFirefoxOSTablet h = true) :
    Rule.DetectIphoneOrIpod h = false ∧ Rule.DetectAndroidPhone h = false
    ∧ Rule.DetectSailfishPhone h = false := by
  have hn : (Rule.DetectIos h || Rule.DetectAndroid h || Rule.DetectSailfish h) = false := by
    cases e : (Rule.DetectIos h || Rule.DetectAndroid h || Rule.DetectSailfish h)
    · rfl
    · unfold Rule.DetectFirefoxOSTablet at ht
      rw [if_pos e] at ht
      exact absurd ht (by decide)
  simp only [Bool.or_eq_false_iff] at hn
  obtain ⟨⟨hios, hand⟩, hsail⟩ := hn
  refine ⟨?_, ?_, ?_⟩
  · cases e : Rule.DetectIphoneOrIpod h
    · rfl
    · simp [Rule.DetectIos, e] at hios
  · simp [Rule.DetectAndroidPhone, hand]
  · simp [Rule.DetectSailfishPhone, hsail]

/-! ## The specification, claim by claim -/

/-- C1: for every pair of input strings, after construction each of the nine cached
queries returns the value of its uncached rule, every predicate the rule depends on
being recomputed from the lowercased strings. In the construction order: every
intermediate state of `InitDeviceScan` is sound (a member that a cache guard returns
holds its valid value), the members assigned so far are valid (in particular
`isTierTablet`, which `DetectMobileQuick` reads without a guard, from the fifth
assignment on), and the constructed object is the state after the nine assignments
with `initCompleted` set. -/
theorem C1_cached_queries_return_uncached_rule_values (user_agent accept : Str) :
    ((uagent_info.uagent_info user_agent accept).DetectWebkit
        = Rule.DetectWebkit (lowered user_agent accept)
      ∧ (uagent_info.uagent_info user_agent accept).DetectIphone
        = Rule.DetectIphone (lowered user_agent accept)
      ∧ (uagent_info.uagent_info user_agent accept).DetectAndroid
        = Rule.DetectAndroid (lowered user_agent accept)
      ∧ (uagent_info.uagent_info user_agent accept).DetectAndroidPhone
        = Rule.DetectAndroidPhone (lowered user_agent accept)
      ∧ (uagent_info.uagent_info user_agent accept).DetectTierTablet
        = Rule.DetectTierTablet (lowered user_agent accept)
      ∧ (uagent_info.uagent_info user_agent accept).DetectTierIphone
        = Rule.DetectTierIphone (lowered user_agent accept)
      ∧ (uagent_info.uagent_info user_agent accept).DetectMobileQuick
        = Rule.DetectMobileQuick (lowered user_agent accept)
      ∧ (uagent_info.uagent_info user_agent accept).DetectTierRichCss
        = Rule.DetectTierRichCss (lowered user_agent accept)
      ∧ (uagent_info.uagent_info user_agent accept).DetectTierOtherPhones
        = Rule.DetectTierOtherPhones (lowered user_agent accept))
    ∧ (∀ k : Nat,
        Sound (uagent_info.scanPrefix k (uagent_info.initial user_agent accept))
        ∧ ValidUpTo k (uagent_info.scanPrefix k (uagent_info.initial user_agent accept))
        ∧ (uagent_info.scanPrefix k (uagent_info.initial user_agent accept)).headers
            = lowered user_agent accept)
    ∧ uagent_info.uagent_info user_agent accept
        = { uagent_info.scanPrefix 9 (uagent_info.initial user_agent accept) with
            initCompleted := true } := by
  refine ⟨⟨?_, ?_, ?_, ?_, ?_, ?_, ?_, ?_, ?_⟩, ?_, rfl⟩
  · exact Query.run_ctor .DetectWebkit user_agent accept
  · exact Query.run_ctor .DetectIphone user_agent accept
  · exact Query.run_ctor .DetectAndroid user_agent accept
  · exact Query.run_ctor .DetectAndroidPhone user_agent accept
  · exact Query.run_ctor .DetectTierTablet user_agent accept
  · exact Query.run_ctor .DetectTierIphone user_agent accept
  · exact Query.run_ctor .DetectMobileQuick user_agent accept
  · exact Query.run_ctor .DetectTierRichCss user_agent accept
  · exact Query.run_ctor .DetectTierOtherPhones user_agent accept
  · intro k
    have h := scanPrefix_sound k (Sound_initial user_agent accept)
    exact ⟨h.1, h.2, scanPrefix_headers k _⟩

/-- C2: determinism. On two objects constructed from the same pair of strings, a
public query called after any history of calls of public queries (`before1` on the
one object, `before2` on the other, in any order and with repetitions) returns the
same value, namely the value of its uncached rule on the lowercased strings. -/
theorem C2_queries_are_deterministic (user_agent accept : Str)
    (before1 before2 : List Query) (q : Query) :
    ((Call.after before1 q).run (Call.uagent_info user_agent accept)).1
      = ((Call.after before2 q).run (Call.uagent_info user_agent accept)).1
    ∧ ((Call.after before1 q).run (Call.uagent_info user_agent accept)).1
      = q.rule (lowered user_agent accept) := by
  rw [run_after, run_after, Call_uagent_info_eq]
  exact ⟨rfl, Query.run_ctor q user_agent accept⟩

/-- C3: case-insensitivity. Two input pairs whose ASCII-lowercased forms are equal
construct objects on which every public query and both accessors return the same
result. -/
theorem C3_case_insensitive (ua1 acc1 ua2 acc2 : Str)
    (hua : transform_tolower ua1 = transform_tolower ua2)
    (hacc : transform_tolower acc1 = transform_tolower acc2) (q : Query) :
    q.run (uagent_info.uagent_info ua1 acc1) = q.run (uagent_info.uagent_info ua2 acc2)
    ∧ (uagent_info.uagent_info ua1 acc1).Get_Uagent
      = (uagent_info.uagent_info ua2 acc2).Get_Uagent
    ∧ (uagent_info.uagent_info ua1 acc1).Get_HttpAccept
      = (uagent_info.uagent_info ua2 acc2).Get_HttpAccept := by
  have e : uagent_info.uagent_info ua1 acc1 = uagent_info.uagent_info ua2 acc2 := by
    unfold uagent_info.uagent_info uagent_info.initial
    rw [hua, hacc]
  rw [e]
  exact ⟨rfl, rfl, rfl⟩

/-- Witness of C3: "IPHONE WEBKIT" with "TEXT/HTML" against "iPhone WebKit" with
"text/html", for the query `DetectIphone`. -/
theorem C3_case_insensitive_witness :
    transform_tolower (bytes "IPHONE WEBKIT") = transform_tolower (bytes "iPhone WebKit")
    ∧ transform_tolower (bytes "TEXT/HTML") = transform_tolower (bytes "text/html")
    ∧ (Query.DetectIphone.run (uagent_info.uagent_info (bytes "IPHONE WEBKIT") (bytes "TEXT/HTML"))
        = Query.DetectIphone.run
            (uagent_info.uagent_info (bytes "iPhone WebKit") (bytes "text/html"))
      ∧ (uagent_info.uagent_info (bytes "IPHONE WEBKIT") (bytes "TEXT/HTML")).Get_Uagent
        = (uagent_info.uagent_info (bytes "iPhone WebKit") (bytes "text/html")).Get_Uagent
      ∧ (uagent_info.uagent_info (bytes "IPHONE WEBKIT") (bytes "TEXT/HTML")).Get_HttpAccept
        = (uagent_info.uagent_info (bytes "iPhone WebKit") (bytes "text/html")).Get_HttpAccept) :=
  ⟨by decide, by decide,
    C3_case_insensitive (bytes "IPHONE WEBKIT") (bytes "TEXT/HTML") (bytes "iPhone WebKit")
      (bytes "text/html") (by decide) (by decide) Query.DetectIphone⟩

/-- C4 as stated fails: for the user agent "ipad webkit ipod" (empty Accept) both
`DetectTierTablet` and `DetectTierIphone` are true; so they are for "android ipod",
"playbook bb10 mobile", "firefox mobile tablet", "ubuntu mobile tablet" and
"hpwos tablet webos", one input for each of the six tablet rules. -/
theorem C4_counterexample :
    ((uagent_info.uagent_info (bytes "ipad webkit ipod") []).DetectTierTablet = true
      ∧ (uagent_info.uagent_info (bytes "ipad webkit ipod") []).DetectTierIphone = true)
    ∧ ((uagent_info.uagent_info (bytes "android ipod") []).DetectTierTablet = true
      ∧ (uagent_info.uagent_info (bytes "android ipod") []).DetectTierIphone = true)
    ∧ ((uagent_info.uagent_info (bytes "playbook bb10 mobile") []).DetectTierTablet = true
      ∧ (uagent_info.uagent_info (bytes "playbook bb10 mobile") []).DetectTierIphone = true)
    ∧ ((uagent_info.uagent_info (bytes "firefox mobile tablet") []).DetectTierTablet = true
      ∧ (uagent_info.uagent_info (bytes "firefox mobile tablet") []).DetectTierIphone = true)
    ∧ ((uagent_info.uagent_info (bytes "ubuntu mobile tablet") []).DetectTierTablet = true
      ∧ (uagent_info.uagent_info (bytes "ubuntu mobile tablet") []).DetectTierIphone = true)
    ∧ ((uagent_info.uagent_info (bytes "hpwos tablet webos") []).DetectTierTablet = true
      ∧ (uagent_info.uagent_info (bytes "hpwos tablet webos") []).DetectTierIphone = true) := by
  decide

/-- C4, amended: for every pair of input strings, `DetectTierTablet` and
`DetectTierIphone` are both true if and only if (a) `DetectIpad` is true with one of
`DetectIpod`, `DetectAndroidPhone`, `DetectWindowsPhone`, `DetectBlackBerry10Phone`,
`DetectPalmWebOS`, `DetectBada`, `DetectTizen`, `DetectSailfishPhone`,
`DetectUbuntuPhone`, `DetectGamingHandheld`, or `DetectBlackBerryWebKit` with
`DetectBlackBerryTouch`; or (b) `DetectAndroidTablet` is true with one of
`DetectIphoneOrIpod`, `DetectWindowsPhone`, `DetectPalmWebOS`, `DetectBada`,
`DetectGamingHandheld`, or `DetectBlackBerryWebKit` with `DetectBlackBerryTouch`; or
(c) `DetectFirefoxOSTablet` is true with one of `DetectWindowsPhone`,
`DetectBlackBerry10Phone`, `DetectPalmWebOS`, `DetectBada`, `DetectTizen`,
`DetectFirefoxOSPhone`, `DetectUbuntuPhone`, `DetectGamingHandheld`, or
`DetectBlackBerryWebKit` with `DetectBlackBerryTouch`; or (d) `DetectBlackBerryTablet`,
`DetectUbuntuTablet` or `DetectWebOSTablet` is true with `DetectTierIphone`. On every
other input at most one of the two tiers is true. The rules left out of (a), (b), (c)
are excluded: `DetectIpad` is never true together with `DetectIphone` or
`DetectFirefoxOSPhone`; `DetectAndroidTablet` never together with `DetectAndroidPhone`,
`DetectBlackBerry10Phone`, `DetectTizen`, `DetectFirefoxOSPhone`, `DetectSailfishPhone`
or `DetectUbuntuPhone`; `DetectFirefoxOSTablet` never together with
`DetectIphoneOrIpod`, `DetectAndroidPhone` or `DetectSailfishPhone`. -/
theorem C4_tier_tablet_and_tier_iphone (user_agent accept : Str) :
    ((uagent_info.uagent_info user_agent accept).DetectTierTablet
        && (uagent_info.uagent_info user_agent accept).DetectTierIphone)
      = (((uagent_info.uagent_info user_agent accept).DetectIpad
          && ((uagent_info.uagent_info user_agent accept).DetectIpod
            || (uagent_info.uagent_info user_agent accept).DetectAndroidPhone
            || (uagent_info.uagent_info user_agent accept).DetectWindowsPhone
            || (uagent_info.uagent_info user_agent accept).DetectBlackBerry10Phone
            || (uagent_info.uagent_info user_agent accept).DetectPalmWebOS
            || (uagent_info.uagent_info user_agent accept).DetectBada
            || (uagent_info.uagent_info user_agent accept).DetectTizen
            || (uagent_info.uagent_info user_agent accept).DetectSailfishPhone
            || (uagent_info.uagent_info user_agent accept).DetectUbuntuPhone
            || (uagent_info.uagent_info user_agent accept).DetectGamingHandheld
            || ((uagent_info.uagent_info user_agent accept).DetectBlackBerryWebKit
              && (uagent_info.uagent_info user_agent accept).DetectBlackBerryTouch)))
        || ((uagent_info.uagent_info user_agent accept).DetectAndroidTablet
          && ((uagent_info.uagent_info user_agent accept).DetectIphoneOrIpod
            || (uagent_info.uagent_info user_agent accept).DetectWindowsPhone
            || (uagent_info.uagent_info user_agent accept).DetectPalmWebOS
            || (uagent_info.uagent_info user_agent accept).DetectBada
            || (uagent_info.uagent_info user_agent accept).DetectGamingHandheld
            || ((uagent_info.uagent_info user_agent accept).DetectBlackBerryWebKit
              && (uagent_info.uagent_info user_agent accept).DetectBlackBerryTouch)))
        || ((uagent_info.uagent_info user_agent accept).DetectFirefoxOSTablet
          && ((uagent_info.uagent_info user_agent accept).DetectWindowsPhone
            || (uagent_info.uagent_info user_agent accept).DetectBlackBerry10Phone
            || (uagent_info.uagent_info user_agent accept).DetectPalmWebOS
            || (uagent_info.uagent_info user_agent accept).DetectBada
            || (uagent_info.uagent_info user_agent accept).DetectTizen
            || (uagent_info.uagent_info user_agent accept).DetectFirefoxOSPhone
            || (uagent_info.uagent_info user_agent accept).DetectUbuntuPhone
            || (uagent_info.uagent_info user_agent accept).DetectGamingHandheld
            || ((uagent_info.uagent_info user_agent accept).DetectBlackBerryWebKit
              && (uagent_info.uagent_info user_agent accept).DetectBlackBerryTouch)))
        || (((uagent_info.uagent_info user_agent accept).DetectBlackBerryTablet
            || (uagent_info.uagent_info user_agent accept).DetectUbuntuTablet
            || (uagent_info.uagent_info user_agent accept).DetectWebOSTablet)
          && (uagent_info.uagent_info user_agent accept).DetectTierIphone))
    ∧ ((uagent_info.uagent_info user_agent accept).DetectIpad
        && ((uagent_info.uagent_info user_agent accept).DetectIphone
          || (uagent_info.uagent_info user_agent accept).DetectFirefoxOSPhone)) = false
    ∧ ((uagent_info.uagent_info user_agent accept).DetectAndroidTablet
        && ((uagent_info.uagent_info user_agent accept).DetectAndroidPhone
          || (uagent_info.uagent_info user_agent accept).DetectBlackBerry10Phone
          || (uagent_info.uagent_info user_agent accept).DetectTizen
          || (uagent_info.uagent_info user_agent accept).DetectFirefoxOSPhone
          || (uagent_info.uagent_info user_agent accept).DetectSailfishPhone
          || (uagent_info.uagent_info user_agent accept).DetectUbuntuPhone)) = false
    ∧ ((uagent_info.uagent_info user_agent accept).DetectFirefoxOSTablet
        && ((uagent_info.uagent_info user_agent accept).DetectIphoneOrIpod
          || (uagent_info.uagent_info user_agent accept).DetectAndroidPhone
          || (uagent_info.uagent_info user_agent accept).DetectSailfishPhone)) = false := by
  simp only [ctor_DetectTierTablet, ctor_DetectTierIphone, ctor_DetectIpad, ctor_DetectIpod,
    ctor_DetectAndroidPhone, ctor_DetectWindowsPhone, ctor_DetectBlackBerry10Phone,
    ctor_DetectPalmWebOS, ctor_DetectBada, ctor_DetectTizen, ctor_DetectSailfishPhone,
    ctor_DetectUbuntuPhone, ctor_DetectGamingHandheld, ctor_DetectBlackBerryWebKit,
    ctor_DetectBlackBerryTouch, ctor_DetectAndroidTablet, ctor_DetectIphoneOrIpod,
    ctor_DetectFirefoxOSTablet, ctor_DetectFirefoxOSPhone, ctor_DetectBlackBerryTablet,
    ctor_DetectUbuntuTablet, ctor_DetectWebOSTablet, ctor_DetectIphone]
  generalize lowered user_agent accept = h
  have hTT : Rule.DetectTierTablet h
      = (Rule.DetectIpad h || Rule.DetectAndroidTablet h || Rule.DetectBlackBerryTablet h
        || Rule.DetectFirefoxOSTablet h || Rule.DetectUbuntuTablet h
        || Rule.DetectWebOSTablet h) := by
    simp [Rule.DetectTierTablet, Bool.or_assoc]
  have hTI : Rule.DetectTierIphone h
      = (Rule.DetectIphoneOrIpod h || Rule.DetectAndroidPhone h || Rule.DetectWindowsPhone h
        || Rule.DetectBlackBerry10Phone h || Rule.DetectPalmWebOS h || Rule.DetectBada h
        || Rule.DetectTizen h || Rule.DetectFirefoxOSPhone h || Rule.DetectSailfishPhone h
        || Rule.DetectUbuntuPhone h || Rule.DetectGamingHandheld h
        || (Rule.DetectBlackBerryWebKit h && Rule.DetectBlackBerryTouch h)) := by
    simp [Rule.DetectTierIphone, Bool.or_assoc]
  have hIoI : Rule.DetectIphoneOrIpod h = (Rule.DetectIphone h || Rule.DetectIpod h) := by
    simp [Rule.DetectIphoneOrIpod]
  have q1 : (Rule.DetectIpad h && Rule.DetectTierIphone h)
      = (Rule.DetectIpad h
        && (Rule.DetectIpod h || Rule.DetectAndroidPhone h || Rule.DetectWindowsPhone h
          || Rule.DetectBlackBerry10Phone h || Rule.DetectPalmWebOS h || Rule.DetectBada h
          || Rule.DetectTizen h || Rule.DetectSailfishPhone h || Rule.DetectUbuntuPhone h
          || Rule.DetectGamingHandheld h
          || (Rule.DetectBlackBerryWebKit h && Rule.DetectBlackBerryTouch h))) := by
    cases hi : Rule.DetectIpad h
    · rfl
    · obtain ⟨a, b⟩ := Rule.ipad_excludes h hi
      rw [hTI, hIoI, a, b]
      simp [Bool.or_assoc]
  have q2 : (Rule.DetectAndroidTablet h && Rule.DetectTierIphone h)
      = (Rule.DetectAndroidTablet h
        && (Rule.DetectIphoneOrIpod h || Rule.DetectWindowsPhone h || Rule.DetectPalmWebOS h
          || Rule.DetectBada h || Rule.DetectGamingHandheld h
          || (Rule.DetectBlackBerryWebKit h && Rule.DetectBlackBerryTouch h))) := by
    cases hi : Rule.DetectAndroidTablet h
    · rfl
    · obtain ⟨a, b, c, d, e, f⟩ := Rule.androidTablet_excludes h hi
      rw [hTI, a, b, c, d, e, f]
      simp [Bool.or_assoc]
  have q3 : (Rule.DetectFirefoxOSTablet h && Rule.DetectTierIphone h)
      = (Rule.DetectFirefoxOSTablet h
        && (Rule.DetectWindowsPhone h || Rule.DetectBlackBerry10Phone h
          || Rule.DetectPalmWebOS h || Rule.DetectBada h || Rule.DetectTizen h
          || Rule.DetectFirefoxOSPhone h || Rule.DetectUbuntuPhone h
          || Rule.DetectGamingHandheld h
          || (Rule.DetectBlackBerryWebKit h && Rule.DetectBlackBerryTouch h))) := by
    cases hi : Rule.DetectFirefoxOSTablet h
    · rfl
    · obtain ⟨a, b, c⟩ := Rule.firefoxOSTablet_excludes h hi
      rw [hTI, a, b, c]
      simp [Bool.or_assoc]
  refine ⟨?_, ?_, ?_, ?_⟩
  · rw [← q1, ← q2, ← q3, hTT]
    cases Rule.DetectIpad h <;> cases Rule.DetectAndroidTablet h <;>
      cases Rule.DetectBlackBerryTablet h <;> cases Rule.DetectFirefoxOSTablet h <;>
      cases Rule.DetectUbuntuTablet h <;> cases Rule.DetectWebOSTablet h <;>
      cases Rule.DetectTierIphone h <;> rfl
  · cases hi : Rule.DetectIpad h
    · rfl
    · obtain ⟨a, b⟩ := Rule.ipad_excludes h hi
      rw [a, b]
      rfl
  · cases hi : Rule.DetectAndroidTablet h
    · rfl
    · obtain ⟨a, b, c, d, e, f⟩ := Rule.androidTablet_excludes h hi
      rw [a, b, c, d, e, f]
      rfl
  · cases hi : Rule.DetectFirefoxOSTablet h
    · rfl
    · obtain ⟨a, b, c⟩ := Rule.firefoxOSTablet_excludes h hi
      rw [a, b, c]
      rfl

/-- C5: for every pair of input strings, if `DetectTierIphone` is true then
`DetectTierRichCss` and `DetectTierOtherPhones` are false, and if `DetectTierRichCss`
is true then `DetectTierOtherPhones` is false. -/
theorem C5_phone_tiers_exclusive (user_agent accept : Str) :
    ((uagent_info.uagent_info user_agent accept).DetectTierIphone = true →
        (uagent_info.uagent_info user_agent accept).DetectTierRichCss = false
        ∧ (uagent_info.uagent_info user_agent accept).DetectTierOtherPhones = false)
    ∧ ((uagent_info.uagent_info user_agent accept).DetectTierRichCss = true →
        (uagent_info.uagent_info user_agent accept).DetectTierOtherPhones = false) := by
  simp only [ctor_DetectTierIphone, ctor_DetectTierRichCss, ctor_DetectTierOtherPhones]
  constructor
  · intro h
    simp [Rule.DetectTierRichCss, Rule.DetectTierOtherPhones, h]
  · intro h
    simp [Rule.DetectTierOtherPhones, h]

/-- Witness of C5: scenario 1 (an iPhone) is in the iPhone tier and in neither of the
other two; the user agent "webkit mobile" is in the rich CSS tier and not in the
generic one. -/
theorem C5_phone_tiers_exclusive_witness :
    ((uagent_info.uagent_info scenario1 []).DetectTierIphone = true
      ∧ (uagent_info.uagent_info scenario1 []).DetectTierRichCss = false
      ∧ (uagent_info.uagent_info scenario1 []).DetectTierOtherPhones = false)
    ∧ ((uagent_info.uagent_info (bytes "webkit mobile") []).DetectTierRichCss = true
      ∧ (uagent_info.uagent_info (bytes "webkit mobile") []).DetectTierOtherPhones = false) :=
  ⟨⟨by decide, (C5_phone_tiers_exclusive scenario1 []).1 (by decide)⟩,
    ⟨by decide, (C5_phone_tiers_exclusive (bytes "webkit mobile") []).2 (by decide)⟩⟩

/-- C6 as stated fails. The user agent "iphone ipad" contains both tokens, yet
`DetectTierTablet` is false and `DetectIphone` and `DetectTierIphone` are true
(`DetectIpad` also asks for the WebKit token). The user agent
"iphone ipad webkit ipod" contains both tokens and is a tablet, yet
`DetectTierIphone` is true (through `DetectIpod`). -/
theorem C6_counterexample :
    (contains (transform_tolower (bytes "iphone ipad")) deviceIphone = true
      ∧ contains (transform_tolower (bytes "iphone ipad")) deviceIpad = true
      ∧ (uagent_info.uagent_info (bytes "iphone ipad") []).DetectTierTablet = false
      ∧ (uagent_info.uagent_info (bytes "iphone ipad") []).DetectIphone = true
      ∧ (uagent_info.uagent_info (bytes "iphone ipad") []).DetectTierIphone = true)
    ∧ (contains (transform_tolower (bytes "iphone ipad webkit ipod")) deviceIphone = true
      ∧ contains (transform_tolower (bytes "iphone ipad webkit ipod")) deviceIpad = true
      ∧ (uagent_info.uagent_info (bytes "iphone ipad webkit ipod") []).DetectTierTablet = true
      ∧ (uagent_info.uagent_info (bytes "iphone ipad webkit ipod") []).DetectTierIphone
          = true) := by
  decide

/-- C6, amended: for every user agent whose lowercased form contains "iphone", "ipad"
and "webkit" (any Accept string), `DetectIpad` and `DetectTierTablet` are true and
`DetectIphone` is false; `DetectTierIphone` is then true exactly when an iPhone tier
rule other than `DetectIphone` fires (`DetectIpod`, `DetectAndroidPhone`,
`DetectWindowsPhone`, `DetectBlackBerry10Phone`, `DetectPalmWebOS`, `DetectBada`,
`DetectTizen`, `DetectSailfishPhone`, `DetectUbuntuPhone`, `DetectGamingHandheld`, or
`DetectBlackBerryWebKit` with `DetectBlackBerryTouch`). -/
theorem C6_ipad_override (user_agent accept : Str)
    (hiphone : contains (transform_tolower user_agent) deviceIphone = true)
    (hipad : contains (transform_tolower user_agent) deviceIpad = true)
    (hwebkit : contains (transform_tolower user_agent) engineWebKit = true) :
    (uagent_info.uagent_info user_agent accept).DetectIpad = true
    ∧ (uagent_info.uagent_info user_agent accept).DetectTierTablet = true
    ∧ (uagent_info.uagent_info user_agent accept).DetectIphone = false
    ∧ (uagent_info.uagent_info user_agent accept).DetectTierIphone
      = ((uagent_info.uagent_info user_agent accept).DetectIpod
        || (uagent_info.uagent_info user_agent accept).DetectAndroidPhone
        || (uagent_info.uagent_info user_agent accept).DetectWindowsPhone
        || (uagent_info.uagent_info user_agent accept).DetectBlackBerry10Phone
        || (uagent_info.uagent_info user_agent accept).DetectPalmWebOS
        || (uagent_info.uagent_info user_agent accept).DetectBada
        || (uagent_info.uagent_info user_agent accept).DetectTizen
        || (uagent_info.uagent_info user_agent accept).DetectSailfishPhone
        || (uagent_info.uagent_info user_agent accept).DetectUbuntuPhone
        || (uagent_info.uagent_info user_agent accept).DetectGamingHandheld
        || ((uagent_info.uagent_info user_agent accept).DetectBlackBerryWebKit
            && (uagent_info.uagent_info user_agent accept).DetectBlackBerryTouch)) := by
  simp only [ctor_DetectIpad, ctor_DetectTierTablet, ctor_DetectIphone,
    ctor_DetectTierIphone, ctor_DetectIpod, ctor_DetectAndroidPhone,
    ctor_DetectWindowsPhone, ctor_DetectBlackBerry10Phone, ctor_DetectPalmWebOS,
    ctor_DetectBada, ctor_DetectTizen, ctor_DetectSailfishPhone, ctor_DetectUbuntuPhone,
    ctor_DetectGamingHandheld, ctor_DetectBlackBerryWebKit, ctor_DetectBlackBerryTouch]
  have hi : find (lowered user_agent accept).useragent deviceIphone ≠ npos := by
    simpa [contains, lowered] using hiphone
  have hp : find (lowered user_agent accept).useragent deviceIpad ≠ npos := by
    simpa [contains, lowered] using hipad
  have hw : find (lowered user_agent accept).useragent engineWebKit ≠ npos := by
    simpa [contains, lowered] using hwebkit
  have e1 : Rule.DetectIpad (lowered user_agent accept) = true := by
    simp [Rule.DetectIpad, Rule.DetectWebkit, hp, hw]
  have e2 : Rule.DetectIphone (lowered user_agent accept) = false := by
    simp [Rule.DetectIphone, e1, hi]
  have e3 : Rule.DetectFirefoxOSPhone (lowered user_agent accept) = false := by
    simp [Rule.DetectFirefoxOSPhone, Rule.DetectIos, e1]
  refine ⟨e1, ?_, e2, ?_⟩
  · simp [Rule.DetectTierTablet, e1]
  · simp [Rule.DetectTierIphone, Rule.DetectIphoneOrIpod, e2, e3, Bool.or_assoc]

/-- Witness of C6: an iPad user agent that also names the iPhone OS. -/
theorem C6_ipad_override_witness :
    contains (transform_tolower
      (bytes "Mozilla/5.0 (iPad; CPU iPhone OS 10_3 like Mac OS X) AppleWebKit/603.1.30"))
      deviceIphone = true
    ∧ (uagent_info.uagent_info
        (bytes "Mozilla/5.0 (iPad; CPU iPhone OS 10_3 like Mac OS X) AppleWebKit/603.1.30")
        []).DetectTierTablet = true
    ∧ (uagent_info.uagent_info
        (bytes "Mozilla/5.0 (iPad; CPU iPhone OS 10_3 like Mac OS X) AppleWebKit/603.1.30")
        []).DetectIphone = false :=
  ⟨by decide,
    (C6_ipad_override
      (bytes "Mozilla/5.0 (iPad; CPU iPhone OS 10_3 like Mac OS X) AppleWebKit/603.1.30") []
      (by decide) (by decide) (by decide)).2.1,
    (C6_ipad_override
      (bytes "Mozilla/5.0 (iPad; CPU iPhone OS 10_3 like Mac OS X) AppleWebKit/603.1.30") []
      (by decide) (by decide) (by decide)).2.2.1⟩

/-- C7: for every user agent whose lowercased form contains "android" and "mobile"
(any Accept string), `DetectAndroidPhone` is true, `DetectAndroidTablet` is false and
`DetectTierIphone` is true. -/
theorem C7_android_phone (user_agent accept : Str)
    (handroid : contains (transform_tolower user_agent) deviceAndroid = true)
    (hmobile : contains (transform_tolower user_agent) mobile = true) :
    (uagent_info.uagent_info user_agent accept).DetectAndroidPhone = true
    ∧ (uagent_info.uagent_info user_agent accept).DetectAndroidTablet = false
    ∧ (uagent_info.uagent_info user_agent accept).DetectTierIphone = true := by
  simp only [ctor_DetectAndroidPhone, ctor_DetectAndroidTablet, ctor_DetectTierIphone]
  simp only [contains, lowered] at *
  simp [Rule.DetectAndroidPhone, Rule.DetectAndroidTablet, Rule.DetectTierIphone,
    Rule.DetectAndroid, handroid, hmobile]

/-- Witness of C7: scenario 3 of the specification. -/
theorem C7_android_phone_witness :
    contains (transform_tolower scenario3) deviceAndroid = true
    ∧ contains (transform_tolower scenario3) mobile = true
    ∧ (uagent_info.uagent_info scenario3 []).DetectAndroidPhone = true
    ∧ (uagent_info.uagent_info scenario3 []).DetectAndroidTablet = false
    ∧ (uagent_info.uagent_info scenario3 []).DetectTierIphone = true :=
  ⟨by decide, by decide, C7_android_phone scenario3 [] (by decide) (by decide)⟩

/-- C8 as stated fails: the user agent "android mobile playbook" contains "android"
and "mobile", and `DetectTierTablet` is true (through `DetectBlackBerryTablet`). -/
theorem C8_counterexample :
    contains (transform_tolower (bytes "android mobile playbook")) deviceAndroid = true
    ∧ contains (transform_tolower (bytes "android mobile playbook")) mobile = true
    ∧ (uagent_info.uagent_info (bytes "android mobile playbook") []).DetectTierTablet
        = true := by
  decide

/-- C8, amended: for every user agent whose lowercased form contains "android" and
"mobile" (any Accept string), `DetectAndroidTablet` and `DetectFirefoxOSTablet` are
false, and `DetectTierTablet` is true exactly when one of the other tablet rules
fires (`DetectIpad`, `DetectBlackBerryTablet`, `DetectUbuntuTablet`,
`DetectWebOSTablet`). -/
theorem C8_android_phone_tablet_tier (user_agent accept : Str)
    (handroid : contains (transform_tolower user_agent) deviceAndroid = true)
    (hmobile : contains (transform_tolower user_agent) mobile = true) :
    (uagent_info.uagent_info user_agent accept).DetectAndroidTablet = false
    ∧ (uagent_info.uagent_info user_agent accept).DetectFirefoxOSTablet = false
    ∧ (uagent_info.uagent_info user_agent accept).DetectTierTablet
      = ((uagent_info.uagent_info user_agent accept).DetectIpad
        || (uagent_info.uagent_info user_agent accept).DetectBlackBerryTablet
        || (uagent_info.uagent_info user_agent accept).DetectUbuntuTablet
        || (uagent_info.uagent_info user_agent accept).DetectWebOSTablet) := by
  simp only [ctor_DetectAndroidTablet, ctor_DetectFirefoxOSTablet, ctor_DetectTierTablet,
    ctor_DetectIpad, ctor_DetectBlackBerryTablet, ctor_DetectUbuntuTablet,
    ctor_DetectWebOSTablet]
  have ha : find (lowered user_agent accept).useragent deviceAndroid ≠ npos := by
    simpa [contains, lowered] using handroid
  have hm : find (lowered user_agent accept).useragent mobile ≠ npos := by
    simpa [contains, lowered] using hmobile
  have e1 : Rule.DetectAndroid (lowered user_agent accept) = true := by
    simp [Rule.DetectAndroid, ha]
  have e2 : Rule.DetectAndroidTablet (lowered user_agent accept) = false := by
    simp [Rule.DetectAndroidTablet, e1, hm]
  have e3 : Rule.DetectFirefoxOSTablet (lowered user_agent accept) = false := by
    simp [Rule.DetectFirefoxOSTablet, e1]
  refine ⟨e2, e3, ?_⟩
  simp [Rule.DetectTierTablet, e2, e3, Bool.or_assoc]

/-- Witness of C8: scenario 3 of the specification, where no tablet rule fires. -/
theorem C8_android_phone_tablet_tier_witness :
    contains (transform_tolower scenario3) deviceAndroid = true
    ∧ contains (transform_tolower scenario3) mobile = true
    ∧ (uagent_info.uagent_info scenario3 []).DetectAndroidTablet = false
    ∧ (uagent_info.uagent_info scenario3 []).DetectTierTablet = false :=
  ⟨by decide, by decide,
    (C8_android_phone_tablet_tier scenario3 [] (by decide) (by decide)).1,
    ((C8_android_phone_tablet_tier scenario3 [] (by decide) (by decide)).2.2).trans
      (by decide)⟩

/-- C9: for every user agent whose lowercased form contains "android", does not
contain "mobile" and has no Opera mobile signature (not both "opera" and one of
"mini", "mobi"), `DetectAndroidTablet` is true, `DetectAndroidPhone` is false and
`DetectTierTablet` is true (any Accept string). -/
theorem C9_android_tablet (user_agent accept : Str)
    (handroid : contains (transform_tolower user_agent) deviceAndroid = true)
    (hmobile : contains (transform_tolower user_agent) mobile = false)
    (hopera : ¬ (contains (transform_tolower user_agent) engineOpera = true
      ∧ (contains (transform_tolower user_agent) mini = true
        ∨ contains (transform_tolower user_agent) mobi = true))) :
    (uagent_info.uagent_info user_agent accept).DetectAndroidTablet = true
    ∧ (uagent_info.uagent_info user_agent accept).DetectAndroidPhone = false
    ∧ (uagent_info.uagent_info user_agent accept).DetectTierTablet = true := by
  simp only [ctor_DetectAndroidTablet, ctor_DetectAndroidPhone, ctor_DetectTierTablet]
  have ha : find (lowered user_agent accept).useragent deviceAndroid ≠ npos := by
    simpa [contains, lowered] using handroid
  have hm : find (lowered user_agent accept).useragent mobile = npos := by
    simpa [contains, lowered] using hmobile
  have e1 : Rule.DetectAndroid (lowered user_agent accept) = true := by
    simp [Rule.DetectAndroid, ha]
  have e2 : Rule.DetectOperaMobile (lowered user_agent accept) = false := by
    simp only [contains, lowered] at hopera
    simp only [Rule.DetectOperaMobile, lowered]
    by_cases c1 : (find (transform_tolower user_agent) engineOpera != npos) = true
    · by_cases c2 : (find (transform_tolower user_agent) mini != npos
          || find (transform_tolower user_agent) mobi != npos) = true
      · exact absurd ⟨c1, by simpa using c2⟩ hopera
      · simp [c1, c2]
    · simp [c1]
  have e3 : Rule.DetectAndroidTablet (lowered user_agent accept) = true := by
    simp [Rule.DetectAndroidTablet, e1, e2, hm]
  refine ⟨e3, ?_, ?_⟩
  · simp [Rule.DetectAndroidPhone, e1, e2, hm]
  · simp [Rule.DetectTierTablet, e3]

/-- Witness of C9: scenario 4 of the specification. -/
theorem C9_android_tablet_witness :
    contains (transform_tolower scenario4) deviceAndroid = true
    ∧ contains (transform_tolower scenario4) mobile = false
    ∧ (uagent_info.uagent_info scenario4 []).DetectAndroidTablet = true
    ∧ (uagent_info.uagent_info scenario4 []).DetectAndroidPhone = false
    ∧ (uagent_info.uagent_info scenario4 []).DetectTierTablet = true :=
  ⟨by decide, by decide,
    C9_android_tablet scenario4 [] (by decide) (by decide) (by decide)⟩

/-- C10 as stated fails: the user agent "kindle googletv" contains "kindle" and not
"android", and `DetectKindle` is false (`DetectAndroid` also detects Google TV). -/
theorem C10_counterexample :
    contains (transform_tolower (bytes "kindle googletv")) deviceKindle = true
    ∧ contains (transform_tolower (bytes "kindle googletv")) deviceAndroid = false
    ∧ (uagent_info.uagent_info (bytes "kindle googletv") []).DetectKindle = false := by
  decide

/-- C10, amended: for every user agent whose lowercased form contains "kindle" and
contains neither "android" nor "googletv" (any Accept string), `DetectKindle` is
true. -/
theorem C10_kindle_eink (user_agent accept : Str)
    (hkindle : contains (transform_tolower user_agent) deviceKindle = true)
    (handroid : contains (transform_tolower user_agent) deviceAndroid = false)
    (hgoogletv : contains (transform_tolower user_agent) deviceGoogleTV = false) :
    (uagent_info.uagent_info user_agent accept).DetectKindle = true := by
  simp only [ctor_DetectKindle]
  simp only [contains, lowered] at *
  simp only [bne_iff_ne, ne_eq, Bool.not_eq_true, bne_eq_false_iff_eq] at *
  simp [Rule.DetectKindle, Rule.DetectAndroid, Rule.DetectGoogleTV, hkindle, handroid,
    hgoogletv]

/-- Witness of C10: the user agent of a Kindle 3 e-ink reader. -/
theorem C10_kindle_eink_witness :
    contains (transform_tolower (bytes
      "Mozilla/5.0 (Linux; U; en-US) AppleWebKit/528.5+ Version/4.0 Kindle/3.0"))
      deviceKindle = true
    ∧ (uagent_info.uagent_info (bytes
      "Mozilla/5.0 (Linux; U; en-US) AppleWebKit/528.5+ Version/4.0 Kindle/3.0")
      []).DetectKindle = true :=
  ⟨by decide,
    C10_kindle_eink (bytes
      "Mozilla/5.0 (Linux; U; en-US) AppleWebKit/528.5+ Version/4.0 Kindle/3.0") []
      (by decide) (by decide) (by decide)⟩

/-- C11: for every user agent whose lowercased form contains both "kindle" and
"android" (any Accept string), `DetectKindle` is false and `DetectAndroid` is true;
and for every pair of input strings `DetectKindle` and `DetectAndroid` are never both
true. -/
theorem C11_kindle_fire (user_agent accept : Str) :
    (contains (transform_tolower user_agent) deviceKindle = true →
      contains (transform_tolower user_agent) deviceAndroid = true →
      (uagent_info.uagent_info user_agent accept).DetectKindle = false
      ∧ (uagent_info.uagent_info user_agent accept).DetectAndroid = true)
    ∧ ((uagent_info.uagent_info user_agent accept).DetectKindle
        && (uagent_info.uagent_info user_agent accept).DetectAndroid) = false := by
  simp only [ctor_DetectKindle, ctor_DetectAndroid]
  constructor
  · intro _ handroid
    have ha : find (lowered user_agent accept).useragent deviceAndroid ≠ npos := by
      simpa [contains, lowered] using handroid
    have e : Rule.DetectAndroid (lowered user_agent accept) = true := by
      simp [Rule.DetectAndroid, ha]
    simp [Rule.DetectKindle, e]
  · cases e : Rule.DetectAndroid (lowered user_agent accept) <;> simp [Rule.DetectKindle, e]

/-- Witness of C11: the user agent of a Kindle Fire. -/
theorem C11_kindle_fire_witness :
    contains (transform_tolower
      (bytes "Mozilla/5.0 (Linux; U; Android 2.3.4; en-us; Kindle Fire) AppleWebKit/533.1"))
      deviceKindle = true
    ∧ contains (transform_tolower
      (bytes "Mozilla/5.0 (Linux; U; Android 2.3.4; en-us; Kindle Fire) AppleWebKit/533.1"))
      deviceAndroid = true
    ∧ (uagent_info.uagent_info
      (bytes "Mozilla/5.0 (Linux; U; Android 2.3.4; en-us; Kindle Fire) AppleWebKit/533.1")
      []).DetectKindle = false
    ∧ (uagent_info.uagent_info
      (bytes "Mozilla/5.0 (Linux; U; Android 2.3.4; en-us; Kindle Fire) AppleWebKit/533.1")
      []).DetectAndroid = true :=
  ⟨by decide, by decide,
    (C11_kindle_fire
      (bytes "Mozilla/5.0 (Linux; U; Android 2.3.4; en-us; Kindle Fire) AppleWebKit/533.1")
      []).1 (by decide) (by decide)⟩

/-- C12: on the object constructed from two empty strings every public `Detect*`
query returns false. -/
theorem C12_empty_input (q : Query) :
    q.run (uagent_info.uagent_info (bytes "") (bytes "")) = false := by
  cases q <;> decide

/-- C13: for every pair of input strings, `DetectTierTablet` is true if and only if at
least one of `DetectIpad`, `DetectAndroidTablet`, `DetectBlackBerryTablet`,
`DetectFirefoxOSTablet`, `DetectUbuntuTablet`, `DetectWebOSTablet` is true. -/
theorem C13_tier_tablet (user_agent accept : Str) :
    (uagent_info.uagent_info user_agent accept).DetectTierTablet
      = ((uagent_info.uagent_info user_agent accept).DetectIpad
        || (uagent_info.uagent_info user_agent accept).DetectAndroidTablet
        || (uagent_info.uagent_info user_agent accept).DetectBlackBerryTablet
        || (uagent_info.uagent_info user_agent accept).DetectFirefoxOSTablet
        || (uagent_info.uagent_info user_agent accept).DetectUbuntuTablet
        || (uagent_info.uagent_info user_agent accept).DetectWebOSTablet) := by
  simp only [ctor_DetectTierTablet, ctor_DetectIpad, ctor_DetectAndroidTablet,
    ctor_DetectBlackBerryTablet, ctor_DetectFirefoxOSTablet, ctor_DetectUbuntuTablet,
    ctor_DetectWebOSTablet]
  simp [Rule.DetectTierTablet, Bool.or_assoc]

/-- C14: for every pair of input strings, `DetectTierIphone` is true if and only if at
least one of `DetectIphoneOrIpod`, `DetectAndroidPhone`, `DetectWindowsPhone`,
`DetectBlackBerry10Phone`, `DetectPalmWebOS`, `DetectBada`, `DetectTizen`,
`DetectFirefoxOSPhone`, `DetectSailfishPhone`, `DetectUbuntuPhone`,
`DetectGamingHandheld` is true, or both `DetectBlackBerryWebKit` and
`DetectBlackBerryTouch` are true. -/
theorem C14_tier_iphone (user_agent accept : Str) :
    (uagent_info.uagent_info user_agent accept).DetectTierIphone
      = ((uagent_info.uagent_info user_agent accept).DetectIphoneOrIpod
        || (uagent_info.uagent_info user_agent accept).DetectAndroidPhone
        || (uagent_info.uagent_info user_agent accept).DetectWindowsPhone
        || (uagent_info.uagent_info user_agent accept).DetectBlackBerry10Phone
        || (uagent_info.uagent_info user_agent accept).DetectPalmWebOS
        || (uagent_info.uagent_info user_agent accept).DetectBada
        || (uagent_info.uagent_info user_agent accept).DetectTizen
        || (uagent_info.uagent_info user_agent accept).DetectFirefoxOSPhone
        || (uagent_info.uagent_info user_agent accept).DetectSailfishPhone
        || (uagent_info.uagent_info user_agent accept).DetectUbuntuPhone
        || (uagent_info.uagent_info user_agent accept).DetectGamingHandheld
        || ((uagent_info.uagent_info user_agent accept).DetectBlackBerryWebKit
            && (uagent_info.uagent_info user_agent accept).DetectBlackBerryTouch)) := by
  simp only [ctor_DetectTierIphone, ctor_DetectIphoneOrIpod, ctor_DetectAndroidPhone,
    ctor_DetectWindowsPhone, ctor_DetectBlackBerry10Phone, ctor_DetectPalmWebOS,
    ctor_DetectBada, ctor_DetectTizen, ctor_DetectFirefoxOSPhone, ctor_DetectSailfishPhone,
    ctor_DetectUbuntuPhone, ctor_DetectGamingHandheld, ctor_DetectBlackBerryWebKit,
    ctor_DetectBlackBerryTouch]
  simp [Rule.DetectTierIphone, Bool.or_assoc]

/-- C15: for every pair of input strings, `DetectMobileQuick` is true if and only if
`DetectTierTablet` is false and at least one of the following holds:
`DetectSmartphone`, the user agent contains "mobile", `DetectOperaMobile`,
`DetectKindle`, `DetectAmazonSilk`, `DetectWapWml`, `DetectMidpCapable`,
`DetectBrewDevice`, or the user agent contains "netfront" or "up.browser". Here
`DetectSmartphone` is true if and only if one of `DetectTierIphone`,
`DetectS60OssBrowser`, `DetectSymbianOS`, `DetectWindowsMobile`, `DetectBlackBerry`,
`DetectMeegoPhone`, `DetectPalmWebOS` is true. In particular `DetectMobileQuick` and
`DetectTierTablet` are never both true. -/
theorem C15_mobile_quick (user_agent accept : Str) :
    (uagent_info.uagent_info user_agent accept).DetectMobileQuick
      = (!(uagent_info.uagent_info user_agent accept).DetectTierTablet
        && ((uagent_info.uagent_info user_agent accept).DetectSmartphone
          || contains (transform_tolower user_agent) mobile
          || (uagent_info.uagent_info user_agent accept).DetectOperaMobile
          || (uagent_info.uagent_info user_agent accept).DetectKindle
          || (uagent_info.uagent_info user_agent accept).DetectAmazonSilk
          || (uagent_info.uagent_info user_agent accept).DetectWapWml
          || (uagent_info.uagent_info user_agent accept).DetectMidpCapable
          || (uagent_info.uagent_info user_agent accept).DetectBrewDevice
          || contains (transform_tolower user_agent) engineNetfront
          || contains (transform_tolower user_agent) engineUpBrowser))
    ∧ (uagent_info.uagent_info user_agent accept).DetectSmartphone
      = ((uagent_info.uagent_info user_agent accept).DetectTierIphone
        || (uagent_info.uagent_info user_agent accept).DetectS60OssBrowser
        || (uagent_info.uagent_info user_agent accept).DetectSymbianOS
        || (uagent_info.uagent_info user_agent accept).DetectWindowsMobile
        || (uagent_info.uagent_info user_agent accept).DetectBlackBerry
        || (uagent_info.uagent_info user_agent accept).DetectMeegoPhone
        || (uagent_info.uagent_info user_agent accept).DetectPalmWebOS)
    ∧ ((uagent_info.uagent_info user_agent accept).DetectMobileQuick
        && (uagent_info.uagent_info user_agent accept).DetectTierTablet) = false := by
  simp only [ctor_DetectMobileQuick, ctor_DetectTierTablet, ctor_DetectSmartphone,
    ctor_DetectOperaMobile, ctor_DetectKindle, ctor_DetectAmazonSilk, ctor_DetectWapWml,
    ctor_DetectMidpCapable, ctor_DetectBrewDevice, ctor_DetectTierIphone,
    ctor_DetectS60OssBrowser, ctor_DetectSymbianOS, ctor_DetectWindowsMobile,
    ctor_DetectBlackBerry, ctor_DetectMeegoPhone, ctor_DetectPalmWebOS]
  have e : Rule.DetectMobileQuick (lowered user_agent accept)
      = (!Rule.DetectTierTablet (lowered user_agent accept)
        && (Rule.DetectSmartphone (lowered user_agent accept)
          || contains (transform_tolower user_agent) mobile
          || Rule.DetectOperaMobile (lowered user_agent accept)
          || Rule.DetectKindle (lowered user_agent accept)
          || Rule.DetectAmazonSilk (lowered user_agent accept)
          || Rule.DetectWapWml (lowered user_agent accept)
          || Rule.DetectMidpCapable (lowered user_agent accept)
          || Rule.DetectBrewDevice (lowered user_agent accept)
          || contains (transform_tolower user_agent) engineNetfront
          || contains (transform_tolower user_agent) engineUpBrowser)) := by
    unfold Rule.DetectMobileQuick contains
    simp only [lowered]
    rw [Bool.eq_iff_iff]
    cases Rule.DetectTierTablet ⟨transform_tolower user_agent, transform_tolower accept⟩ <;>
    cases Rule.DetectSmartphone ⟨transform_tolower user_agent, transform_tolower accept⟩ <;>
    cases Rule.DetectOperaMobile ⟨transform_tolower user_agent, transform_tolower accept⟩ <;>
    cases Rule.DetectKindle ⟨transform_tolower user_agent, transform_tolower accept⟩ <;>
    cases Rule.DetectAmazonSilk ⟨transform_tolower user_agent, transform_tolower accept⟩ <;>
    simp [Bool.or_assoc]
  refine ⟨e, ?_, ?_⟩
  · simp [Rule.DetectSmartphone, Bool.or_assoc]
  · rw [e]
    cases Rule.DetectTierTablet (lowered user_agent accept) <;> simp

/-- C16: for every pair of input strings, `DetectTierRichCss` is true if and only if
`DetectMobileQuick` is true, `DetectTierIphone` is false, `DetectKindle` is false, and
at least one of `DetectWebkit`, `DetectS60OssBrowser`, `DetectBlackBerryHigh`,
`DetectWindowsMobile` is true or the user agent contains "teleca q". -/
theorem C16_tier_rich_css (user_agent accept : Str) :
    (uagent_info.uagent_info user_agent accept).DetectTierRichCss
      = ((uagent_info.uagent_info user_agent accept).DetectMobileQuick
        && !(uagent_info.uagent_info user_agent accept).DetectTierIphone
        && !(uagent_info.uagent_info user_agent accept).DetectKindle
        && ((uagent_info.uagent_info user_agent accept).DetectWebkit
          || (uagent_info.uagent_info user_agent accept).DetectS60OssBrowser
          || (uagent_info.uagent_info user_agent accept).DetectBlackBerryHigh
          || (uagent_info.uagent_info user_agent accept).DetectWindowsMobile
          || contains (transform_tolower user_agent) engineTelecaQ)) := by
  simp only [ctor_DetectTierRichCss, ctor_DetectMobileQuick, ctor_DetectTierIphone,
    ctor_DetectKindle, ctor_DetectWebkit, ctor_DetectS60OssBrowser,
    ctor_DetectBlackBerryHigh, ctor_DetectWindowsMobile]
  unfold Rule.DetectTierRichCss contains
  simp only [lowered]
  rw [Bool.eq_iff_iff]
  cases Rule.DetectMobileQuick ⟨transform_tolower user_agent, transform_tolower accept⟩ <;>
  cases Rule.DetectTierIphone ⟨transform_tolower user_agent, transform_tolower accept⟩ <;>
  cases Rule.DetectKindle ⟨transform_tolower user_agent, transform_tolower accept⟩ <;>
  cases Rule.DetectWebkit ⟨transform_tolower user_agent, transform_tolower accept⟩ <;>
  cases Rule.DetectS60OssBrowser ⟨transform_tolower user_agent, transform_tolower accept⟩ <;>
  cases Rule.DetectBlackBerryHigh ⟨transform_tolower user_agent, transform_tolower accept⟩ <;>
  simp [Bool.or_assoc]

/-- C17: for every pair of input strings, `DetectTierOtherPhones` is true if and only
if `DetectMobileLong` is true and both `DetectTierIphone` and `DetectTierRichCss` are
false. -/
theorem C17_tier_other_phones (user_agent accept : Str) :
    (uagent_info.uagent_info user_agent accept).DetectTierOtherPhones
      = ((uagent_info.uagent_info user_agent accept).DetectMobileLong
        && !(uagent_info.uagent_info user_agent accept).DetectTierIphone
        && !(uagent_info.uagent_info user_agent accept).DetectTierRichCss) := by
  simp only [ctor_DetectTierOtherPhones, ctor_DetectMobileLong, ctor_DetectTierIphone,
    ctor_DetectTierRichCss]
  unfold Rule.DetectTierOtherPhones
  cases Rule.DetectMobileLong (lowered user_agent accept) <;>
  cases Rule.DetectTierIphone (lowered user_agent accept) <;>
  cases Rule.DetectTierRichCss (lowered user_agent accept) <;>
  simp

/-- The PocketPC condition of `DetectWindowsMobile`, as the source writes it, holds
exactly when "ppc" occurs and the first occurrence of "macintosh" is at index 0 or 1.
When "macintosh" is absent `find` returns `npos`, which is greater than 1, and the
condition is false. -/
theorem pocketPC_condition (ua : Str) :
    ((find ua devicePpc != npos && !(decide (find ua deviceMacPpc > 1))) = true
      ↔ contains ua devicePpc = true ∧ find ua deviceMacPpc ≤ 1)
    ∧ (contains ua deviceMacPpc = false →
      (find ua devicePpc != npos && !(decide (find ua deviceMacPpc > 1))) = false) := by
  constructor
  · simp [contains]
  · intro h
    have e : find ua deviceMacPpc = npos := by simpa [contains] using h
    simp [e, npos]

/-- C18, the code at the failing input: the user agent
"Mozilla/4.0 (compatible; MSIE 4.01; PPC; 240x320)" contains "ppc", does not contain
"macintosh" and contains no Windows Phone token, and `DetectWindowsMobile` returns
false: `find` of the absent "macintosh" is `npos`, which is greater than 1, so the
PocketPC test does not fire. -/
theorem C18_pocketpc_without_macintosh_not_detected :
    contains (transform_tolower (bytes "Mozilla/4.0 (compatible; MSIE 4.01; PPC; 240x320)"))
      devicePpc = true
    ∧ contains (transform_tolower (bytes "Mozilla/4.0 (compatible; MSIE 4.01; PPC; 240x320)"))
      deviceMacPpc = false
    ∧ find (transform_tolower (bytes "Mozilla/4.0 (compatible; MSIE 4.01; PPC; 240x320)"))
      deviceMacPpc = npos
    ∧ (uagent_info.uagent_info (bytes "Mozilla/4.0 (compatible; MSIE 4.01; PPC; 240x320)")
      []).DetectWindowsPhone = false
    ∧ (uagent_info.uagent_info (bytes "Mozilla/4.0 (compatible; MSIE 4.01; PPC; 240x320)")
      []).DetectWindowsMobile = false := by
  decide

/-- C19: for every pair of input strings `DetectWindowsMobile` is false whenever
`DetectWindowsPhone` is true; and for every user agent whose lowercased form contains
none of "windows phone os 7", "windows phone 8", "windows phone 10" but contains
"windows ce", "iemobile" or "wm5 pie", `DetectWindowsMobile` is true and
`DetectWindowsPhone` is false. -/
theorem C19_windows_mobile_excludes_windows_phone (user_agent accept : Str) :
    ((uagent_info.uagent_info user_agent accept).DetectWindowsPhone = true →
      (uagent_info.uagent_info user_agent accept).DetectWindowsMobile = false)
    ∧ (contains (transform_tolower user_agent) deviceWinPhone7 = false →
      contains (transform_tolower user_agent) deviceWinPhone8 = false →
      contains (transform_tolower user_agent) deviceWinPhone10 = false →
      (contains (transform_tolower user_agent) deviceWinMob = true
        ∨ contains (transform_tolower user_agent) deviceIeMob = true
        ∨ contains (transform_tolower user_agent) enginePie = true) →
      (uagent_info.uagent_info user_agent accept).DetectWindowsMobile = true
      ∧ (uagent_info.uagent_info user_agent accept).DetectWindowsPhone = false) := by
  simp only [ctor_DetectWindowsPhone, ctor_DetectWindowsMobile]
  constructor
  · intro h
    simp [Rule.DetectWindowsMobile, h]
  · intro h7 h8 h10 hrule
    have e7 : find (lowered user_agent accept).useragent deviceWinPhone7 = npos := by
      simpa [contains, lowered] using h7
    have e8 : find (lowered user_agent accept).useragent deviceWinPhone8 = npos := by
      simpa [contains, lowered] using h8
    have e10 : find (lowered user_agent accept).useragent deviceWinPhone10 = npos := by
      simpa [contains, lowered] using h10
    have ewp : Rule.DetectWindowsPhone (lowered user_agent accept) = false := by
      simp [Rule.DetectWindowsPhone, Rule.DetectWindowsPhone7, Rule.DetectWindowsPhone8,
        Rule.DetectWindowsPhone10, e7, e8, e10]
    refine ⟨?_, ewp⟩
    have hr : (find (lowered user_agent accept).useragent deviceWinMob != npos
        || find (lowered user_agent accept).useragent deviceIeMob != npos
        || find (lowered user_agent accept).useragent enginePie != npos) = true := by
      simp only [contains, lowered] at hrule ⊢
      rcases hrule with h | h | h <;> simp [h]
    unfold Rule.DetectWindowsMobile
    rw [ewp, if_neg (by decide), if_pos hr]

/-- Witness of C19: a Windows Phone 8 user agent, which carries "iemobile" and is not
Windows Mobile; and scenario 5 of the specification. -/
theorem C19_windows_mobile_excludes_windows_phone_witness :
    ((uagent_info.uagent_info
        (bytes "Mozilla/5.0 (compatible; MSIE 10.0; Windows Phone 8.0; IEMobile/10.0)")
        []).DetectWindowsPhone = true
      ∧ (uagent_info.uagent_info
        (bytes "Mozilla/5.0 (compatible; MSIE 10.0; Windows Phone 8.0; IEMobile/10.0)")
        []).DetectWindowsMobile = false)
    ∧ (contains (transform_tolower scenario5) deviceWinMob = true
      ∧ (uagent_info.uagent_info scenario5 scenario5_accept).DetectWindowsMobile = true
      ∧ (uagent_info.uagent_info scenario5 scenario5_accept).DetectWindowsPhone = false) :=
  ⟨⟨by decide,
      (C19_windows_mobile_excludes_windows_phone
        (bytes "Mozilla/5.0 (compatible; MSIE 10.0; Windows Phone 8.0; IEMobile/10.0)")
        []).1 (by decide)⟩,
    ⟨by decide,
      (C19_windows_mobile_excludes_windows_phone scenario5 scenario5_accept).2
        (by decide) (by decide) (by decide) (Or.inl (by decide))⟩⟩

/-- C20 as stated fails: the user agent of a BlackBerry 10 phone contains "bb10" and
"mobile" but not "blackberry", its Accept string does not contain "vnd.rim", and
`DetectBlackBerry` is true. -/
theorem C20_counterexample :
    contains (transform_tolower
      (bytes "Mozilla/5.0 (BB10; Touch) AppleWebKit/537.10+ Version/10.0 Mobile Safari/537.10+"))
      deviceBB = false
    ∧ contains (transform_tolower (bytes "text/html")) vndRIM = false
    ∧ (uagent_info.uagent_info
      (bytes "Mozilla/5.0 (BB10; Touch) AppleWebKit/537.10+ Version/10.0 Mobile Safari/537.10+")
      (bytes "text/html")).DetectBlackBerry = true := by
  decide

/-- C20, amended: for every pair of input strings, `DetectBlackBerry` is true if and
only if the lowercased user agent contains "blackberry", or the lowercased Accept
string contains "vnd.rim", or `DetectBlackBerry10Phone` is true, that is the
lowercased user agent contains both "bb10" and "mobile". -/
theorem C20_blackberry_rule (user_agent accept : Str) :
    (uagent_info.uagent_info user_agent accept).DetectBlackBerry
      = (contains (transform_tolower user_agent) deviceBB
        || contains (transform_tolower accept) vndRIM
        || (uagent_info.uagent_info user_agent accept).DetectBlackBerry10Phone)
    ∧ (uagent_info.uagent_info user_agent accept).DetectBlackBerry10Phone
      = (contains (transform_tolower user_agent) deviceBB10
        && contains (transform_tolower user_agent) mobile) := by
  simp only [ctor_DetectBlackBerry, ctor_DetectBlackBerry10Phone]
  constructor
  · rw [Bool.eq_iff_iff]
    simp only [lowered]
    cases h : Rule.DetectBlackBerry10Phone
        ⟨transform_tolower user_agent, transform_tolower accept⟩ <;>
      simp [Rule.DetectBlackBerry, contains, h]
  · unfold Rule.DetectBlackBerry10Phone contains
    simp only [lowered]
    rw [Bool.eq_iff_iff]
    simp

/-- C21: for every pair of input strings, `DetectIphone` is true if and only if the
lowercased user agent contains "iphone" and both `DetectIpad` and `DetectIpod` are
false; hence `DetectIphone` is never true together with `DetectIpad` or with
`DetectIpod`. -/
theorem C21_iphone_disambiguation (user_agent accept : Str) :
    (uagent_info.uagent_info user_agent accept).DetectIphone
      = (contains (transform_tolower user_agent) deviceIphone
        && !(uagent_info.uagent_info user_agent accept).DetectIpad
        && !(uagent_info.uagent_info user_agent accept).DetectIpod)
    ∧ ((uagent_info.uagent_info user_agent accept).DetectIphone
        && (uagent_info.uagent_info user_agent accept).DetectIpad) = false
    ∧ ((uagent_info.uagent_info user_agent accept).DetectIphone
        && (uagent_info.uagent_info user_agent accept).DetectIpod) = false := by
  simp only [ctor_DetectIphone, ctor_DetectIpad, ctor_DetectIpod]
  have e : Rule.DetectIphone (lowered user_agent accept)
      = (contains (transform_tolower user_agent) deviceIphone
        && !Rule.DetectIpad (lowered user_agent accept)
        && !Rule.DetectIpod (lowered user_agent accept)) := by
    rw [Bool.eq_iff_iff]
    simp only [lowered]
    cases h1 : Rule.DetectIpad ⟨transform_tolower user_agent, transform_tolower accept⟩ <;>
    cases h2 : Rule.DetectIpod ⟨transform_tolower user_agent, transform_tolower accept⟩ <;>
    simp [Rule.DetectIphone, contains, h1, h2]
  refine ⟨e, ?_, ?_⟩
  · rw [e]
    cases Rule.DetectIpad (lowered user_agent accept) <;> simp
  · rw [e]
    cases Rule.DetectIpod (lowered user_agent accept) <;> simp

/-- Scenarios 1 and 2 under C21: the iPhone user agent gives `DetectIphone` true, the
iPad user agent gives `DetectIphone` false (and `DetectIpad` true). -/
theorem C21_iphone_disambiguation_witness :
    (uagent_info.uagent_info scenario1 []).DetectIphone = true
    ∧ (uagent_info.uagent_info scenario2 []).DetectIphone = false
    ∧ (uagent_info.uagent_info scenario2 []).DetectIpad = true :=
  ⟨(C21_iphone_disambiguation scenario1 []).1.trans (by decide),
    (C21_iphone_disambiguation scenario2 []).1.trans (by decide), by decide⟩

/-- C22: for every pair of input strings on which `DetectIos`, `DetectAndroid` or
`DetectSailfish` is true, `DetectFirefoxOSPhone`, `DetectFirefoxOSTablet` and
`DetectFirefoxOS` are all false. -/
theorem C22_firefox_os_exclusion (user_agent accept : Str)
    (h : (uagent_info.uagent_info user_agent accept).DetectIos = true
      ∨ (uagent_info.uagent_info user_agent accept).DetectAndroid = true
      ∨ (uagent_info.uagent_info user_agent accept).DetectSailfish = true) :
    (uagent_info.uagent_info user_agent accept).DetectFirefoxOSPhone = false
    ∧ (uagent_info.uagent_info user_agent accept).DetectFirefoxOSTablet = false
    ∧ (uagent_info.uagent_info user_agent accept).DetectFirefoxOS = false := by
  simp only [ctor_DetectIos, ctor_DetectAndroid, ctor_DetectSailfish,
    ctor_DetectFirefoxOSPhone, ctor_DetectFirefoxOSTablet, ctor_DetectFirefoxOS] at h ⊢
  have e1 : Rule.DetectFirefoxOSPhone (lowered user_agent accept) = false := by
    unfold Rule.DetectFirefoxOSPhone
    rw [if_pos (by simpa [or_assoc] using h)]
  have e2 : Rule.DetectFirefoxOSTablet (lowered user_agent accept) = false := by
    unfold Rule.DetectFirefoxOSTablet
    rw [if_pos (by simpa [or_assoc] using h)]
  refine ⟨e1, e2, ?_⟩
  simp [Rule.DetectFirefoxOS, e1, e2]

/-- Witness of C22: Firefox for Android carries "firefox" and "mobile" and is not
Firefox OS. -/
theorem C22_firefox_os_exclusion_witness :
    (uagent_info.uagent_info
      (bytes "Mozilla/5.0 (Android; Mobile; rv:26.0) Gecko/26.0 Firefox/26.0")
      []).DetectAndroid = true
    ∧ (uagent_info.uagent_info
      (bytes "Mozilla/5.0 (Android; Mobile; rv:26.0) Gecko/26.0 Firefox/26.0")
      []).DetectFirefoxOSPhone = false
    ∧ (uagent_info.uagent_info
      (bytes "Mozilla/5.0 (Android; Mobile; rv:26.0) Gecko/26.0 Firefox/26.0")
      []).DetectFirefoxOSTablet = false
    ∧ (uagent_info.uagent_info
      (bytes "Mozilla/5.0 (Android; Mobile; rv:26.0) Gecko/26.0 Firefox/26.0")
      []).DetectFirefoxOS = false :=
  ⟨by decide,
    C22_firefox_os_exclusion
      (bytes "Mozilla/5.0 (Android; Mobile; rv:26.0) Gecko/26.0 Firefox/26.0") []
      (Or.inr (Or.inl (by decide)))⟩

/-- C23 as stated fails: the user agent of an Ubuntu phone names Android
("Ubuntu 14.04 like Android 4.4"), so `DetectAndroid` is true, and
`DetectUbuntuPhone` is true; for "android sailfish mobile" `DetectAndroid` and
`DetectSailfishPhone` are true, and for "android ubuntu tablet" `DetectAndroid` and
`DetectUbuntuTablet` are true. -/
theorem C23_counterexample :
    ((uagent_info.uagent_info
        (bytes "Mozilla/5.0 (Linux; Ubuntu 14.04 like Android 4.4) AppleWebKit/537.36 Mobile")
        []).DetectAndroid = true
      ∧ (uagent_info.uagent_info
        (bytes "Mozilla/5.0 (Linux; Ubuntu 14.04 like Android 4.4) AppleWebKit/537.36 Mobile")
        []).DetectUbuntuPhone = true)
    ∧ ((uagent_info.uagent_info (bytes "android sailfish mobile") []).DetectAndroid = true
      ∧ (uagent_info.uagent_info (bytes "android sailfish mobile") []).DetectSailfishPhone
          = true)
    ∧ ((uagent_info.uagent_info (bytes "android ubuntu tablet") []).DetectAndroid = true
      ∧ (uagent_info.uagent_info (bytes "android ubuntu tablet") []).DetectUbuntuTablet
          = true) := by
  decide

/-- C23, amended: the Sailfish and Ubuntu rules exclude nothing. For every pair of
input strings, whether or not `DetectIos` or `DetectAndroid` is true,
`DetectSailfishPhone` is true if and only if the lowercased user agent contains
"sailfish" and "mobile", `DetectUbuntuPhone` if and only if it contains "ubuntu" and
"mobile", and `DetectUbuntuTablet` if and only if it contains "ubuntu" and
"tablet". -/
theorem C23_sailfish_ubuntu_rules (user_agent accept : Str) :
    (uagent_info.uagent_info user_agent accept).DetectSailfishPhone
      = (contains (transform_tolower user_agent) deviceSailfish
        && contains (transform_tolower user_agent) mobile)
    ∧ (uagent_info.uagent_info user_agent accept).DetectUbuntuPhone
      = (contains (transform_tolower user_agent) deviceUbuntu
        && contains (transform_tolower user_agent) mobile)
    ∧ (uagent_info.uagent_info user_agent accept).DetectUbuntuTablet
      = (contains (transform_tolower user_agent) deviceUbuntu
        && contains (transform_tolower user_agent) deviceTablet) := by
  simp only [ctor_DetectSailfishPhone, ctor_DetectUbuntuPhone, ctor_DetectUbuntuTablet]
  refine ⟨?_, ?_, ?_⟩
  · rw [Bool.eq_iff_iff]
    simp [Rule.DetectSailfishPhone, Rule.DetectSailfish, contains, lowered]
  · rw [Bool.eq_iff_iff]
    simp [Rule.DetectUbuntuPhone, contains, lowered]
  · rw [Bool.eq_iff_iff]
    simp [Rule.DetectUbuntuTablet, contains, lowered]

theorem tolower_tolower (c : Nat) : tolower (tolower c) = tolower c := by
  unfold tolower
  by_cases h : 65 ≤ c ∧ c ≤ 90
  · rw [if_pos h, if_neg (by omega)]
  · rw [if_neg h, if_neg h]

theorem transform_tolower_idem (s : Str) :
    transform_tolower (transform_tolower s) = transform_tolower s := by
  unfold transform_tolower
  rw [List.map_map]
  exact List.map_congr_left (fun c _ => tolower_tolower c)

theorem ctor_Get_Uagent (user_agent accept : Str) :
    (uagent_info.uagent_info user_agent accept).Get_Uagent = transform_tolower user_agent :=
  congrArg Headers.useragent (ctor_headers user_agent accept)

theorem ctor_Get_HttpAccept (user_agent accept : Str) :
    (uagent_info.uagent_info user_agent accept).Get_HttpAccept = transform_tolower accept :=
  congrArg Headers.httpaccept (ctor_headers user_agent accept)

/-- An object constructed from strings that are already lowercased is the object
constructed from the original strings. -/
theorem ctor_of_lowered (user_agent accept : Str) :
    uagent_info.uagent_info (transform_tolower user_agent) (transform_tolower accept)
      = uagent_info.uagent_info user_agent accept := by
  unfold uagent_info.uagent_info uagent_info.initial
  rw [transform_tolower_idem, transform_tolower_idem]

/-- C24: for every pair of input strings, `Get_Uagent` and `Get_HttpAccept` return
the ASCII-lowercased form of the corresponding constructor argument (same length,
every byte from `A` to `Z`, 65 to 90, replaced by its lowercase, 32 more, every other
byte unchanged); and the object constructed from the two accessor results is the same
object, so it has the same accessor results and the same value for every public
query. -/
theorem C24_accessors (user_agent accept : Str) (q : Query) :
    (uagent_info.uagent_info user_agent accept).Get_Uagent
      = user_agent.map (fun c => if 65 ≤ c ∧ c ≤ 90 then c + 32 else c)
    ∧ (uagent_info.uagent_info user_agent accept).Get_HttpAccept
      = accept.map (fun c => if 65 ≤ c ∧ c ≤ 90 then c + 32 else c)
    ∧ (uagent_info.uagent_info user_agent accept).Get_Uagent.length = user_agent.length
    ∧ (uagent_info.uagent_info user_agent accept).Get_HttpAccept.length = accept.length
    ∧ (uagent_info.uagent_info
        (uagent_info.uagent_info user_agent accept).Get_Uagent
        (uagent_info.uagent_info user_agent accept).Get_HttpAccept).Get_Uagent
      = (uagent_info.uagent_info user_agent accept).Get_Uagent
    ∧ (uagent_info.uagent_info
        (uagent_info.uagent_info user_agent accept).Get_Uagent
        (uagent_info.uagent_info user_agent accept).Get_HttpAccept).Get_HttpAccept
      = (uagent_info.uagent_info user_agent accept).Get_HttpAccept
    ∧ q.run (uagent_info.uagent_info
        (uagent_info.uagent_info user_agent accept).Get_Uagent
        (uagent_info.uagent_info user_agent accept).Get_HttpAccept)
      = q.run (uagent_info.uagent_info user_agent accept) := by
  rw [ctor_Get_Uagent, ctor_Get_HttpAccept, ctor_of_lowered, ctor_Get_Uagent,
    ctor_Get_HttpAccept]
  refine ⟨rfl, rfl, ?_, ?_, rfl, rfl, rfl⟩
  · simp [transform_tolower]
  · simp [transform_tolower]

/-- C25: for every constructed object and every public query (each `Detect*` method
and both accessors), the object that the call leaves, that is both strings,
`initCompleted` and the nine cache members, is the object the call ran on; and after
construction `initCompleted` is true. -/
theorem C25_queries_have_no_side_effects (user_agent accept : Str) (q : Query) :
    ((Call.query q).run (Call.uagent_info user_agent accept)).2
      = Call.uagent_info user_agent accept
    ∧ (Call.Get_Uagent.run (Call.uagent_info user_agent accept)).2
      = Call.uagent_info user_agent accept
    ∧ (Call.Get_HttpAccept.run (Call.uagent_info user_agent accept)).2
      = Call.uagent_info user_agent accept
    ∧ (Call.uagent_info user_agent accept).initCompleted = true := by
  rw [run_query, run_Get_Uagent, run_Get_HttpAccept, Call_uagent_info_eq]
  exact ⟨rfl, rfl, rfl, ctor_initCompleted user_agent accept⟩

/-- C26: for every pair of input strings, `DetectAndroid` is true if and only if
exactly one of `DetectAndroidPhone` and `DetectAndroidTablet` is true (the two are
never both true, and both are false when `DetectAndroid` is false); and
`DetectAndroidPhone` is true if and only if `DetectAndroid` is true and the user agent
contains "mobile" or `DetectOperaMobile` is true. -/
theorem C26_android_partition (user_agent accept : Str) :
    (uagent_info.uagent_info user_agent accept).DetectAndroid
      = ((uagent_info.uagent_info user_agent accept).DetectAndroidPhone
        != (uagent_info.uagent_info user_agent accept).DetectAndroidTablet)
    ∧ ((uagent_info.uagent_info user_agent accept).DetectAndroidPhone
        && (uagent_info.uagent_info user_agent accept).DetectAndroidTablet) = false
    ∧ (!(uagent_info.uagent_info user_agent accept).DetectAndroid
        && ((uagent_info.uagent_info user_agent accept).DetectAndroidPhone
          || (uagent_info.uagent_info user_agent accept).DetectAndroidTablet)) = false
    ∧ (uagent_info.uagent_info user_agent accept).DetectAndroidPhone
      = ((uagent_info.uagent_info user_agent accept).DetectAndroid
        && (contains (transform_tolower user_agent) mobile
          || (uagent_info.uagent_info user_agent accept).DetectOperaMobile)) := by
  simp only [ctor_DetectAndroid, ctor_DetectAndroidPhone, ctor_DetectAndroidTablet,
    ctor_DetectOperaMobile]
  have hm : contains (transform_tolower user_agent) mobile
      = (find (lowered user_agent accept).useragent mobile != npos) := rfl
  rw [hm]
  unfold Rule.DetectAndroidPhone Rule.DetectAndroidTablet
  cases Rule.DetectAndroid (lowered user_agent accept) <;>
  cases Rule.DetectOperaMobile (lowered user_agent accept) <;>
  cases (find (lowered user_agent accept).useragent mobile != npos) <;>
  decide

/-- C27: for every pair of input strings, `DetectBlackBerryHigh` and
`DetectBlackBerryWebKit` are never both true, and `DetectBlackBerry` is true if and
only if exactly one of `DetectBlackBerryWebKit`, `DetectBlackBerryHigh`,
`DetectBlackBerryLow` is true; all three are false when `DetectBlackBerry` is
false. -/
theorem C27_blackberry_partition (user_agent accept : Str) :
    ((uagent_info.uagent_info user_agent accept).DetectBlackBerryHigh
        && (uagent_info.uagent_info user_agent accept).DetectBlackBerryWebKit) = false
    ∧ (uagent_info.uagent_info user_agent accept).DetectBlackBerry
      = (((uagent_info.uagent_info user_agent accept).DetectBlackBerryWebKit
          && !(uagent_info.uagent_info user_agent accept).DetectBlackBerryHigh
          && !(uagent_info.uagent_info user_agent accept).DetectBlackBerryLow)
        || (!(uagent_info.uagent_info user_agent accept).DetectBlackBerryWebKit
          && (uagent_info.uagent_info user_agent accept).DetectBlackBerryHigh
          && !(uagent_info.uagent_info user_agent accept).DetectBlackBerryLow)
        || (!(uagent_info.uagent_info user_agent accept).DetectBlackBerryWebKit
          && !(uagent_info.uagent_info user_agent accept).DetectBlackBerryHigh
          && (uagent_info.uagent_info user_agent accept).DetectBlackBerryLow))
    ∧ (!(uagent_info.uagent_info user_agent accept).DetectBlackBerry
        && ((uagent_info.uagent_info user_agent accept).DetectBlackBerryWebKit
          || (uagent_info.uagent_info user_agent accept).DetectBlackBerryHigh
          || (uagent_info.uagent_info user_agent accept).DetectBlackBerryLow)) = false := by
  simp only [ctor_DetectBlackBerry, ctor_DetectBlackBerryWebKit, ctor_DetectBlackBerryHigh,
    ctor_DetectBlackBerryLow]
  have eW : Rule.DetectBlackBerryWebKit (lowered user_agent accept)
      = (Rule.DetectBlackBerry (lowered user_agent accept)
        && Rule.DetectWebkit (lowered user_agent accept)) := by
    unfold Rule.DetectBlackBerryWebKit
    cases Rule.DetectBlackBerry (lowered user_agent accept) <;>
    cases Rule.DetectWebkit (lowered user_agent accept) <;> decide
  have eL : Rule.DetectBlackBerryLow (lowered user_agent accept)
      = (Rule.DetectBlackBerry (lowered user_agent accept)
        && !Rule.DetectBlackBerryHigh (lowered user_agent accept)
        && !Rule.DetectBlackBerryWebKit (lowered user_agent accept)) := by
    unfold Rule.DetectBlackBerryLow
    cases Rule.DetectBlackBerry (lowered user_agent accept) <;>
    cases Rule.DetectBlackBerryHigh (lowered user_agent accept) <;>
    cases Rule.DetectBlackBerryWebKit (lowered user_agent accept) <;> decide
  have eH : (Rule.DetectBlackBerryHigh (lowered user_agent accept)
        && !(Rule.DetectBlackBerry (lowered user_agent accept)
          && !Rule.DetectBlackBerryWebKit (lowered user_agent accept))) = false := by
    unfold Rule.DetectBlackBerryHigh
    cases Rule.DetectBlackBerryWebKit (lowered user_agent accept) <;>
    cases Rule.DetectBlackBerry (lowered user_agent accept) <;> simp
  rw [eL]
  revert eH
  rw [eW]
  cases Rule.DetectBlackBerry (lowered user_agent accept) <;>
  cases Rule.DetectWebkit (lowered user_agent accept) <;>
  cases Rule.DetectBlackBerryHigh (lowered user_agent accept) <;>
  decide

/-- C28: for every pair of input strings, `DetectMobileLong` is true if and only if
`DetectMobileQuick`, `DetectGameConsole`, `DetectDangerHiptop`, `DetectMaemoTablet`,
`DetectSonyMylo` or `DetectArchos` is true, or the user agent contains "pda" and does
not contain "update", or the user agent contains one of "up.link", "openweb",
"sec-sgh", "sonyericsson", "ericsson", "docomo", "kddi", "vodafone". In particular
`DetectMobileQuick` implies `DetectMobileLong`; the user agent "pda" is detected and
the user agent "pda update" is not. -/
theorem C28_mobile_long (user_agent accept : Str) :
    (uagent_info.uagent_info user_agent accept).DetectMobileLong
      = ((uagent_info.uagent_info user_agent accept).DetectMobileQuick
        || (uagent_info.uagent_info user_agent accept).DetectGameConsole
        || (uagent_info.uagent_info user_agent accept).DetectDangerHiptop
        || (uagent_info.uagent_info user_agent accept).DetectMaemoTablet
        || (uagent_info.uagent_info user_agent accept).DetectSonyMylo
        || (uagent_info.uagent_info user_agent accept).DetectArchos
        || (contains (transform_tolower user_agent) devicePda
          && !contains (transform_tolower user_agent) disUpdate)
        || contains (transform_tolower user_agent) uplink
        || contains (transform_tolower user_agent) engineOpenWeb
        || contains (transform_tolower user_agent) manuSamsung1
        || contains (transform_tolower user_agent) manuSonyEricsson
        || contains (transform_tolower user_agent) manuericsson
        || contains (transform_tolower user_agent) svcDocomo
        || contains (transform_tolower user_agent) svcKddi
        || contains (transform_tolower user_agent) svcVodafone)
    ∧ ((uagent_info.uagent_info user_agent accept).DetectMobileQuick
        && !(uagent_info.uagent_info user_agent accept).DetectMobileLong) = false
    ∧ (uagent_info.uagent_info (bytes "pda") []).DetectMobileLong = true
    ∧ (uagent_info.uagent_info (bytes "pda update") []).DetectMobileLong = false := by
  simp only [ctor_DetectMobileLong, ctor_DetectMobileQuick, ctor_DetectGameConsole,
    ctor_DetectDangerHiptop, ctor_DetectMaemoTablet, ctor_DetectSonyMylo, ctor_DetectArchos]
  have e : Rule.DetectMobileLong (lowered user_agent accept)
      = (Rule.DetectMobileQuick (lowered user_agent accept)
        || Rule.DetectGameConsole (lowered user_agent accept)
        || Rule.DetectDangerHiptop (lowered user_agent accept)
        || Rule.DetectMaemoTablet (lowered user_agent accept)
        || Rule.DetectSonyMylo (lowered user_agent accept)
        || Rule.DetectArchos (lowered user_agent accept)
        || (contains (transform_tolower user_agent) devicePda
          && !contains (transform_tolower user_agent) disUpdate)
        || contains (transform_tolower user_agent) uplink
        || contains (transform_tolower user_agent) engineOpenWeb
        || contains (transform_tolower user_agent) manuSamsung1
        || contains (transform_tolower user_agent) manuSonyEricsson
        || contains (transform_tolower user_agent) manuericsson
        || contains (transform_tolower user_agent) svcDocomo
        || contains (transform_tolower user_agent) svcKddi
        || contains (transform_tolower user_agent) svcVodafone) := by
    rw [Bool.eq_iff_iff]
    simp only [lowered]
    cases h1 : Rule.DetectMobileQuick
        ⟨transform_tolower user_agent, transform_tolower accept⟩ <;>
    cases h2 : Rule.DetectGameConsole
        ⟨transform_tolower user_agent, transform_tolower accept⟩ <;>
    cases h3 : Rule.DetectDangerHiptop
        ⟨transform_tolower user_agent, transform_tolower accept⟩ <;>
    cases h4 : Rule.DetectMaemoTablet
        ⟨transform_tolower user_agent, transform_tolower accept⟩ <;>
    cases h5 : Rule.DetectSonyMylo
        ⟨transform_tolower user_agent, transform_tolower accept⟩ <;>
    cases h6 : Rule.DetectArchos
        ⟨transform_tolower user_agent, transform_tolower accept⟩ <;>
    simp [Rule.DetectMobileLong, contains, h1, h2, h3, h4, h5, h6, or_assoc]
  refine ⟨e, ?_, by decide, by decide⟩
  rw [e]
  cases Rule.DetectMobileQuick (lowered user_agent accept) <;> simp

/-- C29: for every pair of input strings, `DetectIos` equals `DetectIphoneOrIpod` or
`DetectIpad`, and it is true if and only if the lowercased user agent contains
"iphone", or contains "ipod", or contains both "ipad" and "webkit". -/
theorem C29_ios_family (user_agent accept : Str) :
    (uagent_info.uagent_info user_agent accept).DetectIos
      = ((uagent_info.uagent_info user_agent accept).DetectIphoneOrIpod
        || (uagent_info.uagent_info user_agent accept).DetectIpad)
    ∧ (uagent_info.uagent_info user_agent accept).DetectIos
      = (contains (transform_tolower user_agent) deviceIphone
        || contains (transform_tolower user_agent) deviceIpod
        || (contains (transform_tolower user_agent) deviceIpad
          && contains (transform_tolower user_agent) engineWebKit)) := by
  simp only [ctor_DetectIos, ctor_DetectIphoneOrIpod, ctor_DetectIpad]
  constructor
  · unfold Rule.DetectIos
    cases Rule.DetectIphoneOrIpod (lowered user_agent accept) <;>
    cases Rule.DetectIpad (lowered user_agent accept) <;> decide
  · rw [Bool.eq_iff_iff]
    simp only [Rule.DetectIos, Rule.DetectIphoneOrIpod, Rule.DetectIphone, Rule.DetectIpad,
      Rule.DetectIpod, Rule.DetectWebkit, contains, lowered]
    by_cases h1 : find (transform_tolower user_agent) deviceIphone = npos <;>
    by_cases h2 : find (transform_tolower user_agent) deviceIpod = npos <;>
    by_cases h3 : find (transform_tolower user_agent) deviceIpad = npos <;>
    by_cases h4 : find (transform_tolower user_agent) engineWebKit = npos <;>
    simp [h1, h2, h3, h4]

/-- C30: for every pair of input strings on which `DetectMobileLong` is true, exactly
one of `DetectTierIphone`, `DetectTierRichCss`, `DetectTierOtherPhones` is true. -/
theorem C30_tier_coverage (user_agent accept : Str)
    (h : (uagent_info.uagent_info user_agent accept).DetectMobileLong = true) :
    (((uagent_info.uagent_info user_agent accept).DetectTierIphone
        && !(uagent_info.uagent_info user_agent accept).DetectTierRichCss
        && !(uagent_info.uagent_info user_agent accept).DetectTierOtherPhones)
      || (!(uagent_info.uagent_info user_agent accept).DetectTierIphone
        && (uagent_info.uagent_info user_agent accept).DetectTierRichCss
        && !(uagent_info.uagent_info user_agent accept).DetectTierOtherPhones)
      || (!(uagent_info.uagent_info user_agent accept).DetectTierIphone
        && !(uagent_info.uagent_info user_agent accept).DetectTierRichCss
        && (uagent_info.uagent_info user_agent accept).DetectTierOtherPhones)) = true := by
  simp only [ctor_DetectMobileLong, ctor_DetectTierIphone, ctor_DetectTierRichCss,
    ctor_DetectTierOtherPhones] at h ⊢
  have eR : (Rule.DetectTierRichCss (lowered user_agent accept)
      && Rule.DetectTierIphone (lowered user_agent accept)) = false := by
    unfold Rule.DetectTierRichCss
    cases Rule.DetectTierIphone (lowered user_agent accept) <;> simp
  have eO : Rule.DetectTierOtherPhones (lowered user_agent accept)
      = (!Rule.DetectTierIphone (lowered user_agent accept)
        && !Rule.DetectTierRichCss (lowered user_agent accept)) := by
    unfold Rule.DetectTierOtherPhones
    rw [h]
    cases Rule.DetectTierIphone (lowered user_agent accept) <;>
    cases Rule.DetectTierRichCss (lowered user_agent accept) <;> decide
  rw [eO]
  revert eR
  cases Rule.DetectTierIphone (lowered user_agent accept) <;>
  cases Rule.DetectTierRichCss (lowered user_agent accept) <;> decide

/-- Witness of C30: scenario 3 (iPhone tier), "webkit mobile" (rich CSS tier) and
"vodafone" (generic tier) are mobile, each in exactly one tier. -/
theorem C30_tier_coverage_witness :
    ((uagent_info.uagent_info scenario3 []).DetectMobileLong = true
      ∧ (uagent_info.uagent_info scenario3 []).DetectTierIphone = true)
    ∧ ((uagent_info.uagent_info (bytes "webkit mobile") []).DetectMobileLong = true
      ∧ (uagent_info.uagent_info (bytes "webkit mobile") []).DetectTierRichCss = true)
    ∧ ((uagent_info.uagent_info (bytes "vodafone") []).DetectMobileLong = true
      ∧ (uagent_info.uagent_info (bytes "vodafone") []).DetectTierOtherPhones = true)
    ∧ (((uagent_info.uagent_info scenario3 []).DetectTierIphone
          && !(uagent_info.uagent_info scenario3 []).DetectTierRichCss
          && !(uagent_info.uagent_info scenario3 []).DetectTierOtherPhones)
        || (!(uagent_info.uagent_info scenario3 []).DetectTierIphone
          && (uagent_info.uagent_info scenario3 []).DetectTierRichCss
          && !(uagent_info.uagent_info scenario3 []).DetectTierOtherPhones)
        || (!(uagent_info.uagent_info scenario3 []).DetectTierIphone
          && !(uagent_info.uagent_info scenario3 []).DetectTierRichCss
          && (uagent_info.uagent_info scenario3 []).DetectTierOtherPhones)) = true :=
  ⟨⟨by decide, by decide⟩, ⟨by decide, by decide⟩, ⟨by decide, by decide⟩,
    C30_tier_coverage scenario3 [] (by decide)⟩

/-- C31: for every pair of input strings, if `DetectTierTablet` is true then
`DetectMobileQuick` and `DetectTierRichCss` are false; yet the tablet tier does not
exclude the generic tier: for the user agent "ipad webkit vodafone" with an empty
Accept string `DetectTierTablet` and `DetectTierOtherPhones` are both true. -/
theorem C31_tablet_tier_and_generic_tier (user_agent accept : Str) :
    ((uagent_info.uagent_info user_agent accept).DetectTierTablet = true →
      (uagent_info.uagent_info user_agent accept).DetectMobileQuick = false
      ∧ (uagent_info.uagent_info user_agent accept).DetectTierRichCss = false)
    ∧ ((uagent_info.uagent_info (bytes "ipad webkit vodafone") (bytes "")).DetectTierTablet
        = true
      ∧ (uagent_info.uagent_info (bytes "ipad webkit vodafone")
          (bytes "")).DetectTierOtherPhones = true) := by
  refine ⟨?_, by decide, by decide⟩
  simp only [ctor_DetectTierTablet, ctor_DetectMobileQuick, ctor_DetectTierRichCss]
  intro h
  have e : Rule.DetectMobileQuick (lowered user_agent accept) = false := by
    unfold Rule.DetectMobileQuick
    rw [h]
    rfl
  refine ⟨e, ?_⟩
  unfold Rule.DetectTierRichCss
  rw [e]
  rfl

/-- Witness of C31: the user agent "ipad webkit vodafone" is in the tablet tier, so
it is neither mobile-quick nor in the rich CSS tier. -/
theorem C31_tablet_tier_and_generic_tier_witness :
    (uagent_info.uagent_info (bytes "ipad webkit vodafone") (bytes "")).DetectTierTablet
      = true
    ∧ (uagent_info.uagent_info (bytes "ipad webkit vodafone") (bytes "")).DetectMobileQuick
      = false
    ∧ (uagent_info.uagent_info (bytes "ipad webkit vodafone") (bytes "")).DetectTierRichCss
      = false :=
  ⟨by decide,
    (C31_tablet_tier_and_generic_tier (bytes "ipad webkit vodafone") (bytes "")).1
      (by decide)⟩

/-- C32: for every pair of input strings on which `DetectTierIphone` is true and
`DetectTierTablet` is false, `DetectSmartphone`, `DetectMobileQuick` and
`DetectMobileLong` are all true; and when `DetectTierTablet` is true
`DetectMobileQuick` is false, even if `DetectTierIphone` is true, as it is for the
user agent "ipad webkit ipod". -/
theorem C32_iphone_tier_is_mobile (user_agent accept : Str) :
    ((uagent_info.uagent_info user_agent accept).DetectTierIphone = true →
      (uagent_info.uagent_info user_agent accept).DetectTierTablet = false →
      (uagent_info.uagent_info user_agent accept).DetectSmartphone = true
      ∧ (uagent_info.uagent_info user_agent accept).DetectMobileQuick = true
      ∧ (uagent_info.uagent_info user_agent accept).DetectMobileLong = true)
    ∧ ((uagent_info.uagent_info user_agent accept).DetectTierTablet = true →
      (uagent_info.uagent_info user_agent accept).DetectMobileQuick = false)
    ∧ ((uagent_info.uagent_info (bytes "ipad webkit ipod") (bytes "")).DetectTierTablet = true
      ∧ (uagent_info.uagent_info (bytes "ipad webkit ipod") (bytes "")).DetectTierIphone
        = true
      ∧ (uagent_info.uagent_info (bytes "ipad webkit ipod") (bytes "")).DetectMobileQuick
        = false) := by
  refine ⟨?_, ?_, by decide, by decide, by decide⟩
  · simp only [ctor_DetectTierIphone, ctor_DetectTierTablet, ctor_DetectSmartphone,
      ctor_DetectMobileQuick, ctor_DetectMobileLong]
    intro hi ht
    have e1 : Rule.DetectSmartphone (lowered user_agent accept) = true := by
      simp [Rule.DetectSmartphone, hi]
    have e2 : Rule.DetectMobileQuick (lowered user_agent accept) = true := by
      unfold Rule.DetectMobileQuick
      rw [ht, e1]
      rfl
    refine ⟨e1, e2, ?_⟩
    unfold Rule.DetectMobileLong
    rw [e2]
    rfl
  · simp only [ctor_DetectTierTablet, ctor_DetectMobileQuick]
    intro h
    unfold Rule.DetectMobileQuick
    rw [h]
    rfl

/-- Witness of C32: scenario 3 (an Android phone) is in the iPhone tier and not a
tablet, hence a smartphone, mobile-quick and mobile-long; scenario 4 (an Android
tablet) is not mobile-quick. -/
theorem C32_iphone_tier_is_mobile_witness :
    ((uagent_info.uagent_info scenario3 []).DetectTierIphone = true
      ∧ (uagent_info.uagent_info scenario3 []).DetectTierTablet = false
      ∧ (uagent_info.uagent_info scenario3 []).DetectSmartphone = true
      ∧ (uagent_info.uagent_info scenario3 []).DetectMobileQuick = true
      ∧ (uagent_info.uagent_info scenario3 []).DetectMobileLong = true)
    ∧ ((uagent_info.uagent_info scenario4 []).DetectTierTablet = true
      ∧ (uagent_info.uagent_info scenario4 []).DetectMobileQuick = false) :=
  ⟨⟨by decide, by decide,
      (C32_iphone_tier_is_mobile scenario3 []).1 (by decide) (by decide)⟩,
    ⟨by decide, (C32_iphone_tier_is_mobile scenario4 []).2.1 (by decide)⟩⟩

end MobileESP
